import Mathlib

/-!
# Hole-In-The-Wall: a shallow embedding of the game core

The C sources `platforms.c`, `player.c`, `powerup.c` and `game.c` are embedded
as pure functions over explicit state records.  Machine integers are natural
numbers with an explicit reduction modulo `2^8` or `2^16` wherever the C code
stores into a `uint8_t` or `uint16_t` object.  The pseudo random source
`random()` is an explicit argument (the value drawn by the call).  The two
divisions by a floating constant are computed in a binary floating-point
format with correct rounding, at the 24-bit significand of the target.
-/

namespace HoleInTheWall

/-! ## Machine integers -/

/-- Conversion of a value to `uint8_t` (store into an 8-bit object). -/
def u8 (n : Nat) : Nat := n % 256

/-- Conversion of a value to `uint16_t` (store into a 16-bit object). -/
def u16 (n : Nat) : Nat := n % 65536

/-- Conversion of a C truth value to the integer it is stored as. -/
def b2n (b : Bool) : Nat := if b then 1 else 0

/-! ## Constants -/

/-- Modelled from the spec: the row count of the LED matrix, a macro of the
absent driver header `ledmat.h`; the spec fixes the matrix to 7 rows. -/
def LEDMAT_ROWS_NUM : Nat := 7

/-- Modelled from the spec: the column count of the LED matrix, a macro of the
absent driver header `ledmat.h`; the spec fixes the matrix to 5 columns. -/
def LEDMAT_COLS_NUM : Nat := 5

/-- The macro `PHASE_HORIZONTAL_PLATFORMS` (value 0) of `platforms.h`. -/
def PHASE_HORIZONTAL_PLATFORMS : Bool := false

/-- The macro `PHASE_VERTICAL_PLATFORMS` (value 1) of `platforms.h`. -/
def PHASE_VERTICAL_PLATFORMS : Bool := true

def INITIAL_WALL_SHIFTS_PER_MINUTE : Nat := 90
def INITIAL_NEW_WALLS_PER_MINUTE : Nat := 30
def MAX_WALL_SHIFTS_PER_MINUTE : Nat := 180
def MAX_NEW_WALLS_PER_MINUTE : Nat := 50

def PACER_RATE : Nat := 500
def DISPLAY_RATE : Nat := 500
def READ_INPUT_RATE : Nat := 50
def GAME_OVER_WAIT_PERIOD : Nat := 2
def PHASE_CHANGEOVER_DURATION : Nat := 35
def PHASE_SWITCHES_PER_MINUTE : Nat := 3
def WALL_SPEED_INCREASE_AMOUNT : Nat := 10
def WALL_CREATE_INREASE_AMOUNT : Nat := 3
def NEW_POWERUPS_PER_MINUTE : Nat := 3
def POWERUP_SCREEN_FLASH_SECONDS : Nat := 1
def MAX_EIGHT_BIT_VAL : Nat := 255
def PLAYER_LED_BLINK_RATE : Nat := 8
def POWERUP_LED_MODULATE_RATE : Nat := 500
def NUM_STATES : Nat := 31

/-! ## platforms.c -/

/-- The static data of `platforms.c`.  `display_matrix r c` is the cell
`display_matrix[r][c]`; only indices `r < 7`, `c < 5` are storage of the
C array, and no embedded function reads or writes outside them. -/
structure Platforms where
  phase : Bool
  wall_shifts_per_minute : Nat
  new_walls_per_minute : Nat
  display_matrix : Nat → Nat → Nat

/-- The assignment `m[row][col] = v` on a cell matrix. -/
def set_cell (m : Nat → Nat → Nat) (row col v : Nat) : Nat → Nat → Nat :=
  fun i j => if i = row ∧ j = col then v else m i j

/-- The matrix with every cell 0 (the static initialiser of `display_matrix`). -/
def empty_matrix : Nat → Nat → Nat := fun _ _ => 0

/-- The contents of the statics of `platforms.c` at program start followed by
`platforms_init`. -/
def platforms_init : Platforms :=
  { phase := PHASE_HORIZONTAL_PLATFORMS
    wall_shifts_per_minute := INITIAL_WALL_SHIFTS_PER_MINUTE
    new_walls_per_minute := INITIAL_NEW_WALLS_PER_MINUTE
    display_matrix := empty_matrix }

/-- The function `create_new_horizontal_wall`; `rnd` is the value returned by
`random()`. -/
def create_new_horizontal_wall (rnd : Nat) (p : Platforms) : Platforms :=
  let col_with_hole := u8 (rnd % LEDMAT_COLS_NUM)
  let m := (List.range LEDMAT_COLS_NUM).foldl
    (fun m col => set_cell m 0 col (b2n (col != col_with_hole)))
    p.display_matrix
  { p with display_matrix := m }

/-- The function `shift_all_rows_down`: rows 6 down to 1 are overwritten in
place by the row above, then row 0 is cleared. -/
def shift_all_rows_down (p : Platforms) : Platforms :=
  let m1 := (List.range' 1 (LEDMAT_ROWS_NUM - 1)).reverse.foldl
    (fun m row => (List.range LEDMAT_COLS_NUM).foldl
      (fun m col => set_cell m row col (m (row - 1) col)) m)
    p.display_matrix
  let m2 := (List.range LEDMAT_COLS_NUM).foldl (fun m col => set_cell m 0 col 0) m1
  { p with display_matrix := m2 }

/-- The function `create_new_vertical_wall`; `rnd` is the value returned by
`random()`. -/
def create_new_vertical_wall (rnd : Nat) (p : Platforms) : Platforms :=
  let row_with_hole := u8 (rnd % LEDMAT_ROWS_NUM)
  let second_row_with_hole := u8 ((row_with_hole + 1) % LEDMAT_ROWS_NUM)
  let m := (List.range LEDMAT_ROWS_NUM).foldl
    (fun m row =>
      set_cell m row 0 (b2n (!(row == row_with_hole || row == second_row_with_hole))))
    p.display_matrix
  { p with display_matrix := m }

/-- The function `create_new_wall`. -/
def create_new_wall (rnd : Nat) (p : Platforms) : Platforms :=
  if p.phase == PHASE_HORIZONTAL_PLATFORMS then
    create_new_horizontal_wall rnd p
  else
    create_new_vertical_wall rnd p

/-- The function `shift_all_columns_right`: columns 4 down to 1 are overwritten
in place by the column to the left, then column 0 is cleared. -/
def shift_all_columns_right (p : Platforms) : Platforms :=
  let m1 := (List.range' 1 (LEDMAT_COLS_NUM - 1)).reverse.foldl
    (fun m col => (List.range LEDMAT_ROWS_NUM).foldl
      (fun m row => set_cell m row col (m row (col - 1))) m)
    p.display_matrix
  let m2 := (List.range LEDMAT_ROWS_NUM).foldl (fun m row => set_cell m row 0 0) m1
  { p with display_matrix := m2 }

/-- The function `shift_all_walls`. -/
def shift_all_walls (p : Platforms) : Platforms :=
  if p.phase == PHASE_HORIZONTAL_PLATFORMS then
    shift_all_rows_down p
  else
    shift_all_columns_right p

/-- The function `get_col_pattern`: the accumulator `pattern` is a `uint8_t`,
so every `|=` stores modulo 256. -/
def get_col_pattern (p : Platforms) (col : Nat) : Nat :=
  (List.range LEDMAT_ROWS_NUM).foldl
    (fun pattern i => u8 (pattern ||| (p.display_matrix i col <<< i))) 0

/-- The function `change_phase`. -/
def change_phase (p : Platforms) : Platforms :=
  if p.phase == PHASE_HORIZONTAL_PLATFORMS then
    { p with phase := PHASE_VERTICAL_PLATFORMS }
  else
    { p with phase := PHASE_HORIZONTAL_PLATFORMS }

/-- The function `get_phase`. -/
def get_phase (p : Platforms) : Bool := p.phase

/-- The function `clear_all_walls`. -/
def clear_all_walls (p : Platforms) : Platforms :=
  let m := (List.range LEDMAT_ROWS_NUM).foldl
    (fun m i => (List.range LEDMAT_COLS_NUM).foldl (fun m j => set_cell m i j 0) m)
    p.display_matrix
  { p with display_matrix := m }

/-! ## Floating-point division

The two getters below divide an 8-bit rate by a floating constant.  In C the
rate is converted to `double`, the literal is rounded to `double`, the quotient
is rounded to `double` (round to nearest, ties to even) and the result is
truncated on conversion to `uint8_t`.  The width of `double` belongs to the
compiler: avr-gcc, which builds the game for the ATmega32U2, uses the 32-bit
IEEE single format (24 significand bits); a hosted compiler uses the 64-bit
format (53 bits).  The arithmetic is embedded for any significand width; the
exponent range plays no part for the values at hand (between 0.8 and 213). -/

/-- A non-negative finite binary floating-point value `man * 2 ^ exp`. -/
structure Fp where
  man : Nat
  exp : Int
deriving DecidableEq

/-- Number of binary digits of `n` within `fuel` halvings. -/
def bit_length_fuel : Nat → Nat → Nat
  | 0, _ => 0
  | fuel + 1, n => if n = 0 then 0 else bit_length_fuel fuel (n / 2) + 1

/-- Number of binary digits of `n` (0 for 0). -/
def bit_length (n : Nat) : Nat := bit_length_fuel n n

/-- The integer nearest to `num / den`, ties going to the even one. -/
def round_half_even (num den : Nat) : Nat :=
  let q := num / den
  let r := num % den
  if 2 * r < den then q
  else if den < 2 * r then q + 1
  else if q % 2 = 0 then q else q + 1

/-- The fraction `num / den` multiplied by `2 ^ s`, again as a fraction. -/
def scale_pow2 (num den : Nat) (s : Int) : Nat × Nat :=
  if 0 ≤ s then (num * 2 ^ s.toNat, den) else (num, den * 2 ^ (-s).toNat)

/-- Rounding of the fraction `num / den` to a floating-point value with `prec`
significand bits, to nearest with ties to even: the fraction is scaled by the
power of two that brings it into `[2 ^ (prec - 1), 2 ^ prec)` and rounded to an
integer there. -/
def fp_round (prec num den : Nat) : Fp :=
  if num = 0 then ⟨0, 0⟩ else
    let s0 : Int := (prec : Int) - 1 - ((bit_length num : Int) - (bit_length den : Int))
    let nd0 := scale_pow2 num den s0
    let s : Int := if 2 ^ (prec - 1) * nd0.2 ≤ nd0.1 then s0 else s0 + 1
    let nd := scale_pow2 num den s
    ⟨round_half_even nd.1 nd.2, -s⟩

/-- Floating-point division `a / b` (for `b` not zero): the exact quotient of
the two values, rounded once. -/
def fp_div (prec : Nat) (a b : Fp) : Fp :=
  fp_round prec (a.man * 2 ^ (a.exp - b.exp).toNat) (b.man * 2 ^ (b.exp - a.exp).toNat)

/-- Conversion of a floating-point value to an integer type: the fractional
part is discarded. -/
def fp_trunc (f : Fp) : Nat :=
  if 0 ≤ f.exp then f.man * 2 ^ f.exp.toNat else f.man / 2 ^ (-f.exp).toNat

/-- The C expression `x / LITERAL` converted to an integer, for an integer `x`
and a decimal literal given as a fraction, in a `double` of `prec` significand
bits: both operands are converted to `double`, divided, and the quotient is
truncated. -/
def double_div_literal (prec x : Nat) (literal : Nat × Nat) : Nat :=
  fp_trunc (fp_div prec (fp_round prec x 1) (fp_round prec literal.1 literal.2))

/-- The significand width of `double` under avr-gcc, the compiler of the game's
target (the macro `DBL_MANT_DIG` of its `float.h`): `double` is the 32-bit IEEE
single format. -/
def DBL_MANT_DIG : Nat := 24

/-- The macro `VERTICAL_WALL_SPEED_DIVISOR` of `platforms.c`: the decimal literal
`1.2`, written as the fraction 12 / 10. -/
def VERTICAL_WALL_SPEED_DIVISOR : Nat × Nat := (12, 10)

/-- The macro `VERTICAL_WALL_CREATION_SPEED_DIVISOR` of `platforms.c`: the
decimal literal `1.5`, written as the fraction 15 / 10. -/
def VERTICAL_WALL_CREATION_SPEED_DIVISOR : Nat × Nat := (15, 10)

/-- A floating-point value `f` of `prec` significand bits is a nearest one to
the fraction `num / den`: its significand is normalised and it lies within half
a unit in the last place of the fraction. -/
def is_nearest (prec num den : Nat) (f : Fp) : Prop :=
  2 ^ (prec - 1) ≤ f.man ∧ f.man ≤ 2 ^ prec ∧
  2 * (scale_pow2 num den (-f.exp)).1 ≤ (2 * f.man + 1) * (scale_pow2 num den (-f.exp)).2 ∧
  (2 * f.man - 1) * (scale_pow2 num den (-f.exp)).2 ≤ 2 * (scale_pow2 num den (-f.exp)).1

instance (prec num den : Nat) (f : Fp) : Decidable (is_nearest prec num den f) := by
  unfold is_nearest
  infer_instance

/-- The function `get_wall_shifts_per_minute`.  In Vertical phase the C code
returns `wall_shifts_per_minute / VERTICAL_WALL_SPEED_DIVISOR`: a division in
`double`, converted to `uint8_t` by the return. -/
def get_wall_shifts_per_minute (p : Platforms) : Nat :=
  if p.phase == PHASE_HORIZONTAL_PLATFORMS then
    p.wall_shifts_per_minute
  else
    u8 (double_div_literal DBL_MANT_DIG p.wall_shifts_per_minute VERTICAL_WALL_SPEED_DIVISOR)

/-- The function `get_new_walls_per_minute`.  In Vertical phase the C code
returns `new_walls_per_minute / VERTICAL_WALL_CREATION_SPEED_DIVISOR`: a
division in `double`, converted to `uint8_t` by the return. -/
def get_new_walls_per_minute (p : Platforms) : Nat :=
  if p.phase == PHASE_HORIZONTAL_PLATFORMS then
    p.new_walls_per_minute
  else
    u8 (double_div_literal DBL_MANT_DIG p.new_walls_per_minute
      VERTICAL_WALL_CREATION_SPEED_DIVISOR)

/-- The function `increase_wall_shifts_per_minute`: the `+=` stores into a
`uint8_t`, then the stored value is clamped. -/
def increase_wall_shifts_per_minute (extra_shift_rate : Nat) (p : Platforms) : Platforms :=
  let w := u8 (p.wall_shifts_per_minute + extra_shift_rate)
  { p with wall_shifts_per_minute :=
      if w > MAX_WALL_SHIFTS_PER_MINUTE then MAX_WALL_SHIFTS_PER_MINUTE else w }

/-- The function `increase_new_walls_per_minute`: the `+=` stores into a
`uint8_t`, then the stored value is clamped. -/
def increase_new_walls_per_minute (extra_creation_rate : Nat) (p : Platforms) : Platforms :=
  let w := u8 (p.new_walls_per_minute + extra_creation_rate)
  { p with new_walls_per_minute :=
      if w > MAX_NEW_WALLS_PER_MINUTE then MAX_NEW_WALLS_PER_MINUTE else w }

/-- The function `walls_reset`. -/
def walls_reset (p : Platforms) : Platforms :=
  { clear_all_walls p with
    wall_shifts_per_minute := INITIAL_WALL_SHIFTS_PER_MINUTE
    new_walls_per_minute := INITIAL_NEW_WALLS_PER_MINUTE
    phase := PHASE_HORIZONTAL_PLATFORMS }

/-! ## player.c -/

/-- The static data of `player.c`: `player_pos` and `player_led_state`. -/
structure Player where
  row : Nat
  col : Nat
  player_led_state : Bool

/-- The function `player_init`. -/
def player_init : Player := { row := 6, col := 2, player_led_state := false }

/-- The function `toggle_player_led_state`. -/
def toggle_player_led_state (pl : Player) : Player :=
  { pl with player_led_state := !pl.player_led_state }

def set_player_col (col : Nat) (pl : Player) : Player := { pl with col := col }
def set_player_row (row : Nat) (pl : Player) : Player := { pl with row := row }
def get_player_col (pl : Player) : Nat := pl.col
def get_player_row (pl : Player) : Nat := pl.row

/-! ## powerup.c -/

/-- The static data of `powerup.c`: `powerup_pos`, `powerup_led_state` and
`powerup_visible`. -/
structure Powerup where
  row : Nat
  col : Nat
  powerup_led_state : Nat
  powerup_visible : Bool

/-- The static initialisers of `powerup.c` (the game never calls
`powerup_init`). -/
def powerup_boot : Powerup :=
  { row := 0, col := 0, powerup_led_state := 0, powerup_visible := false }

/-! ## game.c -/

/-- The static data reachable from `game.c`: the three modules, the file-level
statics of `game.c` and the function-level static counters of its
subroutines. -/
structure Game where
  platforms : Platforms
  player : Player
  powerup : Powerup
  phase_switch_counter : Nat
  new_platform_counter : Nat
  player_has_powerup : Bool
  screen_is_flashing : Bool
  read_button_counter : Nat
  display_counter : Nat
  current_render_col : Nat
  platform_fall_counter : Nat
  player_led_blink_counter : Nat
  powerup_led_modulate_counter : Nat
  read_navswitch_counter : Nat
  phase_changeover_counter : Nat
  powerup_creation_counter : Nat
  powerup_flash_screen_counter : Nat

/-- The static data when `main` enters its loop: every counter holds its static
initialiser 0 and `player_init`, `platforms_init` have run. -/
def boot : Game :=
  { platforms := platforms_init
    player := player_init
    powerup := powerup_boot
    phase_switch_counter := 0
    new_platform_counter := 0
    player_has_powerup := false
    screen_is_flashing := false
    read_button_counter := 0
    display_counter := 0
    current_render_col := 0
    platform_fall_counter := 0
    player_led_blink_counter := 0
    powerup_led_modulate_counter := 0
    read_navswitch_counter := 0
    phase_changeover_counter := 0
    powerup_creation_counter := 0
    powerup_flash_screen_counter := 0 }

/-- The function `is_player_colliding_with_platform`: the `uint8_t` pattern
masked with `1 << row`, converted to `bool` (non-zero is true). -/
def is_player_colliding_with_platform (p : Platforms) (pl : Player) : Bool :=
  (get_col_pattern p (get_player_col pl) &&& (1 <<< get_player_row pl)) != 0

/-- The function `subroutine_read_button`.  The second component tells whether
the call invoked the driver function `button_update`. -/
def subroutine_read_button (g : Game) : Game × Bool :=
  if g.read_button_counter ≥ PACER_RATE / READ_INPUT_RATE then
    ({ g with read_button_counter := u8 (0 + 1) }, true)
  else
    ({ g with read_button_counter := u8 (g.read_button_counter + 1) }, false)

/-- C integer division: undefined (no result) for a zero divisor. -/
def c_div (a b : Nat) : Option Nat := if b = 0 then none else some (a / b)

/-- The first statement of `subroutine_walls`: the shift of the walls at the
current shift rate. -/
def walls_shift_step (g : Game) : Option Game :=
  match c_div (PACER_RATE * 60) (get_wall_shifts_per_minute g.platforms) with
  | none => none
  | some threshold =>
    if g.platform_fall_counter ≥ threshold then
      some { g with platform_fall_counter := 0, platforms := shift_all_walls g.platforms }
    else
      some g

/-- The condition of the second statement of `subroutine_walls`; the division
is evaluated only when the left operand of `&&` is true. -/
def walls_create_due (in_phase_changeover_period : Bool) (g : Game) : Option Bool :=
  if in_phase_changeover_period then
    some false
  else
    match c_div (PACER_RATE * 60) (get_new_walls_per_minute g.platforms) with
    | none => none
    | some threshold => some (decide (g.new_platform_counter ≥ threshold))

/-- The function `subroutine_walls`.  The argument `score` is the value
behind the pointer on entry, the second component of the result the value behind
it on return; `rnd` is the value `random()` returns if a wall is created. -/
def subroutine_walls (in_phase_changeover_period : Bool) (score rnd : Nat) (g : Game) :
    Option (Game × Nat) :=
  match walls_shift_step g with
  | none => none
  | some g1 =>
    match walls_create_due in_phase_changeover_period g1 with
    | none => none
    | some true =>
      some ({ g1 with
                platforms := create_new_wall rnd g1.platforms
                platform_fall_counter := u16 (g1.platform_fall_counter + 1)
                new_platform_counter := u16 (0 + 1) },
            u8 (score + 1))
    | some false =>
      some ({ g1 with
                platform_fall_counter := u16 (g1.platform_fall_counter + 1)
                new_platform_counter := u16 (g1.new_platform_counter + 1) },
            score)

/-- The function `subroutine_check_phase_switch`; the boolean is the value
behind the pointer `in_phase_changeover_period`. -/
def subroutine_check_phase_switch (in_phase_changeover_period : Bool) (g : Game) :
    Game × Bool :=
  if g.phase_switch_counter ≥ PACER_RATE * 60 / PHASE_SWITCHES_PER_MINUTE then
    ({ g with phase_switch_counter := u16 (0 + 1), new_platform_counter := 0 }, true)
  else
    ({ g with phase_switch_counter := u16 (g.phase_switch_counter + 1) },
      in_phase_changeover_period)

/-- The function `subroutine_player_blink`. -/
def subroutine_player_blink (g : Game) : Game :=
  if g.player_led_blink_counter ≥ PACER_RATE / PLAYER_LED_BLINK_RATE then
    { g with
      player := toggle_player_led_state g.player
      player_led_blink_counter := u8 (0 + 1) }
  else
    { g with player_led_blink_counter := u8 (g.player_led_blink_counter + 1) }

/-- The movement of the player on an input poll of `subroutine_read_navswitch`;
the four booleans are what `navswitch_push_event_p` answers for the four
directions after the `navswitch_update` of this poll. -/
def navswitch_move (east west north south : Bool) (phase : Bool) (pl : Player) : Player :=
  if east then
    if get_player_col pl < LEDMAT_COLS_NUM - 1 then
      set_player_col (u8 (get_player_col pl + 1)) pl
    else if get_player_col pl == LEDMAT_COLS_NUM - 1 && phase == PHASE_HORIZONTAL_PLATFORMS then
      set_player_col 0 pl
    else pl
  else if west then
    if get_player_col pl > 0 then
      set_player_col (u8 (get_player_col pl - 1)) pl
    else if get_player_col pl == 0 && phase == PHASE_HORIZONTAL_PLATFORMS then
      set_player_col (u8 (LEDMAT_COLS_NUM - 1)) pl
    else pl
  else if north then
    if get_player_row pl > 0 then
      set_player_row (u8 (get_player_row pl - 1)) pl
    else if get_player_row pl == 0 && phase == PHASE_VERTICAL_PLATFORMS then
      set_player_row (u8 (LEDMAT_ROWS_NUM - 1)) pl
    else pl
  else if south then
    if get_player_row pl < LEDMAT_ROWS_NUM - 1 then
      set_player_row (u8 (get_player_row pl + 1)) pl
    else if get_player_row pl == LEDMAT_ROWS_NUM - 1 && phase == PHASE_VERTICAL_PLATFORMS then
      set_player_row 0 pl
    else pl
  else pl

/-- The function `subroutine_read_navswitch`. -/
def subroutine_read_navswitch (east west north south : Bool) (g : Game) : Game :=
  if g.read_navswitch_counter ≥ PACER_RATE / READ_INPUT_RATE then
    { g with
      player := navswitch_move east west north south (get_phase g.platforms) g.player
      read_navswitch_counter := u8 (0 + 1) }
  else
    { g with read_navswitch_counter := u8 (g.read_navswitch_counter + 1) }

/-- The function `subroutine_phase_changeover`; the boolean is the value
behind the pointer `in_phase_changeover_period`. -/
def subroutine_phase_changeover (in_phase_changeover_period : Bool) (g : Game) :
    Game × Bool :=
  let counter := u16 (g.phase_changeover_counter + 1)
  if counter ≥ PACER_RATE * PHASE_CHANGEOVER_DURATION / 10 then
    ({ g with
        phase_changeover_counter := 0
        platforms :=
          increase_new_walls_per_minute WALL_CREATE_INREASE_AMOUNT
            (increase_wall_shifts_per_minute WALL_SPEED_INCREASE_AMOUNT
              (change_phase (clear_all_walls g.platforms))) },
      false)
  else
    ({ g with phase_changeover_counter := counter }, in_phase_changeover_period)

/-! ## Runs of calls -/

/-- The static data after `n` consecutive calls of `subroutine_read_button`. -/
def read_button_calls : Nat → Game → Game
  | 0, g => g
  | n + 1, g => (subroutine_read_button (read_button_calls n g)).1

/-- Whether call number `n` (counted from boot, starting at 1) of
`subroutine_read_button` invokes `button_update`. -/
def button_update_on_call (n : Nat) : Bool :=
  (subroutine_read_button (read_button_calls (n - 1) boot)).2

/-- The rate divider of the game loop over a `uint8_t` counter, with the
threshold as a parameter: fire and reset the counter to 0 when
`counter >= t`, then increment.  The result is the stored counter and whether
the call fired. -/
def rate_divider (t counter : Nat) : Nat × Bool :=
  if counter ≥ t then (u8 (0 + 1), true) else (u8 (counter + 1), false)

/-- The counter of a rate divider after `n` calls from the static
initialiser 0. -/
def rate_divider_counter (t : Nat) : Nat → Nat
  | 0 => 0
  | n + 1 => (rate_divider t (rate_divider_counter t n)).1

/-- Whether call number `n` (counted from boot, starting at 1) of a rate
divider with threshold `t` fires. -/
def rate_divider_fires (t n : Nat) : Bool :=
  (rate_divider t (rate_divider_counter t (n - 1))).2

/-- The static data after `k` consecutive calls of
`subroutine_phase_changeover` inside changeover windows, together with the
number of those calls that completed a changeover (ended the window). -/
def changeover_calls : Nat → Game → Game × Nat
  | 0, g => (g, 0)
  | k + 1, g =>
    let r := subroutine_phase_changeover true (changeover_calls k g).1
    (r.1, if r.2 then (changeover_calls k g).2 else (changeover_calls k g).2 + 1)

/-- The platform data after the first statement of `subroutine_walls`. -/
def platforms_after_shift_step (g : Game) : Platforms :=
  if g.platform_fall_counter ≥ PACER_RATE * 60 / get_wall_shifts_per_minute g.platforms then
    shift_all_walls g.platforms
  else
    g.platforms

/-- The state `g` with the platform module reset by `walls_reset` (the reset
difficulty). -/
def with_walls_reset (g : Game) : Game :=
  { g with platforms := walls_reset g.platforms }

/-- The state `g` with the changeover counter at its static initialiser 0
(the start of a whole changeover window). -/
def at_window_start (g : Game) : Game :=
  { g with phase_changeover_counter := 0 }

/-! ## Powerups, reset and the main loop -/

/-- The function `increment_powerup_led_state` of `powerup.c`. -/
def increment_powerup_led_state (pu : Powerup) : Powerup :=
  { pu with powerup_led_state := u8 ((pu.powerup_led_state + 1) % NUM_STATES) }

/-- The function `create_powerup` of `powerup.c`; `rnd_row` and `rnd_col` are
the values returned by its two calls of `random()`, in that order. -/
def create_powerup (rnd_row rnd_col : Nat) (pu : Powerup) : Powerup :=
  { pu with
    row := u8 (rnd_row % LEDMAT_ROWS_NUM)
    col := u8 (rnd_col % LEDMAT_COLS_NUM)
    powerup_visible := true }

/-- The function `destroy_powerup` of `powerup.c`. -/
def destroy_powerup (pu : Powerup) : Powerup :=
  { pu with powerup_visible := false, powerup_led_state := 0 }

/-- The function `powerup_is_visible` of `powerup.c`. -/
def powerup_is_visible (pu : Powerup) : Bool := pu.powerup_visible

def get_powerup_col (pu : Powerup) : Nat := pu.col
def get_powerup_row (pu : Powerup) : Nat := pu.row

/-- The function `is_player_colliding_with_powerup` of `game.c`. -/
def is_player_colliding_with_powerup (pl : Player) (pu : Powerup) : Bool :=
  get_player_col pl == get_powerup_col pu && get_player_row pl == get_powerup_row pu
    && powerup_is_visible pu

/-- The function `subroutine_display`.  Only the two static counters are state;
the second component is the column handed to `ledmat_display_column` by this
call, if any. -/
def subroutine_display (g : Game) : Game × Option Nat :=
  if g.display_counter ≥ PACER_RATE / DISPLAY_RATE then
    ({ g with
        current_render_col := u8 ((g.current_render_col + 1) % LEDMAT_COLS_NUM)
        display_counter := u8 (g.display_counter + 1) },
      some g.current_render_col)
  else
    ({ g with display_counter := u8 (g.display_counter + 1) }, none)

/-- The function `subroutine_powerup_modulate`. -/
def subroutine_powerup_modulate (g : Game) : Game :=
  if powerup_is_visible g.powerup &&
      g.powerup_led_modulate_counter ≥ PACER_RATE / POWERUP_LED_MODULATE_RATE then
    { g with
      powerup := increment_powerup_led_state g.powerup
      powerup_led_modulate_counter := u8 (0 + 1) }
  else
    { g with powerup_led_modulate_counter := u8 (g.powerup_led_modulate_counter + 1) }

/-- The first statement of `subroutine_powerup` (collect the powerup).  The
calls of `led_set` only drive an output pin and are not state. -/
def powerup_collect_step (g : Game) : Game :=
  if is_player_colliding_with_powerup g.player g.powerup && !g.player_has_powerup then
    { g with player_has_powerup := true, powerup := destroy_powerup g.powerup }
  else
    g

/-- The second statement of `subroutine_powerup` (use the powerup); `button` is
what `button_push_event_p(0)` answers. -/
def powerup_use_step (button : Bool) (g : Game) : Game :=
  if button && g.player_has_powerup then
    { g with
      player_has_powerup := false
      platforms := clear_all_walls g.platforms
      screen_is_flashing := true }
  else
    g

/-- The third statement of `subroutine_powerup` (create a powerup at the rate
`NEW_POWERUPS_PER_MINUTE`) and the increment of its counter. -/
def powerup_create_step (rnd_row rnd_col : Nat) (g : Game) : Game :=
  if g.powerup_creation_counter ≥ (PACER_RATE * 60) / NEW_POWERUPS_PER_MINUTE then
    if !g.player_has_powerup then
      { g with
        powerup := create_powerup rnd_row rnd_col g.powerup
        powerup_creation_counter := u16 (0 + 1) }
    else
      { g with powerup_creation_counter := u16 (0 + 1) }
  else
    { g with powerup_creation_counter := u16 (g.powerup_creation_counter + 1) }

/-- The last statement of `subroutine_powerup` (end the flash after
`POWERUP_SCREEN_FLASH_SECONDS`). -/
def powerup_flash_step (g : Game) : Game :=
  if g.screen_is_flashing then
    if u16 (g.powerup_flash_screen_counter + 1) ≥ PACER_RATE / POWERUP_SCREEN_FLASH_SECONDS then
      { g with
        powerup_flash_screen_counter := 0
        screen_is_flashing := false
        new_platform_counter := 0 }
    else
      { g with
        powerup_flash_screen_counter := u16 (g.powerup_flash_screen_counter + 1)
        new_platform_counter := 0 }
  else
    g

/-- The function `subroutine_powerup`: its four statements in order. -/
def subroutine_powerup (button : Bool) (rnd_row rnd_col : Nat) (g : Game) : Game :=
  powerup_flash_step
    (powerup_create_step rnd_row rnd_col (powerup_use_step button (powerup_collect_step g)))

/-- The function `reset_game` (`led_set` only drives an output pin). -/
def reset_game (g : Game) : Game :=
  { g with
    platforms := walls_reset g.platforms
    player := player_init
    phase_switch_counter := 0
    player_has_powerup := false }

/-- The local variables of `main` together with the static data. -/
structure Main where
  g : Game
  in_phase_changeover_period : Bool
  game_over : Bool
  interface_mode : Bool
  game_over_wait_timer : Nat
  score : Nat
  first_startup_counter : Nat

/-- The state of `main` when it enters its loop. -/
def main_boot : Main :=
  { g := boot
    in_phase_changeover_period := false
    game_over := false
    interface_mode := true
    game_over_wait_timer := 0
    score := 0
    first_startup_counter := 0 }

/-- What the environment supplies during one iteration of the main loop: the
answer of `button_push_event_p(0)`, the answers of `navswitch_push_event_p` for
the four directions, and the values `random()` would return for a new wall and
for a new powerup. -/
structure TickInput where
  button : Bool
  east : Bool
  west : Bool
  north : Bool
  south : Bool
  rnd_wall : Nat
  rnd_row : Nat
  rnd_col : Nat

/-- The head of the loop body of `main` up to the end of the `interface_mode`
block.  The second component is false when the iteration ends there with
`continue`. -/
def interface_step (button : Bool) (m : Main) : Main × Bool :=
  let fsc :=
    if m.first_startup_counter < MAX_EIGHT_BIT_VAL then u8 (m.first_startup_counter + 1)
    else m.first_startup_counter
  let g1 := (subroutine_read_button m.g).1
  if m.interface_mode then
    if button && fsc == MAX_EIGHT_BIT_VAL then
      ({ m with
          first_startup_counter := fsc
          score := 0
          game_over := false
          interface_mode := false
          g := reset_game g1 },
        true)
    else
      ({ m with first_startup_counter := fsc, g := g1 }, false)
  else
    ({ m with first_startup_counter := fsc, g := g1 }, true)

/-- The block `if (!game_over) { ... }` of the loop body of `main`. -/
def simulation_step (inp : TickInput) (m : Main) : Option Main :=
  match subroutine_walls m.in_phase_changeover_period m.score inp.rnd_wall m.g with
  | none => none
  | some (g1, score1) =>
    let r2 := subroutine_check_phase_switch m.in_phase_changeover_period g1
    let g3 := subroutine_read_navswitch inp.east inp.west inp.north inp.south r2.1
    let r4 := if r2.2 then subroutine_phase_changeover r2.2 g3 else (g3, r2.2)
    let g5 := subroutine_powerup inp.button inp.rnd_row inp.rnd_col r4.1
    some { m with g := g5, score := score1, in_phase_changeover_period := r4.2 }

/-- The loop body of `main` after the `interface_mode` block. -/
def playing_step (inp : TickInput) (m : Main) : Option Main :=
  let game_over := is_player_colliding_with_platform m.g.platforms m.g.player
  if game_over && m.game_over_wait_timer ≥ GAME_OVER_WAIT_PERIOD * PACER_RATE then
    some { m with
            game_over := game_over
            interface_mode := true
            game_over_wait_timer := 0
            g := reset_game m.g }
  else
    let g1 := subroutine_powerup_modulate (subroutine_player_blink (subroutine_display m.g).1)
    if !game_over then
      simulation_step inp { m with game_over := game_over, g := g1 }
    else
      some { m with
              game_over := game_over
              g := g1
              game_over_wait_timer := u16 (m.game_over_wait_timer + 1) }

/-- One iteration of the loop of `main` (one tick of the pacer). -/
def main_tick (inp : TickInput) (m : Main) : Option Main :=
  let r := interface_step inp.button m
  if r.2 then playing_step inp r.1 else some r.1

/-- The loop of `main` run from state `m` for one iteration per element of
the input list. -/
def main_run : List TickInput → Main → Option Main
  | [], m => some m
  | inp :: rest, m =>
    match main_tick inp m with
    | none => none
    | some m1 => main_run rest m1

/-- The platform data in Vertical phase with the given stored rates and an
empty grid. -/
def vertical_with_rates (shift create : Nat) : Platforms :=
  { phase := PHASE_VERTICAL_PLATFORMS
    wall_shifts_per_minute := shift
    new_walls_per_minute := create
    display_matrix := empty_matrix }

/-- A game state in which a powerup created with the draws 3 and 2 is on the
board and not yet collected. -/
def boot_with_visible_powerup : Game :=
  { boot with powerup := create_powerup 3 2 boot.powerup }

/-- The stored difficulty is within `[initial, max]` for both rates. -/
def rates_in_range (p : Platforms) : Prop :=
  INITIAL_WALL_SHIFTS_PER_MINUTE ≤ p.wall_shifts_per_minute ∧
  p.wall_shifts_per_minute ≤ MAX_WALL_SHIFTS_PER_MINUTE ∧
  INITIAL_NEW_WALLS_PER_MINUTE ≤ p.new_walls_per_minute ∧
  p.new_walls_per_minute ≤ MAX_NEW_WALLS_PER_MINUTE

/-- Every cell of the grid is 0. -/
def grid_clear (p : Platforms) : Prop :=
  ∀ r c, r < LEDMAT_ROWS_NUM → c < LEDMAT_COLS_NUM → p.display_matrix r c = 0

/-- The player position is inside the grid. -/
def player_in_bounds (pl : Player) : Prop :=
  pl.row < LEDMAT_ROWS_NUM ∧ pl.col < LEDMAT_COLS_NUM

/-- Whether the second statement of `subroutine_walls` creates a wall. -/
def wall_due (in_phase_changeover_period : Bool) (g : Game) : Bool :=
  !in_phase_changeover_period &&
    decide (g.new_platform_counter ≥ PACER_RATE * 60 / get_new_walls_per_minute g.platforms)

/-- The invariant of the main loop at tick boundaries: the stored rates are in
range, the player is in bounds, and the game-over timer is 0 unless the loop
is outside interface mode with the player inside a wall. -/
def loop_invariant (m : Main) : Prop :=
  rates_in_range m.g.platforms ∧ player_in_bounds m.g.player ∧
  (m.game_over_wait_timer = 0 ∨
    (m.interface_mode = false ∧
      is_player_colliding_with_platform m.g.platforms m.g.player = true))

/-- The static data `g1` agrees with `g` on everything the simulation reads
or the player sees: the platforms, the positions of player and powerup, the
powerup visibility and hold, the flash data and the wall-spawn counter. -/
def same_simulation_data (g g1 : Game) : Prop :=
  g1.platforms = g.platforms ∧
  g1.player.row = g.player.row ∧ g1.player.col = g.player.col ∧
  g1.powerup.row = g.powerup.row ∧ g1.powerup.col = g.powerup.col ∧
  g1.powerup.powerup_visible = g.powerup.powerup_visible ∧
  g1.player_has_powerup = g.player_has_powerup ∧
  g1.screen_is_flashing = g.screen_is_flashing ∧
  g1.powerup_flash_screen_counter = g.powerup_flash_screen_counter ∧
  g1.new_platform_counter = g.new_platform_counter

/-- The state of `main` at boot with the startup counter saturated. -/
def main_boot_settled : Main :=
  { main_boot with first_startup_counter := MAX_EIGHT_BIT_VAL }

/-- A tick input with the button push event set and nothing else. -/
def button_press : TickInput :=
  { button := true, east := false, west := false, north := false, south := false,
    rnd_wall := 0, rnd_row := 0, rnd_col := 0 }

/-- A state of `main` outside interface mode in which row 6 is a full wall, so
that the player at its initial position (row 6, col 2) is inside a wall. -/
def main_in_wall : Main :=
  { g := { boot with
            platforms := { platforms_init with
                            display_matrix := fun r _ => if r = 6 then 1 else 0 } }
    in_phase_changeover_period := false
    game_over := false
    interface_mode := false
    game_over_wait_timer := 0
    score := 7
    first_startup_counter := MAX_EIGHT_BIT_VAL }

/-- A game state at boot in which the player holds a powerup. -/
def boot_holding_powerup : Game :=
  { boot with player_has_powerup := true }

/-- The state of `main` outside interface mode at the tick boundary after the
call of `subroutine_powerup` that used the powerup of `boot_holding_powerup`. -/
def main_after_use : Main :=
  { g := subroutine_powerup true 0 0 boot_holding_powerup
    in_phase_changeover_period := false
    game_over := false
    interface_mode := false
    game_over_wait_timer := 0
    score := 7
    first_startup_counter := MAX_EIGHT_BIT_VAL }

/-- A game state in play with `new_platform_counter` at 500. -/
def boot_mid_game : Game :=
  { boot with new_platform_counter := 500 }

/-- The per-column bitmask view of the grid, in the spec's words: shifting all
rows down doubles the 7-bit column pattern and drops the bit of the last row. -/
def bitmask_shift_rows_down (pattern : Nat) : Nat := (2 * pattern) % 128

/-- The per-column bitmask view of the grid, in the spec's words: shifting all
columns right gives column `c` the pattern of column `c - 1` and column 0 the
empty pattern. -/
def bitmask_shift_columns_right (patterns : Nat → Nat) (c : Nat) : Nat :=
  if c = 0 then 0 else patterns (c - 1)

/-- The per-column bitmask view of the grid, in the spec's words: the cleared
grid has the empty pattern in every column. -/
def bitmask_clear (_c : Nat) : Nat := 0

/-- The static data after `n` consecutive calls of `subroutine_display`. -/
def display_calls : Nat → Game → Game
  | 0, g => g
  | n + 1, g => (subroutine_display (display_calls n g)).1

/-- The column painted by call number `n` (counted from boot, starting at 1) of
`subroutine_display`, if the call paints one. -/
def display_paints (n : Nat) : Option Nat :=
  (subroutine_display (display_calls (n - 1) boot)).2

/-- The number of painting calls among the first `n` calls of
`subroutine_display` from boot. -/
def painting_calls_upto : Nat → Nat
  | 0 => 0
  | n + 1 => painting_calls_upto n + (if (display_paints (n + 1)).isSome then 1 else 0)

/-- The flash invariant of the main loop at tick boundaries: while the flash is
asserted the grid is clear, the wall-spawn counter is 0 and the loop is in play
(outside interface mode, `game_over` false). -/
def flash_invariant (m : Main) : Prop :=
  m.g.screen_is_flashing = true →
    grid_clear m.g.platforms ∧ m.g.new_platform_counter = 0 ∧
    m.interface_mode = false ∧ m.game_over = false

/-! ## Column patterns and collision -/


theorem get_col_pattern_unfold (p : Platforms) (c : Nat) :
    get_col_pattern p c =
      u8 (u8 (u8 (u8 (u8 (u8 (u8 (0 ||| (p.display_matrix 0 c <<< 0))
        ||| (p.display_matrix 1 c <<< 1)) ||| (p.display_matrix 2 c <<< 2))
        ||| (p.display_matrix 3 c <<< 3)) ||| (p.display_matrix 4 c <<< 4))
        ||| (p.display_matrix 5 c <<< 5)) ||| (p.display_matrix 6 c <<< 6)) := rfl

theorem pattern_bits : ∀ a0 a1 a2 a3 a4 a5 a6 : Bool, ∀ r : Fin 7,
    (u8 (u8 (u8 (u8 (u8 (u8 (u8 (0 ||| (b2n a0 <<< 0))
        ||| (b2n a1 <<< 1)) ||| (b2n a2 <<< 2))
        ||| (b2n a3 <<< 3)) ||| (b2n a4 <<< 4))
        ||| (b2n a5 <<< 5)) ||| (b2n a6 <<< 6))).testBit r.val
      = [a0, a1, a2, a3, a4, a5, a6].getD r.val false := by
  decide

theorem pattern_mask : ∀ a0 a1 a2 a3 a4 a5 a6 : Bool, ∀ r : Fin 7,
    (((u8 (u8 (u8 (u8 (u8 (u8 (u8 (0 ||| (b2n a0 <<< 0))
        ||| (b2n a1 <<< 1)) ||| (b2n a2 <<< 2))
        ||| (b2n a3 <<< 3)) ||| (b2n a4 <<< 4))
        ||| (b2n a5 <<< 5)) ||| (b2n a6 <<< 6))) &&& (1 <<< r.val)) != 0)
      = [a0, a1, a2, a3, a4, a5, a6].getD r.val false := by
  decide

theorem binary_cell_eq (x : Nat) (h : x = 0 ∨ x = 1) : x = b2n (decide (x = 1)) := by
  rcases h with h | h <;> simp [h, b2n]

theorem get_col_pattern_testBit (p : Platforms) (c r : Nat)
    (hbin : ∀ i, i < LEDMAT_ROWS_NUM →
      p.display_matrix i c = 0 ∨ p.display_matrix i c = 1)
    (hr : r < LEDMAT_ROWS_NUM) :
    (get_col_pattern p c).testBit r = decide (p.display_matrix r c = 1) := by
  simp only [LEDMAT_ROWS_NUM] at hbin hr
  rw [get_col_pattern_unfold,
    binary_cell_eq _ (hbin 0 (by omega)), binary_cell_eq _ (hbin 1 (by omega)),
    binary_cell_eq _ (hbin 2 (by omega)), binary_cell_eq _ (hbin 3 (by omega)),
    binary_cell_eq _ (hbin 4 (by omega)), binary_cell_eq _ (hbin 5 (by omega)),
    binary_cell_eq _ (hbin 6 (by omega))]
  have h := pattern_bits (decide (p.display_matrix 0 c = 1)) (decide (p.display_matrix 1 c = 1))
    (decide (p.display_matrix 2 c = 1)) (decide (p.display_matrix 3 c = 1))
    (decide (p.display_matrix 4 c = 1)) (decide (p.display_matrix 5 c = 1))
    (decide (p.display_matrix 6 c = 1)) ⟨r, hr⟩
  rw [h]
  interval_cases r <;> simp [b2n]

theorem collision_eq_cell (p : Platforms) (pl : Player)
    (hbin : ∀ i, i < LEDMAT_ROWS_NUM →
      p.display_matrix i pl.col = 0 ∨ p.display_matrix i pl.col = 1)
    (hr : pl.row < LEDMAT_ROWS_NUM) :
    is_player_colliding_with_platform p pl = decide (p.display_matrix pl.row pl.col = 1) := by
  simp only [LEDMAT_ROWS_NUM] at hbin hr
  unfold is_player_colliding_with_platform get_player_col get_player_row
  rw [get_col_pattern_unfold,
    binary_cell_eq _ (hbin 0 (by omega)), binary_cell_eq _ (hbin 1 (by omega)),
    binary_cell_eq _ (hbin 2 (by omega)), binary_cell_eq _ (hbin 3 (by omega)),
    binary_cell_eq _ (hbin 4 (by omega)), binary_cell_eq _ (hbin 5 (by omega)),
    binary_cell_eq _ (hbin 6 (by omega))]
  have h := pattern_mask (decide (p.display_matrix 0 pl.col = 1))
    (decide (p.display_matrix 1 pl.col = 1)) (decide (p.display_matrix 2 pl.col = 1))
    (decide (p.display_matrix 3 pl.col = 1)) (decide (p.display_matrix 4 pl.col = 1))
    (decide (p.display_matrix 5 pl.col = 1)) (decide (p.display_matrix 6 pl.col = 1))
    ⟨pl.row, hr⟩
  rw [h]
  generalize pl.row = r at hr ⊢
  interval_cases r <;> simp [b2n]

/-- C1: for every grid whose cells are 0 or 1, every column `c < 5` and every
row `r < 7`, bit `r` of `get_col_pattern c` is set iff `display_matrix[r][c]`
is 1; and for every player position with row below 7 and column below 5,
`is_player_colliding_with_platform` is true iff the cell at the player's
row and column is a wall cell. -/
theorem C1_collision_iff_wall_cell (p : Platforms) (pl : Player)
    (hbin : ∀ r c, r < LEDMAT_ROWS_NUM → c < LEDMAT_COLS_NUM →
      p.display_matrix r c = 0 ∨ p.display_matrix r c = 1)
    (hrow : pl.row < LEDMAT_ROWS_NUM) (hcol : pl.col < LEDMAT_COLS_NUM) :
    (∀ c r, c < LEDMAT_COLS_NUM → r < LEDMAT_ROWS_NUM →
      ((get_col_pattern p c).testBit r = true ↔ p.display_matrix r c = 1)) ∧
    (is_player_colliding_with_platform p pl = true ↔
      p.display_matrix pl.row pl.col = 1) := by
  constructor
  · intro c r hc hr
    rw [get_col_pattern_testBit p c r (fun i hi => hbin i c hi hc) hr]
    simp
  · rw [collision_eq_cell p pl (fun i hi => hbin i pl.col hi hcol) hrow]
    simp

/-- Witness for C1: a horizontal wall with its gap at column 3 in row 0, the
player standing at row 0, column 2. -/
theorem C1_collision_iff_wall_cell_witness :
    is_player_colliding_with_platform
        { platforms_init with display_matrix := fun r c => if r = 0 ∧ c ≠ 3 then 1 else 0 }
        { row := 0, col := 2, player_led_state := false } = true ↔
      (if (0 : Nat) = 0 ∧ (2 : Nat) ≠ 3 then 1 else 0) = 1 :=
  (C1_collision_iff_wall_cell
    { platforms_init with display_matrix := fun r c => if r = 0 ∧ c ≠ 3 then 1 else 0 }
    { row := 0, col := 2, player_led_state := false }
    (by intro r c _ _; dsimp only; split <;> simp)
    (by decide) (by decide)).2

/-! ## Shifting and wall creation -/

theorem range_rows : List.range LEDMAT_ROWS_NUM = [0, 1, 2, 3, 4, 5, 6] := by decide

theorem range_cols : List.range LEDMAT_COLS_NUM = [0, 1, 2, 3, 4] := by decide

theorem rows_descending :
    (List.range' 1 (LEDMAT_ROWS_NUM - 1)).reverse = [6, 5, 4, 3, 2, 1] := by decide

theorem cols_descending :
    (List.range' 1 (LEDMAT_COLS_NUM - 1)).reverse = [4, 3, 2, 1] := by decide

theorem shift_all_rows_down_cell (p : Platforms) (r c : Nat)
    (hr : r < LEDMAT_ROWS_NUM) (hc : c < LEDMAT_COLS_NUM) :
    (shift_all_rows_down p).display_matrix r c =
      if r = 0 then 0 else p.display_matrix (r - 1) c := by
  simp only [LEDMAT_ROWS_NUM, LEDMAT_COLS_NUM] at hr hc
  simp only [shift_all_rows_down, range_cols, rows_descending, List.foldl]
  interval_cases r <;> interval_cases c <;> simp [set_cell]

theorem shift_all_columns_right_cell (p : Platforms) (r c : Nat)
    (hr : r < LEDMAT_ROWS_NUM) (hc : c < LEDMAT_COLS_NUM) :
    (shift_all_columns_right p).display_matrix r c =
      if c = 0 then 0 else p.display_matrix r (c - 1) := by
  simp only [LEDMAT_ROWS_NUM, LEDMAT_COLS_NUM] at hr hc
  simp only [shift_all_columns_right, range_rows, cols_descending, List.foldl]
  interval_cases r <;> interval_cases c <;> simp [set_cell]

theorem create_new_horizontal_wall_cell (rnd : Nat) (p : Platforms) (r c : Nat)
    (hc : c < LEDMAT_COLS_NUM) :
    (create_new_horizontal_wall rnd p).display_matrix r c =
      if r = 0 then (if c = rnd % LEDMAT_COLS_NUM then 0 else 1)
      else p.display_matrix r c := by
  simp only [LEDMAT_COLS_NUM] at hc
  obtain ⟨k, hk, hk'⟩ : ∃ k, k < 5 ∧ rnd % 5 = k := ⟨_, Nat.mod_lt _ (by decide), rfl⟩
  simp only [create_new_horizontal_wall, range_cols, List.foldl]
  simp only [LEDMAT_COLS_NUM, hk']
  by_cases h0 : r = 0
  · subst h0
    interval_cases k <;> interval_cases c <;> simp [set_cell, b2n, u8]
  · simp [set_cell, h0]

theorem create_new_vertical_wall_cell (rnd : Nat) (p : Platforms) (r c : Nat)
    (hr : r < LEDMAT_ROWS_NUM) :
    (create_new_vertical_wall rnd p).display_matrix r c =
      if c = 0 then
        (if r = rnd % LEDMAT_ROWS_NUM ∨ r = (rnd % LEDMAT_ROWS_NUM + 1) % LEDMAT_ROWS_NUM
          then 0 else 1)
      else p.display_matrix r c := by
  simp only [LEDMAT_ROWS_NUM] at hr
  obtain ⟨k, hk, hk'⟩ : ∃ k, k < 7 ∧ rnd % 7 = k := ⟨_, Nat.mod_lt _ (by decide), rfl⟩
  simp only [create_new_vertical_wall, range_rows, List.foldl]
  simp only [LEDMAT_ROWS_NUM, hk']
  by_cases h0 : c = 0
  · subst h0
    interval_cases k <;> interval_cases r <;> simp [set_cell, b2n, u8]
  · simp [set_cell, h0]

/-- C2: `shift_all_walls` preserves every wall cell except at the trailing
edge.  In Horizontal phase the new cell `(r, c)` is the old cell `(r-1, c)` for
`r` in 1..6 and every column, and row 0 is clear; in Vertical phase the new
cell `(r, c)` is the old cell `(r, c-1)` for `c` in 1..4 and every row, and
column 0 is clear. -/
theorem C2_shift_preserves_cells (p : Platforms) :
    (p.phase = PHASE_HORIZONTAL_PLATFORMS →
      (∀ r c, 1 ≤ r → r < LEDMAT_ROWS_NUM → c < LEDMAT_COLS_NUM →
        (shift_all_walls p).display_matrix r c = p.display_matrix (r - 1) c) ∧
      (∀ c, c < LEDMAT_COLS_NUM → (shift_all_walls p).display_matrix 0 c = 0)) ∧
    (p.phase = PHASE_VERTICAL_PLATFORMS →
      (∀ r c, r < LEDMAT_ROWS_NUM → 1 ≤ c → c < LEDMAT_COLS_NUM →
        (shift_all_walls p).display_matrix r c = p.display_matrix r (c - 1)) ∧
      (∀ r, r < LEDMAT_ROWS_NUM → (shift_all_walls p).display_matrix r 0 = 0)) := by
  refine ⟨fun hp => ⟨fun r c h1 hr hc => ?_, fun c hc => ?_⟩,
    fun hp => ⟨fun r c hr h1 hc => ?_, fun r hr => ?_⟩⟩
  · have h : shift_all_walls p = shift_all_rows_down p := by simp [shift_all_walls, hp]
    rw [h, shift_all_rows_down_cell p r c hr hc, if_neg (by omega)]
  · have h : shift_all_walls p = shift_all_rows_down p := by simp [shift_all_walls, hp]
    rw [h, shift_all_rows_down_cell p 0 c (by decide) hc, if_pos rfl]
  · have h : shift_all_walls p = shift_all_columns_right p := by
      simp [shift_all_walls, hp, PHASE_HORIZONTAL_PLATFORMS, PHASE_VERTICAL_PLATFORMS]
    rw [h, shift_all_columns_right_cell p r c hr hc, if_neg (by omega)]
  · have h : shift_all_walls p = shift_all_columns_right p := by
      simp [shift_all_walls, hp, PHASE_HORIZONTAL_PLATFORMS, PHASE_VERTICAL_PLATFORMS]
    rw [h, shift_all_columns_right_cell p r 0 hr (by decide), if_pos rfl]

/-- Witness for C2: a horizontal wall with gap column 3 in row 0 is found in
row 1 after one shift in Horizontal phase. -/
theorem C2_shift_preserves_cells_witness :
    (shift_all_walls (create_new_horizontal_wall 3 platforms_init)).display_matrix 1 2 =
      (create_new_horizontal_wall 3 platforms_init).display_matrix (1 - 1) 2 :=
  ((C2_shift_preserves_cells (create_new_horizontal_wall 3 platforms_init)).1 rfl).1 1 2
    (by decide) (by decide) (by decide)

/-- C3: for every grid and every random draw `v`, after
`create_new_horizontal_wall` row 0 has exactly one clear column, `v mod 5`,
every other cell of row 0 is 1, and rows 1..6 are unchanged; for gap column 3
row 0 is `(1,1,1,0,1)` indexed by column. -/
theorem C3_horizontal_wall_one_gap (p : Platforms) (v : Nat) :
    (∀ c, c < LEDMAT_COLS_NUM →
      ((create_new_horizontal_wall v p).display_matrix 0 c = 0 ↔ c = v % LEDMAT_COLS_NUM)) ∧
    (∀ c, c < LEDMAT_COLS_NUM → c ≠ v % LEDMAT_COLS_NUM →
      (create_new_horizontal_wall v p).display_matrix 0 c = 1) ∧
    ((List.range LEDMAT_COLS_NUM).filter
      (fun c => (create_new_horizontal_wall v p).display_matrix 0 c == 0)).length = 1 ∧
    (∀ r c, 1 ≤ r → r < LEDMAT_ROWS_NUM → c < LEDMAT_COLS_NUM →
      (create_new_horizontal_wall v p).display_matrix r c = p.display_matrix r c) ∧
    (v % LEDMAT_COLS_NUM = 3 →
      (List.range LEDMAT_COLS_NUM).map ((create_new_horizontal_wall v p).display_matrix 0)
        = [1, 1, 1, 0, 1]) := by
  have hcell : ∀ c, c < LEDMAT_COLS_NUM →
      (create_new_horizontal_wall v p).display_matrix 0 c =
        if c = v % LEDMAT_COLS_NUM then 0 else 1 := by
    intro c hc
    rw [create_new_horizontal_wall_cell v p 0 c hc, if_pos rfl]
  refine ⟨fun c hc => ?_, fun c hc hne => ?_, ?_, fun r c h1 _ hc => ?_, fun h3 => ?_⟩
  · rw [hcell c hc]; split <;> simp_all
  · rw [hcell c hc, if_neg hne]
  · have hf : ∀ c ∈ List.range LEDMAT_COLS_NUM,
        ((create_new_horizontal_wall v p).display_matrix 0 c == 0)
          = decide (c = v % LEDMAT_COLS_NUM) := by
      intro c hc
      rw [hcell c (List.mem_range.mp hc)]
      split <;> simp_all
    rw [List.filter_congr hf, range_cols]
    obtain ⟨k, hk, hk'⟩ : ∃ k, k < 5 ∧ v % LEDMAT_COLS_NUM = k :=
      ⟨_, Nat.mod_lt _ (by decide), rfl⟩
    rw [hk']
    interval_cases k <;> decide
  · rw [create_new_horizontal_wall_cell v p r c hc, if_neg (by omega)]
  · simp only [range_cols, List.map]
    rw [hcell 0 (by decide), hcell 1 (by decide), hcell 2 (by decide), hcell 3 (by decide),
      hcell 4 (by decide), h3]
    simp

/-- Witness for C3: the draw 8 has gap column 3 and yields row 0 equal to
`(1,1,1,0,1)`. -/
theorem C3_horizontal_wall_one_gap_witness :
    (List.range LEDMAT_COLS_NUM).map
        ((create_new_horizontal_wall 8 platforms_init).display_matrix 0)
      = [1, 1, 1, 0, 1] :=
  (C3_horizontal_wall_one_gap platforms_init 8).2.2.2.2 (by decide)

/-- C4: for every grid and every random draw `v`, after
`create_new_vertical_wall` column 0 has exactly two clear rows, `r = v mod 7`
and `(r+1) mod 7`, which are distinct; the other five cells of column 0 are 1;
columns 1..4 are unchanged. -/
theorem C4_vertical_wall_two_gaps (p : Platforms) (v : Nat) :
    v % LEDMAT_ROWS_NUM ≠ (v % LEDMAT_ROWS_NUM + 1) % LEDMAT_ROWS_NUM ∧
    v % LEDMAT_ROWS_NUM < LEDMAT_ROWS_NUM ∧
    (v % LEDMAT_ROWS_NUM + 1) % LEDMAT_ROWS_NUM < LEDMAT_ROWS_NUM ∧
    (∀ r, r < LEDMAT_ROWS_NUM →
      ((create_new_vertical_wall v p).display_matrix r 0 = 0 ↔
        (r = v % LEDMAT_ROWS_NUM ∨ r = (v % LEDMAT_ROWS_NUM + 1) % LEDMAT_ROWS_NUM))) ∧
    (∀ r, r < LEDMAT_ROWS_NUM → r ≠ v % LEDMAT_ROWS_NUM →
      r ≠ (v % LEDMAT_ROWS_NUM + 1) % LEDMAT_ROWS_NUM →
      (create_new_vertical_wall v p).display_matrix r 0 = 1) ∧
    ((List.range LEDMAT_ROWS_NUM).filter
      (fun r => (create_new_vertical_wall v p).display_matrix r 0 == 0)).length = 2 ∧
    ((List.range LEDMAT_ROWS_NUM).filter
      (fun r => (create_new_vertical_wall v p).display_matrix r 0 == 1)).length = 5 ∧
    (∀ r c, r < LEDMAT_ROWS_NUM → 1 ≤ c → c < LEDMAT_COLS_NUM →
      (create_new_vertical_wall v p).display_matrix r c = p.display_matrix r c) := by
  have hcell : ∀ r, r < LEDMAT_ROWS_NUM →
      (create_new_vertical_wall v p).display_matrix r 0 =
        if r = v % LEDMAT_ROWS_NUM ∨ r = (v % LEDMAT_ROWS_NUM + 1) % LEDMAT_ROWS_NUM
          then 0 else 1 := by
    intro r hr
    rw [create_new_vertical_wall_cell v p r 0 hr, if_pos rfl]
  obtain ⟨k, hk, hk'⟩ : ∃ k, k < 7 ∧ v % LEDMAT_ROWS_NUM = k :=
    ⟨_, Nat.mod_lt _ (by decide), rfl⟩
  rw [hk'] at hcell ⊢
  refine ⟨?_, ?_, ?_, fun r hr => ?_, fun r hr h0 h1 => ?_, ?_, ?_, fun r c hr h1 _ => ?_⟩
  · simp only [LEDMAT_ROWS_NUM]; omega
  · exact hk
  · exact Nat.mod_lt _ (by decide)
  · rw [hcell r hr]; split <;> simp_all
  · rw [hcell r hr, if_neg (by simp [h0, h1])]
  · have hf : ∀ r ∈ List.range LEDMAT_ROWS_NUM,
        ((create_new_vertical_wall v p).display_matrix r 0 == 0)
          = decide (r = k ∨ r = (k + 1) % LEDMAT_ROWS_NUM) := by
      intro r hr
      rw [hcell r (List.mem_range.mp hr)]
      split <;> simp_all
    rw [List.filter_congr hf, range_rows]
    interval_cases k <;> decide
  · have hf : ∀ r ∈ List.range LEDMAT_ROWS_NUM,
        ((create_new_vertical_wall v p).display_matrix r 0 == 1)
          = !decide (r = k ∨ r = (k + 1) % LEDMAT_ROWS_NUM) := by
      intro r hr
      rw [hcell r (List.mem_range.mp hr)]
      split <;> simp_all
    rw [List.filter_congr hf, range_rows]
    interval_cases k <;> decide
  · rw [create_new_vertical_wall_cell v p r c hr, if_neg (by omega)]

/-- Witness for C4: the draw 6 clears rows 6 and 0 of column 0 (the gap wraps);
row 3 of column 0, being neither, is set. -/
theorem C4_vertical_wall_two_gaps_witness :
    (create_new_vertical_wall 6 platforms_init).display_matrix 3 0 = 1 :=
  (C4_vertical_wall_two_gaps platforms_init 6).2.2.2.2.1 3 (by decide) (by decide) (by decide)

/-! ## Rate dividers -/

theorem rate_divider_counter_succ (t n : Nat) :
    rate_divider_counter t (n + 1) =
      if rate_divider_counter t n ≥ t then 1 else u8 (rate_divider_counter t n + 1) := by
  show (rate_divider t (rate_divider_counter t n)).1 = _
  unfold rate_divider
  split <;> simp [u8]

theorem rate_divider_fires_iff_counter (t n : Nat) :
    rate_divider_fires t n = true ↔ rate_divider_counter t (n - 1) ≥ t := by
  unfold rate_divider_fires rate_divider
  split <;> simp_all

theorem rate_divider_counter_decomp (t : Nat) (h1 : 1 ≤ t) (h255 : t ≤ 255) (n : Nat) :
    ∃ q, n = q * t + rate_divider_counter t n ∧ rate_divider_counter t n ≤ t ∧
      (1 ≤ n → 1 ≤ rate_divider_counter t n) := by
  induction n with
  | zero => exact ⟨0, by simp [rate_divider_counter], by simp [rate_divider_counter], by simp⟩
  | succ n ih =>
    obtain ⟨q, hq, hle, _⟩ := ih
    rw [rate_divider_counter_succ]
    by_cases hge : rate_divider_counter t n ≥ t
    · rw [if_pos hge]
      have hc : rate_divider_counter t n = t := le_antisymm hle hge
      refine ⟨q + 1, ?_, h1, fun _ => le_refl 1⟩
      rw [hc] at hq
      rw [Nat.add_mul, Nat.one_mul]
      omega
    · rw [if_neg hge]
      have hu : u8 (rate_divider_counter t n + 1) = rate_divider_counter t n + 1 := by
        unfold u8; apply Nat.mod_eq_of_lt; omega
      rw [hu]
      exact ⟨q, by omega, by omega, fun _ => by omega⟩

theorem rate_divider_counter_lt (t n : Nat) : rate_divider_counter t n < 256 := by
  cases n with
  | zero => simp [rate_divider_counter]
  | succ n =>
    rw [rate_divider_counter_succ]
    split
    · decide
    · exact Nat.mod_lt _ (by decide)

/-- Call `n` of a rate divider with threshold `t ≥ 1` fires exactly when the
threshold fits the 8-bit counter, `n > 1` and `t` divides `n - 1`. -/
theorem rate_divider_fires_iff (t : Nat) (h1 : 1 ≤ t) (n : Nat) :
    rate_divider_fires t n = true ↔ (t ≤ 255 ∧ 1 < n ∧ t ∣ (n - 1)) := by
  rw [rate_divider_fires_iff_counter]
  by_cases h255 : t ≤ 255
  · obtain ⟨q, hq, hle, hpos⟩ := rate_divider_counter_decomp t h1 h255 (n - 1)
    constructor
    · intro hge
      have hc : rate_divider_counter t (n - 1) = t := le_antisymm hle hge
      rw [hc] at hq
      refine ⟨h255, ?_, ⟨q + 1, ?_⟩⟩
      · have : t ≤ n - 1 := by rw [hq]; exact Nat.le_add_left _ _
        omega
      · rw [Nat.mul_add, Nat.mul_one, Nat.mul_comm]; exact hq
    · rintro ⟨_, hn, hdvd⟩
      have hcpos : 1 ≤ rate_divider_counter t (n - 1) := hpos (by omega)
      have hd : t ∣ rate_divider_counter t (n - 1) := by
        have h2 : t ∣ q * t + rate_divider_counter t (n - 1) := by rw [← hq]; exact hdvd
        exact (Nat.dvd_add_right (Dvd.intro_left q rfl)).mp h2
      exact Nat.le_of_dvd hcpos hd
  · have hlt := rate_divider_counter_lt t (n - 1)
    constructor
    · intro hge; omega
    · rintro ⟨h, _, _⟩; exact absurd h h255

theorem subroutine_read_button_divider (g : Game) :
    (subroutine_read_button g).1.read_button_counter =
        (rate_divider (PACER_RATE / READ_INPUT_RATE) g.read_button_counter).1 ∧
      (subroutine_read_button g).2 =
        (rate_divider (PACER_RATE / READ_INPUT_RATE) g.read_button_counter).2 := by
  unfold subroutine_read_button rate_divider
  split <;> simp

theorem read_button_calls_counter (n : Nat) :
    (read_button_calls n boot).read_button_counter =
      rate_divider_counter (PACER_RATE / READ_INPUT_RATE) n := by
  induction n with
  | zero => rfl
  | succ n ih =>
    show (subroutine_read_button (read_button_calls n boot)).1.read_button_counter =
      (rate_divider _ (rate_divider_counter _ n)).1
    rw [(subroutine_read_button_divider _).1, ih]

theorem button_update_on_call_eq (n : Nat) :
    button_update_on_call n = rate_divider_fires (PACER_RATE / READ_INPUT_RATE) n := by
  unfold button_update_on_call rate_divider_fires
  rw [(subroutine_read_button_divider _).2, read_button_calls_counter]

/-- C5 (as the code has it): the input rate divider has threshold
`500 / 50 = 10` and, counting calls of `subroutine_read_button` from boot
starting at 1, `button_update` is invoked on call `n` iff `n > 1` and
`n mod 10 = 1`, that is on the 11th, 21st, 31st, ... call. -/
theorem C5_read_button_fires_after_multiples (n : Nat) :
    PACER_RATE / READ_INPUT_RATE = 10 ∧
    (button_update_on_call n = true ↔ (1 < n ∧ n % 10 = 1)) := by
  refine ⟨by decide, ?_⟩
  rw [button_update_on_call_eq, rate_divider_fires_iff _ (by decide)]
  have h10 : PACER_RATE / READ_INPUT_RATE = 10 := by decide
  rw [h10]
  constructor
  · rintro ⟨_, h1, hd⟩
    exact ⟨h1, by omega⟩
  · rintro ⟨h1, hm⟩
    exact ⟨by decide, h1, by omega⟩

/-- Witness for C5: call 21 invokes `button_update`. -/
theorem C5_read_button_fires_after_multiples_witness :
    button_update_on_call 21 = true :=
  ((C5_read_button_fires_after_multiples 21).2).mpr ⟨by decide, by decide⟩

/-- Counterexample for C5 as stated: the 10th call of `subroutine_read_button`
does not invoke `button_update`; the first invocation is on the 11th call. -/
theorem C5_tenth_call_does_not_fire :
    button_update_on_call 10 = false ∧ button_update_on_call 11 = true ∧
    ¬ (∀ n, 1 ≤ n → (button_update_on_call n = true ↔ (0 < n ∧ n % 10 = 0))) := by
  refine ⟨by decide, by decide, fun h => ?_⟩
  have h10 := (h 10 (by decide)).mpr ⟨by decide, by decide⟩
  exact absurd h10 (by decide)

/-- C6: for every constant threshold `t ≥ 1`, the rate divider of the game loop
(fire and reset to 0 when the 8-bit counter is at least `t`, then increment),
run from boot, has any two consecutive fires exactly `t` calls apart, and for
`t > 1` never fires on two consecutive calls.  For thresholds that fit the
counter the fires are exactly the calls `n > 1` with `t` dividing `n - 1`.
The dividers of `subroutine_read_button`, `subroutine_player_blink` and
`subroutine_read_navswitch` are instances. -/
theorem C6_rate_divider_period (t : Nat) (ht : 1 ≤ t) :
    (∀ i j, i < j → rate_divider_fires t i = true → rate_divider_fires t j = true →
      (∀ k, i < k → k < j → rate_divider_fires t k = false) → j = i + t) ∧
    (1 < t → ∀ i, ¬ (rate_divider_fires t i = true ∧ rate_divider_fires t (i + 1) = true)) ∧
    (t ≤ 255 → ∀ n, (rate_divider_fires t n = true ↔ (1 < n ∧ t ∣ (n - 1)))) ∧
    (∀ g, (subroutine_read_button g).1.read_button_counter =
        (rate_divider (PACER_RATE / READ_INPUT_RATE) g.read_button_counter).1 ∧
      (subroutine_read_button g).2 =
        (rate_divider (PACER_RATE / READ_INPUT_RATE) g.read_button_counter).2) ∧
    (∀ g, (subroutine_player_blink g).player_led_blink_counter =
        (rate_divider (PACER_RATE / PLAYER_LED_BLINK_RATE) g.player_led_blink_counter).1 ∧
      (subroutine_player_blink g).player.player_led_state =
        xor g.player.player_led_state
          (rate_divider (PACER_RATE / PLAYER_LED_BLINK_RATE) g.player_led_blink_counter).2) ∧
    (∀ east west north south g,
      (subroutine_read_navswitch east west north south g).read_navswitch_counter =
        (rate_divider (PACER_RATE / READ_INPUT_RATE) g.read_navswitch_counter).1 ∧
      ((subroutine_read_navswitch east west north south g).player ≠ g.player →
        (rate_divider (PACER_RATE / READ_INPUT_RATE) g.read_navswitch_counter).2 = true)) := by
  refine ⟨fun i j hij hi hj hnone => ?_, fun ht1 i hboth => ?_, fun h255 n => ?_,
    subroutine_read_button_divider, fun g => ?_, fun east west north south g => ?_⟩
  · rw [rate_divider_fires_iff t ht] at hi hj
    obtain ⟨h255, hi1, hdi⟩ := hi
    obtain ⟨_, hj1, hdj⟩ := hj
    have hk : rate_divider_fires t (i + t) = true := by
      rw [rate_divider_fires_iff t ht]
      refine ⟨h255, by omega, ?_⟩
      have he : i + t - 1 = (i - 1) + t := by omega
      rw [he]
      exact Nat.dvd_add hdi (dvd_refl t)
    have hdiff : t ∣ (j - 1) - (i - 1) := Nat.dvd_sub' hdj hdi
    have hge : t ≤ (j - 1) - (i - 1) := Nat.le_of_dvd (by omega) hdiff
    by_contra hne
    have hlt : i + t < j := by omega
    have := hnone (i + t) (by omega) hlt
    rw [hk] at this
    exact Bool.noConfusion this
  · rw [rate_divider_fires_iff t ht, rate_divider_fires_iff t ht] at hboth
    obtain ⟨⟨_, hi1, hdi⟩, ⟨_, _, hdi'⟩⟩ := hboth
    have he : i + 1 - 1 = (i - 1) + 1 := by omega
    rw [he] at hdi'
    have h1 : t ∣ 1 := (Nat.dvd_add_right hdi).mp hdi'
    have := Nat.le_of_dvd (by decide) h1
    omega
  · rw [rate_divider_fires_iff t ht]
    constructor
    · rintro ⟨_, h⟩; exact h
    · intro h; exact ⟨h255, h⟩
  · unfold subroutine_player_blink rate_divider toggle_player_led_state
    split <;> simp
  · unfold subroutine_read_navswitch rate_divider
    split <;> simp

/-- Witness for C6: with threshold 10 the calls 11 and 21 fire, no call
between them does, and they are 10 calls apart. -/
theorem C6_rate_divider_period_witness :
    rate_divider_fires 10 11 = true ∧ rate_divider_fires 10 21 = true ∧ 21 = 11 + 10 :=
  ⟨by decide, by decide,
    (C6_rate_divider_period 10 (by decide)).1 11 21 (by decide) (by decide) (by decide)
      (by intro k h1 h2; interval_cases k <;> decide)⟩

/-! ## Wall pacing and score -/

theorem shift_all_walls_rates (p : Platforms) :
    (shift_all_walls p).phase = p.phase ∧
    (shift_all_walls p).wall_shifts_per_minute = p.wall_shifts_per_minute ∧
    (shift_all_walls p).new_walls_per_minute = p.new_walls_per_minute := by
  unfold shift_all_walls
  split <;> simp [shift_all_rows_down, shift_all_columns_right]

theorem get_new_walls_per_minute_shift (p : Platforms) :
    get_new_walls_per_minute (shift_all_walls p) = get_new_walls_per_minute p := by
  obtain ⟨h1, _, h3⟩ := shift_all_walls_rates p
  simp [get_new_walls_per_minute, h1, h3]

theorem walls_shift_step_eq (g : Game) (hs : 1 ≤ get_wall_shifts_per_minute g.platforms) :
    ∃ g1, walls_shift_step g = some g1 ∧
      g1.platforms = platforms_after_shift_step g ∧
      g1.new_platform_counter = g.new_platform_counter ∧
      get_new_walls_per_minute g1.platforms = get_new_walls_per_minute g.platforms := by
  have hs0 : get_wall_shifts_per_minute g.platforms ≠ 0 := by omega
  unfold walls_shift_step c_div platforms_after_shift_step
  rw [if_neg hs0]
  by_cases hge : g.platform_fall_counter ≥ PACER_RATE * 60 / get_wall_shifts_per_minute g.platforms
  · simp only [if_pos hge]
    exact ⟨_, rfl, rfl, rfl, get_new_walls_per_minute_shift _⟩
  · simp only [if_neg hge]
    exact ⟨_, rfl, rfl, rfl, rfl⟩

/-- C7 (as the code has it): for every game state with logical rates of at
least 1 and every 8-bit score, a call of `subroutine_walls` outside a changeover
window with `new_platform_counter` at or above its threshold creates a wall and
stores `(score + 1) mod 256`, which is `score + 1` for every score below 255; a
call outside a changeover window below the threshold, and every call during a
changeover window, creates no wall and leaves the score unchanged. -/
theorem C7_score_per_wall_creation (g : Game) (score rnd : Nat)
    (hscore : score < 256)
    (hs : 1 ≤ get_wall_shifts_per_minute g.platforms)
    (hc : 1 ≤ get_new_walls_per_minute g.platforms) :
    (g.new_platform_counter ≥ PACER_RATE * 60 / get_new_walls_per_minute g.platforms →
      ∃ g2, subroutine_walls false score rnd g = some (g2, (score + 1) % 256) ∧
        g2.platforms = create_new_wall rnd (platforms_after_shift_step g) ∧
        (score < 255 → (score + 1) % 256 = score + 1)) ∧
    (g.new_platform_counter < PACER_RATE * 60 / get_new_walls_per_minute g.platforms →
      ∃ g2, subroutine_walls false score rnd g = some (g2, score) ∧
        g2.platforms = platforms_after_shift_step g) ∧
    (∃ g2, subroutine_walls true score rnd g = some (g2, score) ∧
      g2.platforms = platforms_after_shift_step g) := by
  obtain ⟨g1, hg1, hp, hcnt, hrate⟩ := walls_shift_step_eq g hs
  have hc0 : get_new_walls_per_minute g.platforms ≠ 0 := by omega
  refine ⟨fun hge => ?_, fun hlt => ?_, ?_⟩
  · have hdue : walls_create_due false g1 = some true := by
      unfold walls_create_due c_div
      simp only [Bool.false_eq_true, if_false, hrate, hcnt, if_neg hc0]
      simp [hge]
    have hres : subroutine_walls false score rnd g =
        some ({ g1 with
                  platforms := create_new_wall rnd g1.platforms
                  platform_fall_counter := u16 (g1.platform_fall_counter + 1)
                  new_platform_counter := u16 (0 + 1) },
              (score + 1) % 256) := by
      unfold subroutine_walls
      simp only [hg1, hdue]
      rfl
    exact ⟨_, hres, by simp [hp], fun h => Nat.mod_eq_of_lt (by omega)⟩
  · have hdue : walls_create_due false g1 = some false := by
      unfold walls_create_due c_div
      simp only [Bool.false_eq_true, if_false, hrate, hcnt, if_neg hc0]
      simp [hlt]
    have hres : subroutine_walls false score rnd g =
        some ({ g1 with
                  platform_fall_counter := u16 (g1.platform_fall_counter + 1)
                  new_platform_counter := u16 (g1.new_platform_counter + 1) },
              score) := by
      unfold subroutine_walls
      simp only [hg1, hdue]
    exact ⟨_, hres, by simp [hp]⟩
  · have hdue : walls_create_due true g1 = some false := by
      unfold walls_create_due
      simp
    have hres : subroutine_walls true score rnd g =
        some ({ g1 with
                  platform_fall_counter := u16 (g1.platform_fall_counter + 1)
                  new_platform_counter := u16 (g1.new_platform_counter + 1) },
              score) := by
      unfold subroutine_walls
      simp only [hg1, hdue]
    exact ⟨_, hres, by simp [hp]⟩

/-- Witness for C7: at boot rates with `new_platform_counter` at its threshold
1000 and score 41, the call outside a changeover window returns score 42. -/
theorem C7_score_per_wall_creation_witness :
    ∃ g2, subroutine_walls false 41 3 { boot with new_platform_counter := 1000 }
        = some (g2, (41 + 1) % 256) ∧
      g2.platforms = create_new_wall 3
        (platforms_after_shift_step { boot with new_platform_counter := 1000 }) ∧
      (41 < 255 → (41 + 1) % 256 = 41 + 1) :=
  (C7_score_per_wall_creation { boot with new_platform_counter := 1000 } 41 3
    (by decide) (by decide) (by decide)).1 (by decide)

/-- Counterexample for C7 as stated: at score 255 a wall-creating call of
`subroutine_walls` (outside a changeover window, counter at its threshold 1000)
returns score 0, not 256; the wall is created (cell (0,0) becomes 1 for gap
column 3). -/
theorem C7_score_wraps_at_255 :
    (subroutine_walls false 255 3 { boot with new_platform_counter := 1000 }).map
        (fun r => (r.2, r.1.platforms.display_matrix 0 0, r.1.platforms.display_matrix 0 3))
      = some (0, 1, 0) := by
  decide

/-! ## Difficulty -/

theorem changeover_platforms_rates (p : Platforms) :
    (increase_new_walls_per_minute WALL_CREATE_INREASE_AMOUNT
      (increase_wall_shifts_per_minute WALL_SPEED_INCREASE_AMOUNT
        (change_phase (clear_all_walls p)))).wall_shifts_per_minute =
      (increase_wall_shifts_per_minute WALL_SPEED_INCREASE_AMOUNT p).wall_shifts_per_minute ∧
    (increase_new_walls_per_minute WALL_CREATE_INREASE_AMOUNT
      (increase_wall_shifts_per_minute WALL_SPEED_INCREASE_AMOUNT
        (change_phase (clear_all_walls p)))).new_walls_per_minute =
      (increase_new_walls_per_minute WALL_CREATE_INREASE_AMOUNT p).new_walls_per_minute := by
  have h1 : (change_phase (clear_all_walls p)).wall_shifts_per_minute
      = p.wall_shifts_per_minute := by
    unfold change_phase; split <;> rfl
  have h2 : (change_phase (clear_all_walls p)).new_walls_per_minute
      = p.new_walls_per_minute := by
    unfold change_phase; split <;> rfl
  constructor
  · simp only [increase_new_walls_per_minute, increase_wall_shifts_per_minute, h1]
  · simp only [increase_new_walls_per_minute, increase_wall_shifts_per_minute, h2]

theorem increase_wall_shifts_le (e : Nat) (p : Platforms) :
    (increase_wall_shifts_per_minute e p).wall_shifts_per_minute
      ≤ MAX_WALL_SHIFTS_PER_MINUTE := by
  simp only [increase_wall_shifts_per_minute]
  split
  · exact le_refl _
  · omega

theorem increase_new_walls_le (e : Nat) (p : Platforms) :
    (increase_new_walls_per_minute e p).new_walls_per_minute
      ≤ MAX_NEW_WALLS_PER_MINUTE := by
  simp only [increase_new_walls_per_minute]
  split
  · exact le_refl _
  · omega

/-- The effect of one call of `subroutine_phase_changeover` on the stored
rates: either the call completes the changeover and both setters are applied,
or the rates are left as they were. -/
theorem subroutine_phase_changeover_rates (b : Bool) (g : Game) :
    ((subroutine_phase_changeover b g).2 = false ∧
      u16 (g.phase_changeover_counter + 1) ≥ PACER_RATE * PHASE_CHANGEOVER_DURATION / 10 ∧
      (subroutine_phase_changeover b g).1.phase_changeover_counter = 0 ∧
      (subroutine_phase_changeover b g).1.platforms.wall_shifts_per_minute =
        (increase_wall_shifts_per_minute WALL_SPEED_INCREASE_AMOUNT
          g.platforms).wall_shifts_per_minute ∧
      (subroutine_phase_changeover b g).1.platforms.new_walls_per_minute =
        (increase_new_walls_per_minute WALL_CREATE_INREASE_AMOUNT
          g.platforms).new_walls_per_minute) ∨
    ((subroutine_phase_changeover b g).2 = b ∧
      u16 (g.phase_changeover_counter + 1) < PACER_RATE * PHASE_CHANGEOVER_DURATION / 10 ∧
      (subroutine_phase_changeover b g).1.phase_changeover_counter =
        u16 (g.phase_changeover_counter + 1) ∧
      (subroutine_phase_changeover b g).1.platforms = g.platforms) := by
  unfold subroutine_phase_changeover
  by_cases h : u16 (g.phase_changeover_counter + 1)
      ≥ PACER_RATE * PHASE_CHANGEOVER_DURATION / 10
  · left
    rw [if_pos h]
    exact ⟨rfl, h, rfl, (changeover_platforms_rates g.platforms).1,
      (changeover_platforms_rates g.platforms).2⟩
  · right
    rw [if_neg h]
    exact ⟨rfl, by omega, rfl, rfl⟩

theorem changeover_calls_succ (k : Nat) (g : Game) :
    changeover_calls (k + 1) g =
      ((subroutine_phase_changeover true (changeover_calls k g).1).1,
        if (subroutine_phase_changeover true (changeover_calls k g).1).2
          then (changeover_calls k g).2 else (changeover_calls k g).2 + 1) := rfl

theorem changeover_calls_le (g : Game)
    (hw : g.platforms.wall_shifts_per_minute ≤ MAX_WALL_SHIFTS_PER_MINUTE)
    (hn : g.platforms.new_walls_per_minute ≤ MAX_NEW_WALLS_PER_MINUTE) (k : Nat) :
    (changeover_calls k g).1.platforms.wall_shifts_per_minute ≤ MAX_WALL_SHIFTS_PER_MINUTE ∧
    (changeover_calls k g).1.platforms.new_walls_per_minute ≤ MAX_NEW_WALLS_PER_MINUTE := by
  induction k with
  | zero => exact ⟨hw, hn⟩
  | succ k ih =>
    rw [changeover_calls_succ]
    rcases subroutine_phase_changeover_rates true (changeover_calls k g).1 with
      ⟨_, _, _, h1, h2⟩ | ⟨_, _, _, h⟩
    · exact ⟨h1 ▸ increase_wall_shifts_le _ _, h2 ▸ increase_new_walls_le _ _⟩
    · show (subroutine_phase_changeover true (changeover_calls k g).1).1.platforms.wall_shifts_per_minute ≤ _ ∧
        (subroutine_phase_changeover true (changeover_calls k g).1).1.platforms.new_walls_per_minute ≤ _
      rw [h]
      exact ih

/-- C8: for every stored rate and every increment argument, after
`increase_wall_shifts_per_minute` the stored shift rate is at most 180 and after
`increase_new_walls_per_minute` the stored creation rate is at most 50; hence,
from any state whose rates are within their maxima, no sequence of calls of
`subroutine_phase_changeover` (any number of changeovers) makes either rate
exceed its maximum. -/
theorem C8_rates_never_exceed_maxima (p : Platforms) (e : Nat) (g : Game) (k : Nat)
    (hw : g.platforms.wall_shifts_per_minute ≤ MAX_WALL_SHIFTS_PER_MINUTE)
    (hn : g.platforms.new_walls_per_minute ≤ MAX_NEW_WALLS_PER_MINUTE) :
    MAX_WALL_SHIFTS_PER_MINUTE = 180 ∧ MAX_NEW_WALLS_PER_MINUTE = 50 ∧
    (increase_wall_shifts_per_minute e p).wall_shifts_per_minute ≤ 180 ∧
    (increase_new_walls_per_minute e p).new_walls_per_minute ≤ 50 ∧
    (changeover_calls k g).1.platforms.wall_shifts_per_minute ≤ 180 ∧
    (changeover_calls k g).1.platforms.new_walls_per_minute ≤ 50 :=
  ⟨rfl, rfl, increase_wall_shifts_le e p, increase_new_walls_le e p,
    (changeover_calls_le g hw hn k).1, (changeover_calls_le g hw hn k).2⟩

/-- Witness for C8: the stored rate 250 with increment 10 wraps in 8 bits and
stays below the maximum; from boot, 20000 calls of the changeover subroutine
keep both rates within their maxima. -/
theorem C8_rates_never_exceed_maxima_witness :
    (increase_wall_shifts_per_minute 10
      { platforms_init with wall_shifts_per_minute := 250 }).wall_shifts_per_minute ≤ 180 ∧
    (changeover_calls 20000 boot).1.platforms.wall_shifts_per_minute ≤ 180 ∧
    (changeover_calls 20000 boot).1.platforms.new_walls_per_minute ≤ 50 :=
  have h := C8_rates_never_exceed_maxima
    { platforms_init with wall_shifts_per_minute := 250 } 10 boot 20000
    (by decide) (by decide)
  ⟨h.2.2.1, h.2.2.2.2.1, h.2.2.2.2.2⟩

theorem clamp_shift_rate (c : Nat) :
    (if u8 (min (90 + 10 * c) 180 + 10) > 180 then 180 else u8 (min (90 + 10 * c) 180 + 10))
      = min (90 + 10 * (c + 1)) 180 := by
  have hlt : min (90 + 10 * c) 180 + 10 < 256 := by
    have := Nat.min_le_right (90 + 10 * c) 180
    omega
  unfold u8
  rw [Nat.mod_eq_of_lt hlt]
  simp only [Nat.min_def]
  split_ifs <;> omega

theorem clamp_create_rate (c : Nat) :
    (if u8 (min (30 + 3 * c) 50 + 3) > 50 then 50 else u8 (min (30 + 3 * c) 50 + 3))
      = min (30 + 3 * (c + 1)) 50 := by
  have hlt : min (30 + 3 * c) 50 + 3 < 256 := by
    have := Nat.min_le_right (30 + 3 * c) 50
    omega
  unfold u8
  rw [Nat.mod_eq_of_lt hlt]
  simp only [Nat.min_def]
  split_ifs <;> omega

theorem changeover_calls_rates (g : Game)
    (hw : g.platforms.wall_shifts_per_minute = 90)
    (hn : g.platforms.new_walls_per_minute = 30) (k : Nat) :
    (changeover_calls k g).1.platforms.wall_shifts_per_minute =
      min (90 + 10 * (changeover_calls k g).2) 180 ∧
    (changeover_calls k g).1.platforms.new_walls_per_minute =
      min (30 + 3 * (changeover_calls k g).2) 50 := by
  induction k with
  | zero => simp [changeover_calls, hw, hn]
  | succ k ih =>
    rw [changeover_calls_succ]
    obtain ⟨ih1, ih2⟩ := ih
    rcases subroutine_phase_changeover_rates true (changeover_calls k g).1 with
      ⟨hf, _, _, h1, h2⟩ | ⟨hf, _, _, h⟩
    · simp only [hf, h1, h2, increase_wall_shifts_per_minute, increase_new_walls_per_minute,
        ih1, ih2, WALL_SPEED_INCREASE_AMOUNT, WALL_CREATE_INREASE_AMOUNT,
        MAX_WALL_SHIFTS_PER_MINUTE, MAX_NEW_WALLS_PER_MINUTE, Bool.false_eq_true, if_false]
      exact ⟨clamp_shift_rate _, clamp_create_rate _⟩
    · simp only [hf, h, if_true]
      exact ⟨ih1, ih2⟩

theorem changeover_calls_count (g : Game) (h0 : g.phase_changeover_counter = 0) (k : Nat) :
    (changeover_calls k g).1.phase_changeover_counter = k % 1750 ∧
    (changeover_calls k g).2 = k / 1750 := by
  induction k with
  | zero => simp [changeover_calls, h0]
  | succ k ih =>
    rw [changeover_calls_succ]
    obtain ⟨ih1, ih2⟩ := ih
    have hthr : PACER_RATE * PHASE_CHANGEOVER_DURATION / 10 = 1750 := by decide
    rcases subroutine_phase_changeover_rates true (changeover_calls k g).1 with
      ⟨hf, hge, hc, _, _⟩ | ⟨hf, hlt, hc, _⟩
    · simp only [hf, hc, Bool.false_eq_true, if_false, ih2]
      rw [hthr, ih1] at hge
      unfold u16 at hge
      omega
    · simp only [hf, hc, if_true, ih2]
      rw [hthr, ih1] at hlt
      rw [ih1]
      unfold u16 at hlt ⊢
      omega

/-- C9: starting from the reset difficulty (shift 90, create 30), after `n`
completed changeovers the stored rates are `min (90 + 10 n) 180` and
`min (30 + 3 n) 50`: this holds after any number `k` of calls of
`subroutine_phase_changeover` with `n` the number of calls that completed a
changeover, and from a zero changeover counter exactly `n` changeovers have
completed after `1750 n` calls; in particular the rates are (100, 33) after one
changeover and (180, 50) from the ninth changeover onward. -/
theorem C9_rates_after_changeovers (g : Game) (k n : Nat) :
    PACER_RATE * PHASE_CHANGEOVER_DURATION / 10 = 1750 ∧
    ((walls_reset g.platforms).wall_shifts_per_minute = 90 ∧
      (walls_reset g.platforms).new_walls_per_minute = 30) ∧
    ((changeover_calls k (with_walls_reset g)).1.platforms.wall_shifts_per_minute =
      min (90 + 10 * (changeover_calls k (with_walls_reset g)).2) 180 ∧
     (changeover_calls k (with_walls_reset g)).1.platforms.new_walls_per_minute =
      min (30 + 3 * (changeover_calls k (with_walls_reset g)).2) 50) ∧
    ((changeover_calls (1750 * n) (at_window_start (with_walls_reset g))).2 = n ∧
     (changeover_calls (1750 * n)
        (at_window_start (with_walls_reset g))).1.platforms.wall_shifts_per_minute =
      min (90 + 10 * n) 180 ∧
     (changeover_calls (1750 * n)
        (at_window_start (with_walls_reset g))).1.platforms.new_walls_per_minute =
      min (30 + 3 * n) 50) ∧
    (n = 1 →
      (changeover_calls (1750 * n)
        (at_window_start (with_walls_reset g))).1.platforms.wall_shifts_per_minute = 100 ∧
      (changeover_calls (1750 * n)
        (at_window_start (with_walls_reset g))).1.platforms.new_walls_per_minute = 33) ∧
    (9 ≤ n →
      (changeover_calls (1750 * n)
        (at_window_start (with_walls_reset g))).1.platforms.wall_shifts_per_minute = 180 ∧
      (changeover_calls (1750 * n)
        (at_window_start (with_walls_reset g))).1.platforms.new_walls_per_minute = 50) := by
  have hk := changeover_calls_rates (with_walls_reset g) rfl rfl k
  have hr := changeover_calls_rates (at_window_start (with_walls_reset g)) rfl rfl (1750 * n)
  have hc := (changeover_calls_count (at_window_start (with_walls_reset g)) rfl (1750 * n)).2
  have hn : 1750 * n / 1750 = n := Nat.mul_div_cancel_left n (by decide)
  rw [hn] at hc
  rw [hc] at hr
  refine ⟨by decide, ⟨rfl, rfl⟩, hk, ⟨hc, hr.1, hr.2⟩, fun h1 => ?_, fun h9 => ?_⟩
  · rw [hr.1, hr.2, h1]; exact ⟨by decide, by decide⟩
  · rw [hr.1, hr.2]
    exact ⟨Nat.min_eq_right (by omega), Nat.min_eq_right (by omega)⟩

/-- Witness for C9: one whole changeover window (1750 calls) from the boot state
leaves the rates at (100, 33). -/
theorem C9_rates_after_changeovers_witness :
    (changeover_calls (1750 * 1)
      (at_window_start (with_walls_reset boot))).1.platforms.wall_shifts_per_minute = 100 ∧
    (changeover_calls (1750 * 1)
      (at_window_start (with_walls_reset boot))).1.platforms.new_walls_per_minute = 33 :=
  (C9_rates_after_changeovers boot 0 1).2.2.2.2.1 (Eq.refl 1)

/-- C10: on an input poll of `subroutine_read_navswitch`, for every player
position on the edge in question (so for every in-bounds one), the player wraps
to the opposite edge only along the axis of the current phase: an east press at column 4 (a west press at column 0) moves
to column 0 (column 4) in Horizontal phase and leaves the position unchanged in
Vertical phase; a north press at row 0 (a south press at row 6) moves to row 6
(row 0) in Vertical phase and leaves the position unchanged in Horizontal
phase.  A press of a direction is the event the poll acts on: no direction
tested before it by the subroutine has its event set. -/
theorem C10_wrap_only_along_phase_axis (g : Game) (east west north south : Bool)
    (hpoll : g.read_navswitch_counter ≥ PACER_RATE / READ_INPUT_RATE) :
    (east = true → g.player.col = 4 →
      (g.platforms.phase = PHASE_HORIZONTAL_PLATFORMS →
        (subroutine_read_navswitch east west north south g).player.col = 0 ∧
        (subroutine_read_navswitch east west north south g).player.row = g.player.row) ∧
      (g.platforms.phase = PHASE_VERTICAL_PLATFORMS →
        (subroutine_read_navswitch east west north south g).player = g.player)) ∧
    (east = false → west = true → g.player.col = 0 →
      (g.platforms.phase = PHASE_HORIZONTAL_PLATFORMS →
        (subroutine_read_navswitch east west north south g).player.col = 4 ∧
        (subroutine_read_navswitch east west north south g).player.row = g.player.row) ∧
      (g.platforms.phase = PHASE_VERTICAL_PLATFORMS →
        (subroutine_read_navswitch east west north south g).player = g.player)) ∧
    (east = false → west = false → north = true → g.player.row = 0 →
      (g.platforms.phase = PHASE_VERTICAL_PLATFORMS →
        (subroutine_read_navswitch east west north south g).player.row = 6 ∧
        (subroutine_read_navswitch east west north south g).player.col = g.player.col) ∧
      (g.platforms.phase = PHASE_HORIZONTAL_PLATFORMS →
        (subroutine_read_navswitch east west north south g).player = g.player)) ∧
    (east = false → west = false → north = false → south = true → g.player.row = 6 →
      (g.platforms.phase = PHASE_VERTICAL_PLATFORMS →
        (subroutine_read_navswitch east west north south g).player.row = 0 ∧
        (subroutine_read_navswitch east west north south g).player.col = g.player.col) ∧
      (g.platforms.phase = PHASE_HORIZONTAL_PLATFORMS →
        (subroutine_read_navswitch east west north south g).player = g.player)) := by
  have hplayer : (subroutine_read_navswitch east west north south g).player =
      navswitch_move east west north south g.platforms.phase g.player := by
    unfold subroutine_read_navswitch get_phase
    rw [if_pos hpoll]
  rw [hplayer]
  refine ⟨fun he hc => ⟨fun hp => ?_, fun hp => ?_⟩, fun he hw hc => ⟨fun hp => ?_, fun hp => ?_⟩,
    fun he hw hn hr => ⟨fun hp => ?_, fun hp => ?_⟩,
    fun he hw hn hs hr => ⟨fun hp => ?_, fun hp => ?_⟩⟩ <;>
  simp [navswitch_move, get_player_col, get_player_row, set_player_col, set_player_row,
    LEDMAT_COLS_NUM, LEDMAT_ROWS_NUM, PHASE_HORIZONTAL_PLATFORMS, PHASE_VERTICAL_PLATFORMS,
    u8, *]

/-- Witness for C10: at (row 6, col 4) on a poll, an east press gives column 0
in Horizontal phase and leaves column 4 in Vertical phase. -/
theorem C10_wrap_only_along_phase_axis_witness :
    (subroutine_read_navswitch true false false false
      { boot with read_navswitch_counter := 10,
                  player := { row := 6, col := 4, player_led_state := false } }).player.col = 0 ∧
    (subroutine_read_navswitch true false false false
      { boot with read_navswitch_counter := 10,
                  platforms := change_phase boot.platforms,
                  player := { row := 6, col := 4, player_led_state := false } }).player
      = { row := 6, col := 4, player_led_state := false } :=
  ⟨(((C10_wrap_only_along_phase_axis
      { boot with read_navswitch_counter := 10,
                  player := { row := 6, col := 4, player_led_state := false } }
      true false false false (by decide)).1 rfl rfl).1 rfl).1,
   ((C10_wrap_only_along_phase_axis
      { boot with read_navswitch_counter := 10,
                  platforms := change_phase boot.platforms,
                  player := { row := 6, col := 4, player_led_state := false } }
      true false false false (by decide)).1 rfl rfl).2 rfl⟩

/-! ## Player bounds -/

theorem navswitch_move_bounds (east west north south phase : Bool) (pl : Player)
    (hr : pl.row < LEDMAT_ROWS_NUM) (hc : pl.col < LEDMAT_COLS_NUM) :
    (navswitch_move east west north south phase pl).row < LEDMAT_ROWS_NUM ∧
    (navswitch_move east west north south phase pl).col < LEDMAT_COLS_NUM := by
  simp only [LEDMAT_ROWS_NUM, LEDMAT_COLS_NUM] at hr hc ⊢
  unfold navswitch_move
  simp only [get_player_col, get_player_row, set_player_col, set_player_row,
    LEDMAT_ROWS_NUM, LEDMAT_COLS_NUM, u8]
  split_ifs <;> first | omega | (simp only [] ; omega)

theorem subroutine_read_navswitch_player (east west north south : Bool) (g : Game) :
    (subroutine_read_navswitch east west north south g).player =
      if g.read_navswitch_counter ≥ PACER_RATE / READ_INPUT_RATE then
        navswitch_move east west north south g.platforms.phase g.player
      else g.player := by
  unfold subroutine_read_navswitch get_phase
  split <;> rfl

/-- C11: the player position is within the grid: `row < 7` and `col < 5` hold
after `player_init` and are preserved by every call of
`subroutine_read_navswitch`, for every combination of the four directional
events, every counter value and either phase. -/
theorem C11_player_stays_in_bounds (g : Game) (east west north south : Bool)
    (hr : g.player.row < LEDMAT_ROWS_NUM) (hc : g.player.col < LEDMAT_COLS_NUM) :
    (LEDMAT_ROWS_NUM = 7 ∧ LEDMAT_COLS_NUM = 5) ∧
    (player_init.row < LEDMAT_ROWS_NUM ∧ player_init.col < LEDMAT_COLS_NUM) ∧
    ((subroutine_read_navswitch east west north south g).player.row < LEDMAT_ROWS_NUM ∧
      (subroutine_read_navswitch east west north south g).player.col < LEDMAT_COLS_NUM) := by
  refine ⟨⟨rfl, rfl⟩, ⟨by decide, by decide⟩, ?_⟩
  rw [subroutine_read_navswitch_player]
  split
  · exact navswitch_move_bounds east west north south _ _ hr hc
  · exact ⟨hr, hc⟩

/-- Witness for C11: on a poll at the bottom right corner in Vertical phase with
the south and east events both set, the player stays inside the grid. -/
theorem C11_player_stays_in_bounds_witness :
    (subroutine_read_navswitch true false false true
      { boot with read_navswitch_counter := 10,
                  platforms := change_phase boot.platforms,
                  player := { row := 6, col := 4, player_led_state := false } }).player.row
        < LEDMAT_ROWS_NUM ∧
    (subroutine_read_navswitch true false false true
      { boot with read_navswitch_counter := 10,
                  platforms := change_phase boot.platforms,
                  player := { row := 6, col := 4, player_led_state := false } }).player.col
        < LEDMAT_COLS_NUM :=
  (C11_player_stays_in_bounds
    { boot with read_navswitch_counter := 10,
                platforms := change_phase boot.platforms,
                player := { row := 6, col := 4, player_led_state := false } }
    true false false true (by decide) (by decide)).2.2

/-! ## Powerup lifecycle -/

theorem clear_all_walls_cell (p : Platforms) (r c : Nat)
    (hr : r < LEDMAT_ROWS_NUM) (hc : c < LEDMAT_COLS_NUM) :
    (clear_all_walls p).display_matrix r c = 0 := by
  simp only [LEDMAT_ROWS_NUM, LEDMAT_COLS_NUM] at hr hc
  simp only [clear_all_walls, range_rows, range_cols, List.foldl]
  interval_cases r <;> interval_cases c <;> simp [set_cell]

theorem clear_all_walls_rates (p : Platforms) :
    (clear_all_walls p).phase = p.phase ∧
    (clear_all_walls p).wall_shifts_per_minute = p.wall_shifts_per_minute ∧
    (clear_all_walls p).new_walls_per_minute = p.new_walls_per_minute :=
  ⟨rfl, rfl, rfl⟩

theorem powerup_collect_step_frame (g : Game) :
    (powerup_collect_step g).platforms = g.platforms ∧
    (powerup_collect_step g).player = g.player ∧
    (powerup_collect_step g).screen_is_flashing = g.screen_is_flashing ∧
    (powerup_collect_step g).powerup_flash_screen_counter = g.powerup_flash_screen_counter ∧
    (powerup_collect_step g).new_platform_counter = g.new_platform_counter ∧
    (powerup_collect_step g).powerup.row = g.powerup.row ∧
    (powerup_collect_step g).powerup.col = g.powerup.col := by
  unfold powerup_collect_step
  split <;> simp [destroy_powerup]

theorem powerup_create_step_frame (rnd_row rnd_col : Nat) (g : Game) :
    (powerup_create_step rnd_row rnd_col g).platforms = g.platforms ∧
    (powerup_create_step rnd_row rnd_col g).player = g.player ∧
    (powerup_create_step rnd_row rnd_col g).player_has_powerup = g.player_has_powerup ∧
    (powerup_create_step rnd_row rnd_col g).screen_is_flashing = g.screen_is_flashing ∧
    (powerup_create_step rnd_row rnd_col g).powerup_flash_screen_counter =
      g.powerup_flash_screen_counter ∧
    (powerup_create_step rnd_row rnd_col g).new_platform_counter = g.new_platform_counter := by
  unfold powerup_create_step
  split_ifs <;> simp

theorem powerup_flash_step_frame (g : Game) :
    (powerup_flash_step g).platforms = g.platforms ∧
    (powerup_flash_step g).player = g.player ∧
    (powerup_flash_step g).player_has_powerup = g.player_has_powerup ∧
    (powerup_flash_step g).powerup = g.powerup := by
  unfold powerup_flash_step
  split_ifs <;> simp

/-- The powerup is created by `powerup_create_step` only when the player does
not hold one. -/
theorem powerup_create_step_held (rnd_row rnd_col : Nat) (g : Game)
    (h : g.player_has_powerup = true) :
    (powerup_create_step rnd_row rnd_col g).powerup = g.powerup := by
  unfold powerup_create_step
  split_ifs <;> simp_all

/-- C12: at most one powerup instance-or-hold exists at a time.  The predicate
`not (player_has_powerup and powerup_visible)` holds at boot, is preserved by
every call of `subroutine_powerup` (every button input, player position and
random draw) and holds after `reset_game`; the creation statement of
`subroutine_powerup` leaves the powerup untouched whenever the player holds
one, and a call after which the powerup is visible returns with
`player_has_powerup` false. -/
theorem C12_powerup_instance_or_hold (g : Game) (button : Bool) (rnd_row rnd_col : Nat)
    (h : ¬ (g.player_has_powerup = true ∧ g.powerup.powerup_visible = true)) :
    ¬ (boot.player_has_powerup = true ∧ boot.powerup.powerup_visible = true) ∧
    ¬ ((subroutine_powerup button rnd_row rnd_col g).player_has_powerup = true ∧
        (subroutine_powerup button rnd_row rnd_col g).powerup.powerup_visible = true) ∧
    ¬ ((reset_game g).player_has_powerup = true ∧
        (reset_game g).powerup.powerup_visible = true) ∧
    (∀ g1 : Game, g1.player_has_powerup = true →
      (powerup_create_step rnd_row rnd_col g1).powerup = g1.powerup) ∧
    ((subroutine_powerup button rnd_row rnd_col g).powerup.powerup_visible = true →
      (subroutine_powerup button rnd_row rnd_col g).player_has_powerup = false) := by
  have hmain : ¬ ((subroutine_powerup button rnd_row rnd_col g).player_has_powerup = true ∧
        (subroutine_powerup button rnd_row rnd_col g).powerup.powerup_visible = true) := by
    unfold subroutine_powerup
    rw [(powerup_flash_step_frame _).2.2.1, (powerup_flash_step_frame _).2.2.2]
    unfold powerup_create_step powerup_use_step powerup_collect_step
    split_ifs <;> simp_all [create_powerup, destroy_powerup]
  refine ⟨by decide, hmain, by simp [reset_game], fun g1 h1 => powerup_create_step_held _ _ g1 h1,
    fun hv => ?_⟩
  cases hh : (subroutine_powerup button rnd_row rnd_col g).player_has_powerup
  · rfl
  · exact absurd ⟨hh, hv⟩ hmain

/-- Witness for C12: at boot (no powerup held or visible) a call with the
creation counter at its threshold creates a powerup and nothing is held. -/
theorem C12_powerup_instance_or_hold_witness :
    ¬ ((subroutine_powerup false 3 2
          { boot with powerup_creation_counter := 10000 }).player_has_powerup = true ∧
        (subroutine_powerup false 3 2
          { boot with powerup_creation_counter := 10000 }).powerup.powerup_visible = true) :=
  (C12_powerup_instance_or_hold { boot with powerup_creation_counter := 10000 } false 3 2
    (by decide)).2.1

theorem powerup_flash_step_flashing (g : Game) :
    (powerup_flash_step g).screen_is_flashing = true ↔
      (g.screen_is_flashing = true ∧
        u16 (g.powerup_flash_screen_counter + 1) < PACER_RATE / POWERUP_SCREEN_FLASH_SECONDS) := by
  unfold powerup_flash_step
  split_ifs with h1 h2
  · simp only [Bool.false_eq_true, false_iff, not_and]; intro _; omega
  · simp only [h1, true_and, true_iff]; omega
  · simp [h1]

theorem powerup_use_step_held (g : Game) (h : g.player_has_powerup = true) :
    powerup_use_step true (powerup_collect_step g) =
      { g with
        player_has_powerup := false
        platforms := clear_all_walls g.platforms
        screen_is_flashing := true } := by
  have hc : powerup_collect_step g = g := by
    unfold powerup_collect_step
    simp [h]
  rw [hc]
  unfold powerup_use_step
  simp [h]

/-- C13 (as the code has it): for every state in which `player_has_powerup` is
true, a call of `subroutine_powerup` with the button push event set returns
with every grid cell 0 and `player_has_powerup` false; it returns with
`screen_is_flashing` true exactly when the flash counter, incremented by this
call, is still below `PACER_RATE / POWERUP_SCREEN_FLASH_SECONDS = 500`, in
particular whenever the counter is 0 (no flash in progress). -/
theorem C13_use_clears_grid_and_flashes (g : Game) (rnd_row rnd_col : Nat)
    (hheld : g.player_has_powerup = true) :
    (∀ r c, r < LEDMAT_ROWS_NUM → c < LEDMAT_COLS_NUM →
      (subroutine_powerup true rnd_row rnd_col g).platforms.display_matrix r c = 0) ∧
    (subroutine_powerup true rnd_row rnd_col g).player_has_powerup = false ∧
    ((subroutine_powerup true rnd_row rnd_col g).screen_is_flashing = true ↔
      u16 (g.powerup_flash_screen_counter + 1) < PACER_RATE / POWERUP_SCREEN_FLASH_SECONDS) ∧
    (g.powerup_flash_screen_counter = 0 →
      (subroutine_powerup true rnd_row rnd_col g).screen_is_flashing = true) := by
  have hflash : ((subroutine_powerup true rnd_row rnd_col g).screen_is_flashing = true ↔
      u16 (g.powerup_flash_screen_counter + 1) < PACER_RATE / POWERUP_SCREEN_FLASH_SECONDS) := by
    unfold subroutine_powerup
    rw [powerup_flash_step_flashing, (powerup_create_step_frame _ _ _).2.2.2.1,
      (powerup_create_step_frame _ _ _).2.2.2.2.1, powerup_use_step_held g hheld]
    simp
  refine ⟨fun r c hr hc => ?_, ?_, hflash, fun h0 => ?_⟩
  · unfold subroutine_powerup
    rw [(powerup_flash_step_frame _).1, (powerup_create_step_frame _ _ _).1,
      powerup_use_step_held g hheld]
    exact clear_all_walls_cell g.platforms r c hr hc
  · unfold subroutine_powerup
    rw [(powerup_flash_step_frame _).2.2.1, (powerup_create_step_frame _ _ _).2.2.1,
      powerup_use_step_held g hheld]
  · rw [hflash, h0]
    decide

/-- Witness for C13: holding a powerup with no flash in progress, the use
returns with the flash asserted. -/
theorem C13_use_clears_grid_and_flashes_witness :
    (subroutine_powerup true 0 0
      { boot with player_has_powerup := true }).screen_is_flashing = true :=
  (C13_use_clears_grid_and_flashes { boot with player_has_powerup := true } 0 0 rfl).2.2.2 rfl

/-- Counterexample for C13 as stated: a powerup used on the call that ends a
flash already in progress (flash counter 499) returns with `screen_is_flashing`
false. -/
theorem C13_use_at_end_of_flash_not_flashing :
    ({ boot with player_has_powerup := true, screen_is_flashing := true,
                 powerup_flash_screen_counter := 499 } : Game).player_has_powerup = true ∧
    (subroutine_powerup true 0 0
      { boot with player_has_powerup := true, screen_is_flashing := true,
                  powerup_flash_screen_counter := 499 }).screen_is_flashing = false := by
  decide

/-! ## The changeover window -/

theorem subroutine_phase_changeover_fire (b : Bool) (g : Game)
    (h : u16 (g.phase_changeover_counter + 1) ≥ PACER_RATE * PHASE_CHANGEOVER_DURATION / 10) :
    subroutine_phase_changeover b g =
      ({ g with
          phase_changeover_counter := 0
          platforms :=
            increase_new_walls_per_minute WALL_CREATE_INREASE_AMOUNT
              (increase_wall_shifts_per_minute WALL_SPEED_INCREASE_AMOUNT
                (change_phase (clear_all_walls g.platforms))) },
        false) := by
  unfold subroutine_phase_changeover
  rw [if_pos h]

theorem subroutine_phase_changeover_idle (b : Bool) (g : Game)
    (h : u16 (g.phase_changeover_counter + 1) < PACER_RATE * PHASE_CHANGEOVER_DURATION / 10) :
    subroutine_phase_changeover b g =
      ({ g with phase_changeover_counter := u16 (g.phase_changeover_counter + 1) }, b) := by
  unfold subroutine_phase_changeover
  rw [if_neg (by omega)]

theorem change_phase_flips (p : Platforms) :
    (change_phase p).phase = !p.phase ∧
    (change_phase p).display_matrix = p.display_matrix ∧
    (change_phase p).wall_shifts_per_minute = p.wall_shifts_per_minute ∧
    (change_phase p).new_walls_per_minute = p.new_walls_per_minute := by
  unfold change_phase
  cases hp : p.phase <;> simp [PHASE_HORIZONTAL_PLATFORMS, PHASE_VERTICAL_PLATFORMS, hp]

/-- The platform data written by the call of `subroutine_phase_changeover` that
completes a changeover. -/
theorem changeover_platforms (p : Platforms) :
    (∀ r c, r < LEDMAT_ROWS_NUM → c < LEDMAT_COLS_NUM →
      (increase_new_walls_per_minute WALL_CREATE_INREASE_AMOUNT
        (increase_wall_shifts_per_minute WALL_SPEED_INCREASE_AMOUNT
          (change_phase (clear_all_walls p)))).display_matrix r c = 0) ∧
    (increase_new_walls_per_minute WALL_CREATE_INREASE_AMOUNT
        (increase_wall_shifts_per_minute WALL_SPEED_INCREASE_AMOUNT
          (change_phase (clear_all_walls p)))).phase = !p.phase := by
  constructor
  · intro r c hr hc
    show (change_phase (clear_all_walls p)).display_matrix r c = 0
    rw [(change_phase_flips _).2.1]
    exact clear_all_walls_cell p r c hr hc
  · show (change_phase (clear_all_walls p)).phase = !p.phase
    rw [(change_phase_flips _).1]
    rfl

theorem increase_wall_shifts_min (p : Platforms) (h : p.wall_shifts_per_minute ≤ 245) :
    (increase_wall_shifts_per_minute WALL_SPEED_INCREASE_AMOUNT p).wall_shifts_per_minute =
      min (p.wall_shifts_per_minute + 10) 180 := by
  have hu : u8 (p.wall_shifts_per_minute + 10) = p.wall_shifts_per_minute + 10 := by
    unfold u8; exact Nat.mod_eq_of_lt (by omega)
  simp only [increase_wall_shifts_per_minute, WALL_SPEED_INCREASE_AMOUNT,
    MAX_WALL_SHIFTS_PER_MINUTE, hu, Nat.min_def]
  split_ifs <;> omega

theorem increase_new_walls_min (p : Platforms) (h : p.new_walls_per_minute ≤ 252) :
    (increase_new_walls_per_minute WALL_CREATE_INREASE_AMOUNT p).new_walls_per_minute =
      min (p.new_walls_per_minute + 3) 50 := by
  have hu : u8 (p.new_walls_per_minute + 3) = p.new_walls_per_minute + 3 := by
    unfold u8; exact Nat.mod_eq_of_lt (by omega)
  simp only [increase_new_walls_per_minute, WALL_CREATE_INREASE_AMOUNT,
    MAX_NEW_WALLS_PER_MINUTE, hu, Nat.min_def]
  split_ifs <;> omega

/-- Inside a window that starts with the changeover counter at 0, the counter
seen by call number `j + 1` is `j`, whatever else happens to the static data
between the calls. -/
theorem window_counter (states : Nat → Game)
    (h0 : (states 0).phase_changeover_counter = 0)
    (hseq : ∀ j, (states (j + 1)).phase_changeover_counter =
      (subroutine_phase_changeover true (states j)).1.phase_changeover_counter)
    (j : Nat) (hj : j ≤ 1749) : (states j).phase_changeover_counter = j := by
  induction j with
  | zero => exact h0
  | succ j ih =>
    have hc := ih (by omega)
    have hthr : PACER_RATE * PHASE_CHANGEOVER_DURATION / 10 = 1750 := by decide
    have hu : u16 (j + 1) = j + 1 := by unfold u16; exact Nat.mod_eq_of_lt (by omega)
    rw [hseq j, subroutine_phase_changeover_idle true (states j) (by rw [hc, hu, hthr]; omega),
      hc, hu]

/-- C15: a changeover window that starts with the changeover counter at 0
lasts exactly `PACER_RATE * PHASE_CHANGEOVER_DURATION / 10 = 1750` calls of
`subroutine_phase_changeover` (the static data `states j` seen by call `j + 1`
may have been changed in between by the rest of the loop, except for the
counter).  Each of the first 1749 calls leaves `in_phase_changeover_period` true
and the grid, phase and rates unchanged.  Call 1750 sets
`in_phase_changeover_period` false, clears every grid cell, flips the phase and
stores the rates `min (shift + 10) 180` and `min (create + 3) 50` (for stored
rates whose increment fits 8 bits, as every rate within its maximum does). -/
theorem C15_changeover_window (states : Nat → Game)
    (h0 : (states 0).phase_changeover_counter = 0)
    (hseq : ∀ j, (states (j + 1)).phase_changeover_counter =
      (subroutine_phase_changeover true (states j)).1.phase_changeover_counter) :
    PACER_RATE * PHASE_CHANGEOVER_DURATION / 10 = 1750 ∧
    (∀ j, j < 1749 →
      (subroutine_phase_changeover true (states j)).2 = true ∧
      (subroutine_phase_changeover true (states j)).1.platforms = (states j).platforms) ∧
    (subroutine_phase_changeover true (states 1749)).2 = false ∧
    (∀ r c, r < LEDMAT_ROWS_NUM → c < LEDMAT_COLS_NUM →
      (subroutine_phase_changeover true (states 1749)).1.platforms.display_matrix r c = 0) ∧
    (subroutine_phase_changeover true (states 1749)).1.platforms.phase =
      (!(states 1749).platforms.phase) ∧
    ((states 1749).platforms.wall_shifts_per_minute ≤ 245 →
      (subroutine_phase_changeover true (states 1749)).1.platforms.wall_shifts_per_minute =
        min ((states 1749).platforms.wall_shifts_per_minute + 10) 180) ∧
    ((states 1749).platforms.new_walls_per_minute ≤ 252 →
      (subroutine_phase_changeover true (states 1749)).1.platforms.new_walls_per_minute =
        min ((states 1749).platforms.new_walls_per_minute + 3) 50) := by
  have hthr : PACER_RATE * PHASE_CHANGEOVER_DURATION / 10 = 1750 := by decide
  have hlast : u16 ((states 1749).phase_changeover_counter + 1)
      ≥ PACER_RATE * PHASE_CHANGEOVER_DURATION / 10 := by
    rw [window_counter states h0 hseq 1749 (le_refl _), hthr]
    decide
  have hfire := subroutine_phase_changeover_fire true (states 1749) hlast
  refine ⟨hthr, fun j hj => ?_, ?_, fun r c hr hc => ?_, ?_, fun hw => ?_, fun hn => ?_⟩
  · have hc := window_counter states h0 hseq j (by omega)
    have hu : u16 (j + 1) = j + 1 := by unfold u16; exact Nat.mod_eq_of_lt (by omega)
    rw [subroutine_phase_changeover_idle true (states j) (by rw [hc, hu, hthr]; omega)]
    exact ⟨rfl, rfl⟩
  · rw [hfire]
  · rw [hfire]
    exact (changeover_platforms _).1 r c hr hc
  · rw [hfire]
    exact (changeover_platforms _).2
  · rw [hfire]
    show (increase_new_walls_per_minute _ (increase_wall_shifts_per_minute _
      (change_phase (clear_all_walls (states 1749).platforms)))).wall_shifts_per_minute = _
    rw [(changeover_platforms_rates _).1]
    exact increase_wall_shifts_min _ hw
  · rw [hfire]
    show (increase_new_walls_per_minute _ (increase_wall_shifts_per_minute _
      (change_phase (clear_all_walls (states 1749).platforms)))).new_walls_per_minute = _
    rw [(changeover_platforms_rates _).2]
    exact increase_new_walls_min _ hn

/-- Witness for C15: run from boot, call 1750 of the changeover subroutine ends
the window and stores the shift rate `min (shift + 10) 180`. -/
theorem C15_changeover_window_witness :
    (subroutine_phase_changeover true (changeover_calls 1749 boot).1).2 = false ∧
    (subroutine_phase_changeover true
        (changeover_calls 1749 boot).1).1.platforms.wall_shifts_per_minute =
      min ((changeover_calls 1749 boot).1.platforms.wall_shifts_per_minute + 10) 180 := by
  have h0 : ((fun j => (changeover_calls j boot).1) 0).phase_changeover_counter = 0 := rfl
  have hseq : ∀ j, ((fun j => (changeover_calls j boot).1) (j + 1)).phase_changeover_counter =
      (subroutine_phase_changeover true
        ((fun j => (changeover_calls j boot).1) j)).1.phase_changeover_counter := by
    intro j
    beta_reduce
    rw [changeover_calls_succ]
  have h1 := (C15_changeover_window (fun j => (changeover_calls j boot).1) h0 hseq).2.2.1
  have h2 := (C15_changeover_window (fun j => (changeover_calls j boot).1) h0 hseq).2.2.2.2.2.1
  exact ⟨h1, h2 (le_trans (changeover_calls_le boot (by decide) (by decide) 1749).1 (by decide))⟩

/-! ## Reset and the powerup -/

/-- C17 (the code at the failing input): `reset_game` clears
`player_has_powerup` but never touches the powerup module; with a powerup
visible on the board before the reset, `powerup_is_visible` is still true after
it. -/
theorem C17_reset_game_keeps_visible_powerup :
    (∀ g : Game, (reset_game g).powerup = g.powerup ∧
      (reset_game g).player_has_powerup = false) ∧
    powerup_is_visible boot_with_visible_powerup.powerup = true ∧
    powerup_is_visible (reset_game boot_with_visible_powerup).powerup = true ∧
    (reset_game boot_with_visible_powerup).player_has_powerup = false :=
  ⟨fun _ => ⟨rfl, rfl⟩, by decide, by decide, by decide⟩

/-! ## Balancing factors -/

theorem floor_div_six_fifths (x : Nat) : ⌊(x : ℚ) / (6 / 5)⌋₊ = x * 5 / 6 := by
  have h : (x : ℚ) / (6 / 5) = ((x * 5 : ℕ) : ℚ) / ((6 : ℕ) : ℚ) := by
    push_cast
    ring
  rw [h, Nat.floor_div_eq_div]

theorem floor_div_three_halves (x : Nat) : ⌊(x : ℚ) / (3 / 2)⌋₊ = x * 2 / 3 := by
  have h : (x : ℚ) / (3 / 2) = ((x * 2 : ℕ) : ℚ) / ((3 : ℕ) : ℚ) := by
    push_cast
    ring
  rw [h, Nat.floor_div_eq_div]

theorem round_half_even_nearest (num den : Nat) (hd : 0 < den) :
    2 * num ≤ 2 * (den * round_half_even num den) + den ∧
    2 * (den * round_half_even num den) ≤ 2 * num + den := by
  have h := Nat.div_add_mod num den
  have hr := Nat.mod_lt num hd
  have hs : den * (num / den + 1) = den * (num / den) + den := by ring
  unfold round_half_even
  simp only []
  split_ifs <;> omega

/-- The literals `1.2` and `1.5` as `double` values: `0x3F99999A` and
`0x3FC00000` in the 32-bit format, `0x3FF3333333333333` and
`0x3FF8000000000000` in the 64-bit format.  The 32-bit `1.2` lies above 1.2,
the 64-bit one below. -/
theorem literals_rounded :
    fp_round 24 12 10 = ⟨10066330, -23⟩ ∧ fp_round 24 15 10 = ⟨12582912, -23⟩ ∧
    fp_round 53 12 10 = ⟨5404319552844595, -52⟩ ∧
    fp_round 53 15 10 = ⟨6755399441055744, -52⟩ ∧
    12 * 2 ^ 23 < 10066330 * 10 ∧ 5404319552844595 * 10 < 12 * 2 ^ 52 := by
  decide

/-- An 8-bit integer converts to `double` without rounding, and the quotient
computed by `fp_div` is a nearest 24-bit value to the exact quotient of the
converted operands, for both divisors. -/
theorem double_div_nearest :
    ∀ x, x < 256 → 0 < x →
      fp_trunc (fp_round 24 x 1) = x ∧
      (fp_round 24 x 1).man = x * 2 ^ (-(fp_round 24 x 1).exp).toNat ∧
      is_nearest 24 (x * 2 ^ 23) 10066330
        (fp_div 24 (fp_round 24 x 1) (fp_round 24 12 10)) ∧
      is_nearest 24 (x * 2 ^ 23) 12582912
        (fp_div 24 (fp_round 24 x 1) (fp_round 24 15 10)) := by
  decide!

/-- The quotient by `1.2` in the 24-bit `double` of the target, truncated: the
exact quotient truncated, except at sixteen 8-bit values (multiples of 6, where
the exact quotient is an integer) at which it is one less. -/
theorem shift_rate_single_precision :
    ∀ x, x < 256 →
      double_div_literal 24 x (12, 10) =
        x * 5 / 6 - (if x ∈ [18, 30, 36, 60, 66, 72, 120, 126, 132, 138, 144, 150, 234, 240, 246, 252] then 1 else 0) := by
  decide!

theorem create_rate_single_precision :
    ∀ x, x < 256 → double_div_literal 24 x (15, 10) = x * 2 / 3 := by
  decide!

theorem rates_double_precision :
    ∀ x, x < 256 →
      double_div_literal 53 x (12, 10) = x * 5 / 6 ∧
      double_div_literal 53 x (15, 10) = x * 2 / 3 := by
  decide!

theorem get_wall_shifts_vertical (p : Platforms) (hp : p.phase = PHASE_VERTICAL_PLATFORMS)
    (hx : p.wall_shifts_per_minute < 256) :
    get_wall_shifts_per_minute p =
      p.wall_shifts_per_minute * 5 / 6 -
        (if p.wall_shifts_per_minute ∈ [18, 30, 36, 60, 66, 72, 120, 126, 132, 138, 144, 150, 234, 240, 246, 252] then 1 else 0) := by
  have h := shift_rate_single_precision p.wall_shifts_per_minute hx
  have hlt : p.wall_shifts_per_minute * 5 / 6 -
      (if p.wall_shifts_per_minute ∈ [18, 30, 36, 60, 66, 72, 120, 126, 132, 138, 144, 150, 234, 240, 246, 252] then 1 else 0) < 256 := by
    have : p.wall_shifts_per_minute * 5 / 6 < 256 := by omega
    omega
  unfold get_wall_shifts_per_minute
  rw [hp]
  simp only [PHASE_VERTICAL_PLATFORMS, PHASE_HORIZONTAL_PLATFORMS, DBL_MANT_DIG,
    VERTICAL_WALL_SPEED_DIVISOR, Bool.true_eq_false, beq_iff_eq, if_false]
  rw [h]
  unfold u8
  exact Nat.mod_eq_of_lt hlt

theorem get_new_walls_vertical (p : Platforms) (hp : p.phase = PHASE_VERTICAL_PLATFORMS)
    (hx : p.new_walls_per_minute < 256) :
    get_new_walls_per_minute p = p.new_walls_per_minute * 2 / 3 := by
  have h := create_rate_single_precision p.new_walls_per_minute hx
  unfold get_new_walls_per_minute
  rw [hp]
  simp only [PHASE_VERTICAL_PLATFORMS, PHASE_HORIZONTAL_PLATFORMS, DBL_MANT_DIG,
    VERTICAL_WALL_CREATION_SPEED_DIVISOR, Bool.true_eq_false, beq_iff_eq, if_false]
  rw [h]
  unfold u8
  exact Nat.mod_eq_of_lt (by omega)

/-- C20 (as the code has it): in Vertical phase the two rates are adjusted by
two different balancing factors, 1.2 and 1.5, each division done in `double`
and truncated.  For every stored 8-bit rate `get_new_walls_per_minute` returns
the stored creation rate divided by 1.5, truncated.  With the 24-bit `double`
of the target `get_wall_shifts_per_minute` returns the stored shift rate
divided by 1.2, truncated, except at the sixteen stored values 18, 30, 36, 60,
66, 72, 120, 126, 132, 138, 144, 150, 234, 240, 246, 252, where it returns one
less (99 for 120, 124 for 150); with a 53-bit `double` the quotient by 1.2 is
the truncated exact quotient at every 8-bit value.  In Horizontal phase both
getters return the stored rate unchanged. -/
theorem C20_vertical_rate_factors (p : Platforms) :
    (p.phase = PHASE_VERTICAL_PLATFORMS → p.wall_shifts_per_minute < 256 →
      get_wall_shifts_per_minute p =
        ⌊(p.wall_shifts_per_minute : ℚ) / (6 / 5)⌋₊ -
          (if p.wall_shifts_per_minute ∈ [18, 30, 36, 60, 66, 72, 120, 126, 132, 138, 144, 150, 234, 240, 246, 252] then 1 else 0)) ∧
    (p.phase = PHASE_VERTICAL_PLATFORMS → p.new_walls_per_minute < 256 →
      get_new_walls_per_minute p = ⌊(p.new_walls_per_minute : ℚ) / (3 / 2)⌋₊) ∧
    (p.phase = PHASE_HORIZONTAL_PLATFORMS →
      get_wall_shifts_per_minute p = p.wall_shifts_per_minute ∧
      get_new_walls_per_minute p = p.new_walls_per_minute) ∧
    get_wall_shifts_per_minute (vertical_with_rates 120 39) = 99 ∧
    get_wall_shifts_per_minute (vertical_with_rates 150 48) = 124 ∧
    (∀ x : Nat, x < 256 →
      double_div_literal 53 x VERTICAL_WALL_SPEED_DIVISOR = ⌊(x : ℚ) / (6 / 5)⌋₊ ∧
      double_div_literal 53 x VERTICAL_WALL_CREATION_SPEED_DIVISOR =
        ⌊(x : ℚ) / (3 / 2)⌋₊) := by
  refine ⟨fun hp hx => ?_, fun hp hx => ?_, fun hp => ?_, by decide, by decide,
    fun x hx => ?_⟩
  · rw [floor_div_six_fifths]
    exact get_wall_shifts_vertical p hp hx
  · rw [floor_div_three_halves]
    exact get_new_walls_vertical p hp hx
  · simp [get_wall_shifts_per_minute, get_new_walls_per_minute, hp]
  · rw [floor_div_six_fifths, floor_div_three_halves]
    exact rates_double_precision x hx

/-- Witness for C20: in Vertical phase the stored rates (120, 39), those after
the third changeover, give the logical rates 99, one less than 120 / 1.2, and
26, the truncation of 39 / 1.5. -/
theorem C20_vertical_rate_factors_witness :
    get_wall_shifts_per_minute (vertical_with_rates 120 39) =
      ⌊((120 : ℕ) : ℚ) / (6 / 5)⌋₊ - (if 120 ∈ [18, 30, 36, 60, 66, 72, 120, 126, 132, 138, 144, 150, 234, 240, 246, 252] then 1 else 0) ∧
    get_new_walls_per_minute (vertical_with_rates 120 39) = ⌊((39 : ℕ) : ℚ) / (3 / 2)⌋₊ :=
  ⟨(C20_vertical_rate_factors (vertical_with_rates 120 39)).1 rfl (by decide),
   (C20_vertical_rate_factors (vertical_with_rates 120 39)).2.1 rfl (by decide)⟩

/-- Counterexample for C20 as stated: no single factor serves both getters.  At
the stored value 90 the shift getter returns 75 and the creation getter
returns 60; and no positive factor fits the reset difficulty either, where the
stored shift rate 90 gives 75 and the stored creation rate 30 gives 20. -/
theorem C20_no_common_factor :
    get_wall_shifts_per_minute (vertical_with_rates 90 90) = 75 ∧
    get_new_walls_per_minute (vertical_with_rates 90 90) = 60 ∧
    (¬ ∃ f : ℚ, ∀ x : Nat, x < 256 →
      get_wall_shifts_per_minute (vertical_with_rates x x) = ⌊(x : ℚ) / f⌋₊ ∧
      get_new_walls_per_minute (vertical_with_rates x x) = ⌊(x : ℚ) / f⌋₊) ∧
    (¬ ∃ f : ℚ, 0 < f ∧
      get_wall_shifts_per_minute (vertical_with_rates 90 30) = ⌊(90 : ℚ) / f⌋₊ ∧
      get_new_walls_per_minute (vertical_with_rates 90 30) = ⌊(30 : ℚ) / f⌋₊) := by
  refine ⟨by decide, by decide, ?_, ?_⟩
  · rintro ⟨f, hf⟩
    obtain ⟨h1, h2⟩ := hf 90 (by decide)
    have h75 : get_wall_shifts_per_minute (vertical_with_rates 90 90) = 75 := by decide
    have h60 : get_new_walls_per_minute (vertical_with_rates 90 90) = 60 := by decide
    rw [h75] at h1
    rw [h60] at h2
    omega
  · rintro ⟨f, hf, h1, h2⟩
    have h75 : get_wall_shifts_per_minute (vertical_with_rates 90 30) = 75 := by decide
    have h20 : get_new_walls_per_minute (vertical_with_rates 90 30) = 20 := by decide
    rw [h75] at h1
    rw [h20] at h2
    have hpos : (0 : ℚ) ≤ 90 / f := by positivity
    have ha : ((75 : ℕ) : ℚ) ≤ 90 / f := by
      rw [h1]
      exact Nat.floor_le hpos
    have hb : (30 : ℚ) / f < ((20 : ℕ) : ℚ) + 1 := by
      rw [h2]
      exact Nat.lt_floor_add_one _
    rw [le_div_iff₀ hf] at ha
    rw [div_lt_iff₀ hf] at hb
    push_cast at ha hb
    linarith

/-! ## Effects of the subroutines on the static data -/

theorem subroutine_read_button_frame (g : Game) :
    ∃ c, (subroutine_read_button g).1 = { g with read_button_counter := c } := by
  unfold subroutine_read_button
  split
  · exact ⟨_, rfl⟩
  · exact ⟨_, rfl⟩

theorem subroutine_display_frame (g : Game) :
    ∃ a b, (subroutine_display g).1 = { g with current_render_col := a, display_counter := b } := by
  unfold subroutine_display
  split
  · exact ⟨_, _, rfl⟩
  · exact ⟨g.current_render_col, _, rfl⟩

theorem subroutine_player_blink_frame (g : Game) :
    ∃ l c, subroutine_player_blink g =
      { g with player := { g.player with player_led_state := l },
               player_led_blink_counter := c } := by
  unfold subroutine_player_blink toggle_player_led_state
  split
  · exact ⟨_, _, rfl⟩
  · exact ⟨g.player.player_led_state, _, rfl⟩

theorem subroutine_powerup_modulate_frame (g : Game) :
    ∃ l c, subroutine_powerup_modulate g =
      { g with powerup := { g.powerup with powerup_led_state := l },
               powerup_led_modulate_counter := c } := by
  unfold subroutine_powerup_modulate increment_powerup_led_state
  split
  · exact ⟨_, _, rfl⟩
  · exact ⟨g.powerup.powerup_led_state, _, rfl⟩

/-- The three cosmetic subroutines run on every tick outside interface mode
leave the platforms, the player position, the powerup position and visibility
and every counter of the simulation as they were. -/
theorem cosmetic_frame (g : Game) :
    ∃ a b l c l2 c2,
      subroutine_powerup_modulate (subroutine_player_blink (subroutine_display g).1) =
        { g with
          current_render_col := a
          display_counter := b
          player := { g.player with player_led_state := l }
          player_led_blink_counter := c
          powerup := { g.powerup with powerup_led_state := l2 }
          powerup_led_modulate_counter := c2 } := by
  obtain ⟨a, b, h1⟩ := subroutine_display_frame g
  obtain ⟨l, c, h2⟩ := subroutine_player_blink_frame (subroutine_display g).1
  obtain ⟨l2, c2, h3⟩ :=
    subroutine_powerup_modulate_frame (subroutine_player_blink (subroutine_display g).1)
  refine ⟨a, b, l, c, l2, c2, ?_⟩
  rw [h3, h2, h1]

theorem subroutine_check_phase_switch_frame (b : Bool) (g : Game) :
    ∃ a n, (subroutine_check_phase_switch b g).1 =
        { g with phase_switch_counter := a, new_platform_counter := n } ∧
      (n = 0 ∨ n = g.new_platform_counter) := by
  unfold subroutine_check_phase_switch
  split
  · exact ⟨_, 0, rfl, Or.inl rfl⟩
  · exact ⟨_, g.new_platform_counter, rfl, Or.inr rfl⟩

theorem subroutine_read_navswitch_frame (east west north south : Bool) (g : Game) :
    ∃ c, subroutine_read_navswitch east west north south g =
      { g with
        player := (subroutine_read_navswitch east west north south g).player
        read_navswitch_counter := c } := by
  unfold subroutine_read_navswitch
  split
  · exact ⟨_, rfl⟩
  · exact ⟨_, rfl⟩

theorem rates_in_range_logical (p : Platforms) (h : rates_in_range p) :
    1 ≤ get_wall_shifts_per_minute p ∧ get_wall_shifts_per_minute p ≤ 180 ∧
    1 ≤ get_new_walls_per_minute p ∧ get_new_walls_per_minute p ≤ 50 := by
  obtain ⟨h1, h2, h3, h4⟩ := h
  simp only [INITIAL_WALL_SHIFTS_PER_MINUTE, MAX_WALL_SHIFTS_PER_MINUTE,
    INITIAL_NEW_WALLS_PER_MINUTE, MAX_NEW_WALLS_PER_MINUTE] at h1 h2 h3 h4
  cases hp : p.phase
  · have e1 : get_wall_shifts_per_minute p = p.wall_shifts_per_minute := by
      simp [get_wall_shifts_per_minute, hp, PHASE_HORIZONTAL_PLATFORMS]
    have e2 : get_new_walls_per_minute p = p.new_walls_per_minute := by
      simp [get_new_walls_per_minute, hp, PHASE_HORIZONTAL_PLATFORMS]
    rw [e1, e2]
    exact ⟨by omega, h2, by omega, h4⟩
  · have e1 := get_wall_shifts_vertical p hp (by omega)
    have e2 := get_new_walls_vertical p hp (by omega)
    rw [e1, e2]
    refine ⟨?_, ?_, ?_, ?_⟩ <;> first | omega | (split_ifs <;> omega)

theorem create_new_wall_rates (rnd : Nat) (p : Platforms) :
    (create_new_wall rnd p).phase = p.phase ∧
    (create_new_wall rnd p).wall_shifts_per_minute = p.wall_shifts_per_minute ∧
    (create_new_wall rnd p).new_walls_per_minute = p.new_walls_per_minute := by
  unfold create_new_wall
  split <;> exact ⟨rfl, rfl, rfl⟩

theorem platforms_after_shift_step_rates (g : Game) :
    (platforms_after_shift_step g).phase = g.platforms.phase ∧
    (platforms_after_shift_step g).wall_shifts_per_minute = g.platforms.wall_shifts_per_minute ∧
    (platforms_after_shift_step g).new_walls_per_minute = g.platforms.new_walls_per_minute := by
  unfold platforms_after_shift_step
  split
  · exact shift_all_walls_rates _
  · exact ⟨rfl, rfl, rfl⟩

theorem shift_all_walls_clear (p : Platforms) (h : grid_clear p) :
    grid_clear (shift_all_walls p) := by
  intro r c hr hc
  unfold shift_all_walls
  split
  · rw [shift_all_rows_down_cell p r c hr hc]
    split
    · rfl
    · exact h (r - 1) c (by omega) hc
  · rw [shift_all_columns_right_cell p r c hr hc]
    split
    · rfl
    · exact h r (c - 1) hr (by omega)

theorem platforms_after_shift_step_clear (g : Game) (h : grid_clear g.platforms) :
    grid_clear (platforms_after_shift_step g) := by
  unfold platforms_after_shift_step
  split
  · exact shift_all_walls_clear _ h
  · exact h

theorem walls_shift_step_record (g : Game) (hs : 1 ≤ get_wall_shifts_per_minute g.platforms) :
    ∃ a, walls_shift_step g =
      some { g with platform_fall_counter := a, platforms := platforms_after_shift_step g } := by
  have hs0 : get_wall_shifts_per_minute g.platforms ≠ 0 := by omega
  unfold walls_shift_step c_div platforms_after_shift_step
  rw [if_neg hs0]
  by_cases hge : g.platform_fall_counter ≥ PACER_RATE * 60 / get_wall_shifts_per_minute g.platforms
  · simp only [if_pos hge]
    exact ⟨0, rfl⟩
  · simp only [if_neg hge]
    exact ⟨g.platform_fall_counter, rfl⟩

/-- The result of `subroutine_walls` for logical rates of at least 1: the
platform data after the shift statement, with a new wall exactly when one is
due, and the score incremented (in 8 bits) exactly then. -/
theorem subroutine_walls_record (b : Bool) (score rnd : Nat) (g : Game)
    (hs : 1 ≤ get_wall_shifts_per_minute g.platforms)
    (hc : 1 ≤ get_new_walls_per_minute g.platforms) :
    ∃ a n, subroutine_walls b score rnd g =
      some ({ g with
                platforms :=
                  if wall_due b g then create_new_wall rnd (platforms_after_shift_step g)
                  else platforms_after_shift_step g
                platform_fall_counter := a
                new_platform_counter := n },
            if wall_due b g then u8 (score + 1) else score) := by
  obtain ⟨a, ha⟩ := walls_shift_step_record g hs
  have hc0 : get_new_walls_per_minute g.platforms ≠ 0 := by omega
  have hrate : get_new_walls_per_minute (platforms_after_shift_step g)
      = get_new_walls_per_minute g.platforms := by
    obtain ⟨h1, _, h3⟩ := platforms_after_shift_step_rates g
    simp [get_new_walls_per_minute, h1, h3]
  have hdue : walls_create_due b
      { g with platform_fall_counter := a, platforms := platforms_after_shift_step g }
        = some (wall_due b g) := by
    unfold walls_create_due c_div wall_due
    cases b
    · simp only [Bool.false_eq_true, if_false, hrate, if_neg hc0, Bool.not_false, Bool.true_and]
    · simp
  unfold subroutine_walls
  rw [ha]
  simp only [hdue]
  cases hd : wall_due b g
  · exact ⟨_, _, rfl⟩
  · exact ⟨_, _, rfl⟩

theorem powerup_use_step_frame (button : Bool) (g : Game) :
    (powerup_use_step button g).player = g.player ∧
    ((powerup_use_step button g).platforms = g.platforms ∨
      (powerup_use_step button g).platforms = clear_all_walls g.platforms) ∧
    (g.screen_is_flashing = true → (powerup_use_step button g).screen_is_flashing = true) ∧
    (powerup_use_step button g).powerup_flash_screen_counter = g.powerup_flash_screen_counter ∧
    (powerup_use_step button g).new_platform_counter = g.new_platform_counter ∧
    (powerup_use_step button g).powerup = g.powerup := by
  unfold powerup_use_step
  split
  · exact ⟨rfl, Or.inr rfl, fun _ => rfl, rfl, rfl, rfl⟩
  · exact ⟨rfl, Or.inl rfl, fun h => h, rfl, rfl, rfl⟩

theorem powerup_flash_step_flashing_case (g : Game) (h : g.screen_is_flashing = true) :
    (powerup_flash_step g).new_platform_counter = 0 ∧
    (u16 (g.powerup_flash_screen_counter + 1) ≥ PACER_RATE / POWERUP_SCREEN_FLASH_SECONDS →
      (powerup_flash_step g).screen_is_flashing = false ∧
      (powerup_flash_step g).powerup_flash_screen_counter = 0) ∧
    (u16 (g.powerup_flash_screen_counter + 1) < PACER_RATE / POWERUP_SCREEN_FLASH_SECONDS →
      (powerup_flash_step g).screen_is_flashing = true ∧
      (powerup_flash_step g).powerup_flash_screen_counter =
        u16 (g.powerup_flash_screen_counter + 1)) := by
  unfold powerup_flash_step
  rw [if_pos h]
  split
  · refine ⟨rfl, fun _ => ⟨rfl, rfl⟩, fun hlt => ?_⟩
    omega
  · refine ⟨rfl, fun hge => ?_, fun _ => ⟨h, rfl⟩⟩
    omega

/-- What one call of `subroutine_powerup` does to the data the wall logic
depends on. -/
theorem subroutine_powerup_spec (button : Bool) (rnd_row rnd_col : Nat) (g : Game) :
    (subroutine_powerup button rnd_row rnd_col g).player = g.player ∧
    ((subroutine_powerup button rnd_row rnd_col g).platforms = g.platforms ∨
      (subroutine_powerup button rnd_row rnd_col g).platforms = clear_all_walls g.platforms) ∧
    (g.screen_is_flashing = true →
      (subroutine_powerup button rnd_row rnd_col g).new_platform_counter = 0 ∧
      (u16 (g.powerup_flash_screen_counter + 1) ≥ PACER_RATE / POWERUP_SCREEN_FLASH_SECONDS →
        (subroutine_powerup button rnd_row rnd_col g).screen_is_flashing = false ∧
        (subroutine_powerup button rnd_row rnd_col g).powerup_flash_screen_counter = 0) ∧
      (u16 (g.powerup_flash_screen_counter + 1) < PACER_RATE / POWERUP_SCREEN_FLASH_SECONDS →
        (subroutine_powerup button rnd_row rnd_col g).screen_is_flashing = true ∧
        (subroutine_powerup button rnd_row rnd_col g).powerup_flash_screen_counter =
          u16 (g.powerup_flash_screen_counter + 1))) := by
  obtain ⟨c1, c2, c3, c4, c5, _, _⟩ := powerup_collect_step_frame g
  obtain ⟨u1, u2, u3, u4, u5, _⟩ := powerup_use_step_frame button (powerup_collect_step g)
  obtain ⟨k1, k2, _, k4, k5, k6⟩ :=
    powerup_create_step_frame rnd_row rnd_col (powerup_use_step button (powerup_collect_step g))
  obtain ⟨f1, f2, _, _⟩ := powerup_flash_step_frame
    (powerup_create_step rnd_row rnd_col (powerup_use_step button (powerup_collect_step g)))
  unfold subroutine_powerup
  refine ⟨by rw [f2, k2, u1, c2], ?_, fun hfl => ?_⟩
  · rw [f1, k1]
    rcases u2 with h | h
    · left; rw [h, c1]
    · right; rw [h, c1]
  · have hfl2 : (powerup_create_step rnd_row rnd_col
        (powerup_use_step button (powerup_collect_step g))).screen_is_flashing = true := by
      rw [k4]; exact u3 (by rw [c3]; exact hfl)
    have hcnt : (powerup_create_step rnd_row rnd_col
        (powerup_use_step button (powerup_collect_step g))).powerup_flash_screen_counter
          = g.powerup_flash_screen_counter := by
      rw [k5, u4, c4]
    have h := powerup_flash_step_flashing_case _ hfl2
    rw [hcnt] at h
    exact h

theorem wall_due_zero_counter (b : Bool) (g : Game) (hR : rates_in_range g.platforms)
    (h0 : g.new_platform_counter = 0) : wall_due b g = false := by
  obtain ⟨_, _, h3, h4⟩ := rates_in_range_logical g.platforms hR
  have hpos : 0 < PACER_RATE * 60 / get_new_walls_per_minute g.platforms := by
    apply Nat.div_pos
    · have : PACER_RATE * 60 = 30000 := by decide
      omega
    · omega
  unfold wall_due
  rw [h0]
  have : ¬ (0 ≥ PACER_RATE * 60 / get_new_walls_per_minute g.platforms) := by omega
  simp [this]

theorem create_new_wall_in_range (rnd : Nat) (p : Platforms) (h : rates_in_range p) :
    rates_in_range (create_new_wall rnd p) := by
  obtain ⟨_, h2, h3⟩ := create_new_wall_rates rnd p
  unfold rates_in_range at h ⊢
  rw [h2, h3]
  exact h

theorem platforms_after_shift_step_in_range (g : Game) (h : rates_in_range g.platforms) :
    rates_in_range (platforms_after_shift_step g) := by
  obtain ⟨_, h2, h3⟩ := platforms_after_shift_step_rates g
  unfold rates_in_range at h ⊢
  rw [h2, h3]
  exact h

/-- What one call of `subroutine_walls` does when the stored rates are in
range: it returns, keeps the rates and the phase, touches nothing but the
platforms and its two counters, and with `new_platform_counter` at 0 creates
no wall. -/
theorem subroutine_walls_spec (b : Bool) (score rnd : Nat) (g : Game)
    (hR : rates_in_range g.platforms) :
    ∃ g1 score1, subroutine_walls b score rnd g = some (g1, score1) ∧
      g1.player = g.player ∧ g1.powerup = g.powerup ∧
      g1.player_has_powerup = g.player_has_powerup ∧
      g1.screen_is_flashing = g.screen_is_flashing ∧
      g1.powerup_flash_screen_counter = g.powerup_flash_screen_counter ∧
      g1.phase_changeover_counter = g.phase_changeover_counter ∧
      rates_in_range g1.platforms ∧
      g1.platforms.phase = g.platforms.phase ∧
      (g.new_platform_counter = 0 →
        score1 = score ∧ (grid_clear g.platforms → grid_clear g1.platforms)) := by
  obtain ⟨h1, _, h3, _⟩ := rates_in_range_logical g.platforms hR
  obtain ⟨a, n, hw⟩ := subroutine_walls_record b score rnd g h1 h3
  refine ⟨_, _, hw, rfl, rfl, rfl, rfl, rfl, rfl, ?_, ?_, fun h0 => ?_⟩
  · show rates_in_range (if wall_due b g then _ else _)
    split
    · exact create_new_wall_in_range _ _ (platforms_after_shift_step_in_range g hR)
    · exact platforms_after_shift_step_in_range g hR
  · show (if wall_due b g then create_new_wall rnd (platforms_after_shift_step g)
        else platforms_after_shift_step g).phase = _
    split
    · rw [(create_new_wall_rates _ _).1, (platforms_after_shift_step_rates g).1]
    · rw [(platforms_after_shift_step_rates g).1]
  · have hd := wall_due_zero_counter b g hR h0
    refine ⟨by simp [hd], fun hz => ?_⟩
    show grid_clear (if wall_due b g then _ else _)
    rw [hd]
    exact platforms_after_shift_step_clear g hz

theorem clear_all_walls_in_range (p : Platforms) (h : rates_in_range p) :
    rates_in_range (clear_all_walls p) := h

theorem changeover_platforms_in_range (p : Platforms) (h : rates_in_range p) :
    rates_in_range
      (increase_new_walls_per_minute WALL_CREATE_INREASE_AMOUNT
        (increase_wall_shifts_per_minute WALL_SPEED_INCREASE_AMOUNT
          (change_phase (clear_all_walls p)))) := by
  obtain ⟨h1, h2, h3, h4⟩ := h
  simp only [INITIAL_WALL_SHIFTS_PER_MINUTE, MAX_WALL_SHIFTS_PER_MINUTE,
    INITIAL_NEW_WALLS_PER_MINUTE, MAX_NEW_WALLS_PER_MINUTE] at h1 h2 h3 h4
  unfold rates_in_range
  rw [(changeover_platforms_rates p).1, (changeover_platforms_rates p).2,
    increase_wall_shifts_min p (by omega), increase_new_walls_min p (by omega)]
  simp only [INITIAL_WALL_SHIFTS_PER_MINUTE, MAX_WALL_SHIFTS_PER_MINUTE,
    INITIAL_NEW_WALLS_PER_MINUTE, MAX_NEW_WALLS_PER_MINUTE, Nat.min_def]
  refine ⟨?_, ?_, ?_, ?_⟩ <;> split_ifs <;> omega

/-- What one call of `subroutine_phase_changeover` does to the data the wall
logic depends on. -/
theorem subroutine_phase_changeover_spec (b : Bool) (g : Game) :
    (subroutine_phase_changeover b g).1.player = g.player ∧
    (subroutine_phase_changeover b g).1.screen_is_flashing = g.screen_is_flashing ∧
    (subroutine_phase_changeover b g).1.powerup_flash_screen_counter =
      g.powerup_flash_screen_counter ∧
    (subroutine_phase_changeover b g).1.new_platform_counter = g.new_platform_counter ∧
    (rates_in_range g.platforms →
      rates_in_range (subroutine_phase_changeover b g).1.platforms) ∧
    (grid_clear g.platforms → grid_clear (subroutine_phase_changeover b g).1.platforms) := by
  unfold subroutine_phase_changeover
  simp only []
  split
  · exact ⟨rfl, rfl, rfl, rfl, fun h => changeover_platforms_in_range _ h,
      fun _ => (changeover_platforms _).1⟩
  · exact ⟨rfl, rfl, rfl, rfl, fun h => h, fun h => h⟩

/-- The part of the simulation block between `subroutine_walls` and
`subroutine_powerup` (phase switch check, navswitch, changeover) keeps the
rates in range, the player in bounds, a clear grid clear and the flash data
untouched. -/
theorem before_powerup_spec (inp : TickInput) (b : Bool) (g1 : Game)
    (hR : rates_in_range g1.platforms) (hP : player_in_bounds g1.player) :
    ∃ g4 b4,
      (if (subroutine_check_phase_switch b g1).2 then
          subroutine_phase_changeover (subroutine_check_phase_switch b g1).2
            (subroutine_read_navswitch inp.east inp.west inp.north inp.south
              (subroutine_check_phase_switch b g1).1)
        else
          (subroutine_read_navswitch inp.east inp.west inp.north inp.south
              (subroutine_check_phase_switch b g1).1,
            (subroutine_check_phase_switch b g1).2)) = (g4, b4) ∧
      rates_in_range g4.platforms ∧ player_in_bounds g4.player ∧
      g4.screen_is_flashing = g1.screen_is_flashing ∧
      g4.powerup_flash_screen_counter = g1.powerup_flash_screen_counter ∧
      (grid_clear g1.platforms → grid_clear g4.platforms) := by
  obtain ⟨a, n, h2, _⟩ := subroutine_check_phase_switch_frame b g1
  have hplayer3 : player_in_bounds
      (subroutine_read_navswitch inp.east inp.west inp.north inp.south
        (subroutine_check_phase_switch b g1).1).player := by
    rw [subroutine_read_navswitch_player]
    split
    · exact navswitch_move_bounds _ _ _ _ _ _ (by rw [h2]; exact hP.1) (by rw [h2]; exact hP.2)
    · rw [h2]; exact hP
  obtain ⟨c, h3⟩ := subroutine_read_navswitch_frame inp.east inp.west inp.north inp.south
    (subroutine_check_phase_switch b g1).1
  have hpl3 : (subroutine_read_navswitch inp.east inp.west inp.north inp.south
      (subroutine_check_phase_switch b g1).1).platforms = g1.platforms := by
    rw [h3, h2]
  have hfl3 : (subroutine_read_navswitch inp.east inp.west inp.north inp.south
      (subroutine_check_phase_switch b g1).1).screen_is_flashing = g1.screen_is_flashing := by
    rw [h3, h2]
  have hfc3 : (subroutine_read_navswitch inp.east inp.west inp.north inp.south
      (subroutine_check_phase_switch b g1).1).powerup_flash_screen_counter
        = g1.powerup_flash_screen_counter := by
    rw [h3, h2]
  cases hflag : (subroutine_check_phase_switch b g1).2
  · refine ⟨subroutine_read_navswitch inp.east inp.west inp.north inp.south
        (subroutine_check_phase_switch b g1).1, false, rfl, ?_, hplayer3, hfl3, hfc3,
        fun hz => ?_⟩
    · rw [hpl3]; exact hR
    · rw [hpl3]; exact hz
  · obtain ⟨s1, s2, s3, _, s5, s6⟩ := subroutine_phase_changeover_spec true
      (subroutine_read_navswitch inp.east inp.west inp.north inp.south
        (subroutine_check_phase_switch b g1).1)
    refine ⟨(subroutine_phase_changeover true
        (subroutine_read_navswitch inp.east inp.west inp.north inp.south
          (subroutine_check_phase_switch b g1).1)).1,
      (subroutine_phase_changeover true
        (subroutine_read_navswitch inp.east inp.west inp.north inp.south
          (subroutine_check_phase_switch b g1).1)).2, rfl,
      s5 (by rw [hpl3]; exact hR), by rw [s1]; exact hplayer3,
      by rw [s2, hfl3], by rw [s3, hfc3], fun hz => s6 (by rw [hpl3]; exact hz)⟩

/-- The simulation block of one tick, for stored rates in range and the player
in bounds: it returns (no division by zero), keeps both invariants and the
locals of `main` other than the score and the changeover flag; while the
screen is flashing with `new_platform_counter` at 0 and a clear grid it creates
no wall (score unchanged, grid still clear), leaves `new_platform_counter` at 0
and advances the flash counter, ending the flash when the counter reaches
`PACER_RATE / POWERUP_SCREEN_FLASH_SECONDS`. -/
theorem simulation_step_spec (inp : TickInput) (m : Main)
    (hR : rates_in_range m.g.platforms) (hP : player_in_bounds m.g.player) :
    ∃ m1, simulation_step inp m = some m1 ∧
      m1.interface_mode = m.interface_mode ∧ m1.game_over = m.game_over ∧
      m1.game_over_wait_timer = m.game_over_wait_timer ∧
      m1.first_startup_counter = m.first_startup_counter ∧
      rates_in_range m1.g.platforms ∧ player_in_bounds m1.g.player ∧
      (m.g.screen_is_flashing = true → m.g.new_platform_counter = 0 →
        grid_clear m.g.platforms →
        m1.score = m.score ∧ grid_clear m1.g.platforms ∧ m1.g.new_platform_counter = 0 ∧
        (u16 (m.g.powerup_flash_screen_counter + 1)
            ≥ PACER_RATE / POWERUP_SCREEN_FLASH_SECONDS →
          m1.g.screen_is_flashing = false ∧ m1.g.powerup_flash_screen_counter = 0) ∧
        (u16 (m.g.powerup_flash_screen_counter + 1)
            < PACER_RATE / POWERUP_SCREEN_FLASH_SECONDS →
          m1.g.screen_is_flashing = true ∧
          m1.g.powerup_flash_screen_counter = u16 (m.g.powerup_flash_screen_counter + 1))) := by
  obtain ⟨g1, sc1, hw, w_pl, _, _, w_fl, w_fc, _, w_R, _, w_z⟩ :=
    subroutine_walls_spec m.in_phase_changeover_period m.score inp.rnd_wall m.g hR
  obtain ⟨g4, b4, h4, r4, p4, fl4, fc4, z4⟩ :=
    before_powerup_spec inp m.in_phase_changeover_period g1 w_R (by rw [w_pl]; exact hP)
  obtain ⟨q1, q2, q3⟩ := subroutine_powerup_spec inp.button inp.rnd_row inp.rnd_col g4
  have hstep : simulation_step inp m =
      some { m with
              g := subroutine_powerup inp.button inp.rnd_row inp.rnd_col g4
              score := sc1
              in_phase_changeover_period := b4 } := by
    unfold simulation_step
    rw [hw]
    simp only [h4]
  have hclear : ∀ p : Platforms, grid_clear (clear_all_walls p) :=
    fun p r c hr hc => clear_all_walls_cell p r c hr hc
  refine ⟨_, hstep, rfl, rfl, rfl, rfl, ?_, ?_, fun hfl h0 hz => ?_⟩
  · show rates_in_range (subroutine_powerup inp.button inp.rnd_row inp.rnd_col g4).platforms
    rcases q2 with h | h
    · rw [h]; exact r4
    · rw [h]; exact clear_all_walls_in_range _ r4
  · show player_in_bounds (subroutine_powerup inp.button inp.rnd_row inp.rnd_col g4).player
    rw [q1]; exact p4
  · obtain ⟨hs, hzz⟩ := w_z h0
    have hq := q3 (by rw [fl4, w_fl]; exact hfl)
    rw [fc4, w_fc] at hq
    refine ⟨hs, ?_, hq.1, hq.2.1, hq.2.2⟩
    show grid_clear (subroutine_powerup inp.button inp.rnd_row inp.rnd_col g4).platforms
    rcases q2 with h | h
    · rw [h]; exact z4 (hzz hz)
    · rw [h]; exact hclear _

/-! ## The main loop -/

theorem not_colliding_of_clear (p : Platforms) (pl : Player)
    (hz : grid_clear p) (hP : player_in_bounds pl) :
    is_player_colliding_with_platform p pl = false := by
  rw [collision_eq_cell p pl (fun i hi => Or.inl (hz i pl.col hi hP.2)) hP.1,
    hz pl.row pl.col hP.1 hP.2]
  decide

/-- The collision test reads only the grid and the player position. -/
theorem colliding_congr (p1 p2 : Platforms) (pl1 pl2 : Player)
    (hm : p1.display_matrix = p2.display_matrix) (hr : pl1.row = pl2.row)
    (hc : pl1.col = pl2.col) :
    is_player_colliding_with_platform p1 pl1 = is_player_colliding_with_platform p2 pl2 := by
  unfold is_player_colliding_with_platform get_col_pattern get_player_col get_player_row
  rw [hm, hr, hc]

theorem walls_reset_spec (p : Platforms) :
    rates_in_range (walls_reset p) ∧ grid_clear (walls_reset p) ∧
    (walls_reset p).phase = PHASE_HORIZONTAL_PLATFORMS ∧
    (walls_reset p).wall_shifts_per_minute = 90 ∧
    (walls_reset p).new_walls_per_minute = 30 := by
  have h90 : (walls_reset p).wall_shifts_per_minute = 90 := rfl
  have h30 : (walls_reset p).new_walls_per_minute = 30 := rfl
  refine ⟨?_, fun r c hr hc => clear_all_walls_cell p r c hr hc, rfl, rfl, rfl⟩
  unfold rates_in_range
  rw [h90, h30]
  decide

theorem reset_game_spec (g : Game) :
    rates_in_range (reset_game g).platforms ∧ grid_clear (reset_game g).platforms ∧
    player_in_bounds (reset_game g).player ∧
    (reset_game g).platforms.phase = PHASE_HORIZONTAL_PLATFORMS ∧
    (reset_game g).platforms.wall_shifts_per_minute = 90 ∧
    (reset_game g).platforms.new_walls_per_minute = 30 ∧
    (reset_game g).player.row = 6 ∧ (reset_game g).player.col = 2 ∧
    (reset_game g).player_has_powerup = false ∧
    (reset_game g).phase_switch_counter = 0 := by
  obtain ⟨h1, h2, h3, h4, h5⟩ := walls_reset_spec g.platforms
  have hpl : (reset_game g).player = player_init := rfl
  refine ⟨h1, h2, ?_, h3, h4, h5, rfl, rfl, rfl, rfl⟩
  rw [hpl]
  exact ⟨by decide, by decide⟩

theorem same_simulation_data_trans (g g1 g2 : Game)
    (h1 : same_simulation_data g g1) (h2 : same_simulation_data g1 g2) :
    same_simulation_data g g2 := by
  obtain ⟨a1, a2, a3, a4, a5, a6, a7, a8, a9, a10⟩ := h1
  obtain ⟨b1, b2, b3, b4, b5, b6, b7, b8, b9, b10⟩ := h2
  exact ⟨b1.trans a1, b2.trans a2, b3.trans a3, b4.trans a4, b5.trans a5, b6.trans a6,
    b7.trans a7, b8.trans a8, b9.trans a9, b10.trans a10⟩

theorem subroutine_read_button_same (g : Game) :
    same_simulation_data g (subroutine_read_button g).1 := by
  obtain ⟨c, hc⟩ := subroutine_read_button_frame g
  rw [hc]
  exact ⟨rfl, rfl, rfl, rfl, rfl, rfl, rfl, rfl, rfl, rfl⟩

theorem cosmetic_same (g : Game) :
    same_simulation_data g
      (subroutine_powerup_modulate (subroutine_player_blink (subroutine_display g).1)) := by
  obtain ⟨a, b, l, c, l2, c2, h⟩ := cosmetic_frame g
  rw [h]
  exact ⟨rfl, rfl, rfl, rfl, rfl, rfl, rfl, rfl, rfl, rfl⟩

theorem same_simulation_data_colliding (g g1 : Game) (h : same_simulation_data g g1) :
    is_player_colliding_with_platform g1.platforms g1.player =
      is_player_colliding_with_platform g.platforms g.player :=
  colliding_congr _ _ _ _ (by rw [h.1]) h.2.1 h.2.2.1

theorem same_simulation_data_bounds (g g1 : Game) (h : same_simulation_data g g1)
    (hP : player_in_bounds g.player) : player_in_bounds g1.player := by
  unfold player_in_bounds
  rw [h.2.1, h.2.2.1]
  exact hP

/-- The head of the loop body outside interface mode: only the startup counter
and the button divider advance, and the iteration goes on. -/
theorem interface_step_playing (button : Bool) (m : Main) (h : m.interface_mode = false) :
    (interface_step button m).2 = true ∧
    (interface_step button m).1.interface_mode = false ∧
    (interface_step button m).1.game_over_wait_timer = m.game_over_wait_timer ∧
    (interface_step button m).1.score = m.score ∧
    (interface_step button m).1.in_phase_changeover_period = m.in_phase_changeover_period ∧
    (interface_step button m).1.g = (subroutine_read_button m.g).1 := by
  have hi : interface_step button m =
      ({ m with
          first_startup_counter :=
            if m.first_startup_counter < MAX_EIGHT_BIT_VAL then u8 (m.first_startup_counter + 1)
            else m.first_startup_counter
          g := (subroutine_read_button m.g).1 }, true) := by
    unfold interface_step
    simp only [h, Bool.false_eq_true, if_false]
  rw [hi]
  exact ⟨rfl, h, rfl, rfl, rfl, rfl⟩

/-- The head of the loop body in interface mode without a start: the iteration
ends there. -/
theorem interface_step_stay (button : Bool) (m : Main) (h : m.interface_mode = true)
    (hno : button = false ∨
      ¬ (m.first_startup_counter = 254 ∨ m.first_startup_counter = 255)) :
    (interface_step button m).2 = false ∧
    (interface_step button m).1.interface_mode = true ∧
    (interface_step button m).1.game_over_wait_timer = m.game_over_wait_timer ∧
    (interface_step button m).1.score = m.score ∧
    (interface_step button m).1.g = (subroutine_read_button m.g).1 := by
  have hcond : (button && (if m.first_startup_counter < MAX_EIGHT_BIT_VAL
      then u8 (m.first_startup_counter + 1) else m.first_startup_counter)
        == MAX_EIGHT_BIT_VAL) = false := by
    rcases hno with hb | hf
    · simp [hb]
    · have : (if m.first_startup_counter < MAX_EIGHT_BIT_VAL
          then u8 (m.first_startup_counter + 1) else m.first_startup_counter)
            ≠ MAX_EIGHT_BIT_VAL := by
        simp only [MAX_EIGHT_BIT_VAL, u8]
        split <;> omega
      simp [this]
  have hi : interface_step button m =
      ({ m with
          first_startup_counter :=
            if m.first_startup_counter < MAX_EIGHT_BIT_VAL then u8 (m.first_startup_counter + 1)
            else m.first_startup_counter
          g := (subroutine_read_button m.g).1 }, false) := by
    unfold interface_step
    simp only [h, if_true, hcond, Bool.false_eq_true, if_false]
  rw [hi]
  exact ⟨rfl, h, rfl, rfl, rfl⟩

/-- The head of the loop body in interface mode on a button push event with the
startup counter saturated (255 after the increment of this tick): the game
starts with score 0 and `reset_game`. -/
theorem interface_step_start (button : Bool) (m : Main) (hb : button = true)
    (h : m.interface_mode = true)
    (hf : m.first_startup_counter = 254 ∨ m.first_startup_counter = 255) :
    (interface_step button m).2 = true ∧
    (interface_step button m).1.interface_mode = false ∧
    (interface_step button m).1.game_over = false ∧
    (interface_step button m).1.game_over_wait_timer = m.game_over_wait_timer ∧
    (interface_step button m).1.score = 0 ∧
    (interface_step button m).1.g = reset_game (subroutine_read_button m.g).1 := by
  have hfsc : (if m.first_startup_counter < MAX_EIGHT_BIT_VAL
      then u8 (m.first_startup_counter + 1) else m.first_startup_counter) = 255 := by
    simp only [MAX_EIGHT_BIT_VAL, u8]
    split <;> omega
  have hi : interface_step button m =
      ({ m with
          first_startup_counter := 255
          score := 0
          game_over := false
          interface_mode := false
          g := reset_game (subroutine_read_button m.g).1 }, true) := by
    unfold interface_step
    simp only [h, hb, if_true, hfsc, Bool.true_and]
    simp only [MAX_EIGHT_BIT_VAL, beq_self_eq_true, if_true]
  rw [hi]
  exact ⟨rfl, rfl, rfl, rfl, rfl, rfl⟩

/-- A tick in GameOver before the wait has elapsed: only the cosmetic
subroutines run and the timer advances. -/
theorem playing_step_hold (inp : TickInput) (m : Main)
    (hcol : is_player_colliding_with_platform m.g.platforms m.g.player = true)
    (ht : m.game_over_wait_timer < GAME_OVER_WAIT_PERIOD * PACER_RATE) :
    ∃ m1, playing_step inp m = some m1 ∧
      m1.game_over = true ∧ m1.interface_mode = m.interface_mode ∧
      m1.game_over_wait_timer = u16 (m.game_over_wait_timer + 1) ∧
      m1.score = m.score ∧
      m1.in_phase_changeover_period = m.in_phase_changeover_period ∧
      same_simulation_data m.g m1.g := by
  have hnot : ¬ (m.game_over_wait_timer ≥ GAME_OVER_WAIT_PERIOD * PACER_RATE) := by omega
  have hp : playing_step inp m =
      some { m with
              game_over := true
              g := subroutine_powerup_modulate
                    (subroutine_player_blink (subroutine_display m.g).1)
              game_over_wait_timer := u16 (m.game_over_wait_timer + 1) } := by
    unfold playing_step
    simp only [hcol, hnot, Bool.true_and, decide_False, Bool.false_eq_true, if_false,
      Bool.not_true]
  exact ⟨_, hp, rfl, rfl, rfl, rfl, rfl, cosmetic_same m.g⟩

/-- The tick in GameOver on which the wait has elapsed: back to interface mode
with the timer zeroed and `reset_game` called. -/
theorem playing_step_reset (inp : TickInput) (m : Main)
    (hcol : is_player_colliding_with_platform m.g.platforms m.g.player = true)
    (ht : m.game_over_wait_timer ≥ GAME_OVER_WAIT_PERIOD * PACER_RATE) :
    ∃ m1, playing_step inp m = some m1 ∧
      m1.interface_mode = true ∧ m1.game_over_wait_timer = 0 ∧ m1.score = m.score ∧
      m1.g = reset_game m.g := by
  have hp : playing_step inp m =
      some { m with
              game_over := true
              interface_mode := true
              game_over_wait_timer := 0
              g := reset_game m.g } := by
    unfold playing_step
    simp only [hcol, ht, Bool.true_and, decide_True, if_true]
  exact ⟨_, hp, rfl, rfl, rfl, rfl⟩

/-- A tick without collision runs the simulation block after the cosmetic
subroutines. -/
theorem playing_step_sim (inp : TickInput) (m : Main)
    (hcol : is_player_colliding_with_platform m.g.platforms m.g.player = false) :
    playing_step inp m =
      simulation_step inp
        { m with
          game_over := false
          g := subroutine_powerup_modulate
                (subroutine_player_blink (subroutine_display m.g).1) } := by
  unfold playing_step
  simp only [hcol, Bool.false_and, Bool.false_eq_true, if_false, Bool.not_false, if_true]

/-- A tick past the interface block without collision, for stored rates in
range and the player in bounds: the tick returns, leaves the mode and the timer
as they were and `game_over` false, and keeps both invariants; while the screen
is flashing with `new_platform_counter` at 0 and a clear grid it creates no
wall and advances the flash counter. -/
theorem playing_step_spec (inp : TickInput) (m : Main)
    (hR : rates_in_range m.g.platforms) (hP : player_in_bounds m.g.player)
    (hcol : is_player_colliding_with_platform m.g.platforms m.g.player = false) :
    ∃ m1, playing_step inp m = some m1 ∧
      m1.interface_mode = m.interface_mode ∧ m1.game_over = false ∧
      m1.game_over_wait_timer = m.game_over_wait_timer ∧
      rates_in_range m1.g.platforms ∧ player_in_bounds m1.g.player ∧
      (m.g.screen_is_flashing = true → m.g.new_platform_counter = 0 →
        grid_clear m.g.platforms →
        m1.score = m.score ∧ grid_clear m1.g.platforms ∧ m1.g.new_platform_counter = 0 ∧
        (u16 (m.g.powerup_flash_screen_counter + 1)
            ≥ PACER_RATE / POWERUP_SCREEN_FLASH_SECONDS →
          m1.g.screen_is_flashing = false ∧ m1.g.powerup_flash_screen_counter = 0) ∧
        (u16 (m.g.powerup_flash_screen_counter + 1)
            < PACER_RATE / POWERUP_SCREEN_FLASH_SECONDS →
          m1.g.screen_is_flashing = true ∧
          m1.g.powerup_flash_screen_counter = u16 (m.g.powerup_flash_screen_counter + 1))) := by
  have hsame := cosmetic_same m.g
  obtain ⟨s1, _, _, _, _, _, _, s8, s9, s10⟩ := hsame
  obtain ⟨m1, h1, i1, i2, i3, _, i5, i6, i7⟩ := simulation_step_spec inp
    { m with
      game_over := false
      g := subroutine_powerup_modulate (subroutine_player_blink (subroutine_display m.g).1) }
    (by show rates_in_range (subroutine_powerup_modulate _).platforms; rw [s1]; exact hR)
    (same_simulation_data_bounds _ _ (cosmetic_same m.g) hP)
  refine ⟨m1, by rw [playing_step_sim inp m hcol, h1], i1, i2, i3, i5, i6, fun hfl h0 hz => ?_⟩
  have h := i7 (by show (subroutine_powerup_modulate _).screen_is_flashing = true
                   rw [s8]; exact hfl)
    (by show (subroutine_powerup_modulate _).new_platform_counter = 0
        rw [s10]; exact h0)
    (by show grid_clear (subroutine_powerup_modulate _).platforms
        rw [s1]; exact hz)
  have hfc : ({ m with
      game_over := false
      g := subroutine_powerup_modulate
        (subroutine_player_blink (subroutine_display m.g).1) } : Main).g.powerup_flash_screen_counter
        = m.g.powerup_flash_screen_counter := s9
  rw [hfc] at h
  exact h

theorem main_tick_go_on (inp : TickInput) (m : Main)
    (h : (interface_step inp.button m).2 = true) :
    main_tick inp m = playing_step inp (interface_step inp.button m).1 := by
  unfold main_tick
  simp only [h, if_true]

theorem main_tick_continue (inp : TickInput) (m : Main)
    (h : (interface_step inp.button m).2 = false) :
    main_tick inp m = some (interface_step inp.button m).1 := by
  unfold main_tick
  simp only [h, Bool.false_eq_true, if_false]

theorem boot_invariant : loop_invariant main_boot := by
  refine ⟨?_, ⟨by decide, by decide⟩, Or.inl rfl⟩
  unfold rates_in_range
  decide

/-- One iteration of the main loop from a state satisfying the loop invariant
returns (no division by zero) a state satisfying it again; and after a tick
that detected no collision the game-over timer is 0. -/
theorem main_tick_invariant (inp : TickInput) (m : Main) (h : loop_invariant m) :
    ∃ m1, main_tick inp m = some m1 ∧ loop_invariant m1 ∧
      ((m.interface_mode = true ∨
          is_player_colliding_with_platform m.g.platforms m.g.player = false) →
        m1.game_over_wait_timer = 0) := by
  obtain ⟨hR, hP, hJ⟩ := h
  have hbtn := subroutine_read_button_same m.g
  cases hmode : m.interface_mode
  · -- outside interface mode
    obtain ⟨i1, i2, i3, _, _, i6⟩ := interface_step_playing inp.button m hmode
    have hsame : same_simulation_data m.g (interface_step inp.button m).1.g := by
      rw [i6]; exact hbtn
    have hRi : rates_in_range (interface_step inp.button m).1.g.platforms := by
      rw [hsame.1]; exact hR
    have hPi := same_simulation_data_bounds _ _ hsame hP
    have hci := same_simulation_data_colliding _ _ hsame
    rw [main_tick_go_on inp m i1]
    cases hcol : is_player_colliding_with_platform m.g.platforms m.g.player
    · -- no collision: the simulation runs
      have ht0 : m.game_over_wait_timer = 0 := by
        rcases hJ with h0 | ⟨_, hc⟩
        · exact h0
        · rw [hcol] at hc; exact absurd hc (by decide)
      obtain ⟨m1, p1, p2, _, p4, p5, p6, _⟩ :=
        playing_step_spec inp (interface_step inp.button m).1 hRi hPi (by rw [hci]; exact hcol)
      have ht1 : m1.game_over_wait_timer = 0 := by rw [p4, i3]; exact ht0
      exact ⟨m1, p1, ⟨p5, p6, Or.inl ht1⟩, fun _ => ht1⟩
    · -- collision: GameOver
      by_cases ht : (interface_step inp.button m).1.game_over_wait_timer
          ≥ GAME_OVER_WAIT_PERIOD * PACER_RATE
      · obtain ⟨m1, p1, _, p3, _, p5⟩ :=
          playing_step_reset inp (interface_step inp.button m).1 (by rw [hci]; exact hcol) ht
        obtain ⟨r1, _, r3, _⟩ := reset_game_spec (interface_step inp.button m).1.g
        refine ⟨m1, p1, ⟨by rw [p5]; exact r1, by rw [p5]; exact r3, Or.inl p3⟩, fun hh => ?_⟩
        exact p3
      · obtain ⟨m1, p1, _, p3, _, _, _, p7⟩ :=
          playing_step_hold inp (interface_step inp.button m).1 (by rw [hci]; exact hcol)
            (by omega)
        have hs := same_simulation_data_trans _ _ _ hsame p7
        refine ⟨m1, p1, ⟨by rw [hs.1]; exact hR, same_simulation_data_bounds _ _ hs hP,
          Or.inr ⟨by rw [p3, i2], by rw [same_simulation_data_colliding _ _ hs]; exact hcol⟩⟩,
          fun hh => ?_⟩
        rcases hh with hh | hh
        · exact absurd hh (by decide)
        · exact absurd hh (by decide)
  · -- interface mode
    have ht0 : m.game_over_wait_timer = 0 := by
      rcases hJ with h0 | ⟨hm, _⟩
      · exact h0
      · rw [hmode] at hm; exact absurd hm (by decide)
    by_cases hstart : inp.button = true ∧
        (m.first_startup_counter = 254 ∨ m.first_startup_counter = 255)
    · obtain ⟨hb, hf⟩ := hstart
      obtain ⟨i1, _, _, i4, _, i6⟩ := interface_step_start inp.button m hb hmode hf
      obtain ⟨r1, r2, r3, _⟩ := reset_game_spec (subroutine_read_button m.g).1
      rw [main_tick_go_on inp m i1]
      obtain ⟨m1, p1, _, _, p4, p5, p6, _⟩ :=
        playing_step_spec inp (interface_step inp.button m).1 (by rw [i6]; exact r1)
          (by rw [i6]; exact r3) (by rw [i6]; exact not_colliding_of_clear _ _ r2 r3)
      have ht1 : m1.game_over_wait_timer = 0 := by rw [p4, i4]; exact ht0
      exact ⟨m1, p1, ⟨p5, p6, Or.inl ht1⟩, fun _ => ht1⟩
    · have hno : inp.button = false ∨
          ¬ (m.first_startup_counter = 254 ∨ m.first_startup_counter = 255) := by
        by_cases hb : inp.button = true
        · right; intro hf; exact hstart ⟨hb, hf⟩
        · left; simpa using hb
      obtain ⟨i1, _, i3, _, i5⟩ := interface_step_stay inp.button m hmode hno
      rw [main_tick_continue inp m i1]
      have hsame : same_simulation_data m.g (interface_step inp.button m).1.g := by
        rw [i5]; exact hbtn
      have ht1 : (interface_step inp.button m).1.game_over_wait_timer = 0 := by
        rw [i3]; exact ht0
      exact ⟨_, rfl, ⟨by rw [hsame.1]; exact hR, same_simulation_data_bounds _ _ hsame hP,
        Or.inl ht1⟩, fun _ => ht1⟩

/-- Every run of the main loop from a state satisfying the loop invariant
returns a state satisfying it. -/
theorem main_run_invariant (inps : List TickInput) :
    ∀ m, loop_invariant m → ∃ m1, main_run inps m = some m1 ∧ loop_invariant m1 := by
  induction inps with
  | nil => exact fun m h => ⟨m, rfl, h⟩
  | cons inp rest ih =>
    intro m h
    obtain ⟨m1, h1, hinv, _⟩ := main_tick_invariant inp m h
    obtain ⟨m2, h2, hinv2⟩ := ih m1 hinv
    refine ⟨m2, ?_, hinv2⟩
    show (match main_tick inp m with
      | none => none
      | some m1 => main_run rest m1) = some m2
    rw [h1]
    exact h2

/-- C19: in every state reachable by the main loop from boot (any inputs, so
any number of changeovers and resets, either phase) the logical rates returned
by `get_wall_shifts_per_minute` and `get_new_walls_per_minute` are at least 1;
hence neither division `PACER_RATE * 60 / rate` divides by zero,
`subroutine_walls` returns, and the next iteration of the loop returns.  The
getters scale by 1.2 and 1.5 in the 24-bit `double` of the target; the stored
rates scaled by exact rational division and truncated are at least 1 as
well. -/
theorem C19_logical_rates_positive (inps : List TickInput) :
    ∃ m, main_run inps main_boot = some m ∧
      1 ≤ get_wall_shifts_per_minute m.g.platforms ∧
      1 ≤ get_new_walls_per_minute m.g.platforms ∧
      c_div (PACER_RATE * 60) (get_wall_shifts_per_minute m.g.platforms) ≠ none ∧
      c_div (PACER_RATE * 60) (get_new_walls_per_minute m.g.platforms) ≠ none ∧
      (∀ b score rnd, subroutine_walls b score rnd m.g ≠ none) ∧
      (∀ inp, main_tick inp m ≠ none) ∧
      1 ≤ ⌊(m.g.platforms.wall_shifts_per_minute : ℚ) / (6 / 5)⌋₊ ∧
      1 ≤ ⌊(m.g.platforms.new_walls_per_minute : ℚ) / (3 / 2)⌋₊ := by
  obtain ⟨m, hm, hinv⟩ := main_run_invariant inps main_boot boot_invariant
  obtain ⟨h1, _, h3, _⟩ := rates_in_range_logical m.g.platforms hinv.1
  have hexact : 1 ≤ ⌊(m.g.platforms.wall_shifts_per_minute : ℚ) / (6 / 5)⌋₊ ∧
      1 ≤ ⌊(m.g.platforms.new_walls_per_minute : ℚ) / (3 / 2)⌋₊ := by
    obtain ⟨r1, _, r3, _⟩ := hinv.1
    simp only [INITIAL_WALL_SHIFTS_PER_MINUTE, INITIAL_NEW_WALLS_PER_MINUTE] at r1 r3
    rw [floor_div_six_fifths, floor_div_three_halves]
    exact ⟨by omega, by omega⟩
  refine ⟨m, hm, h1, h3, ?_, ?_, fun b score rnd => ?_, fun inp => ?_, hexact.1, hexact.2⟩
  · unfold c_div; rw [if_neg (by omega)]; exact Option.some_ne_none _
  · unfold c_div; rw [if_neg (by omega)]; exact Option.some_ne_none _
  · obtain ⟨a, n, hw⟩ := subroutine_walls_record b score rnd m.g h1 h3
    rw [hw]; exact Option.some_ne_none _
  · obtain ⟨m1, ht, _⟩ := main_tick_invariant inp m hinv
    rw [ht]; exact Option.some_ne_none _

/-- C16: on the Attract to Playing transition (interface mode, button push
event, startup counter at 255 after this tick's increment) the state at the
collision check has score 0, every grid cell 0, the player at (row 6, col 2),
stored rates (90, 30), phase Horizontal and `player_has_powerup` false;
consequently `is_player_colliding_with_platform` is false on that tick, and the
tick ends outside interface mode with `game_over` false. -/
theorem C16_start_resets_game (inp : TickInput) (m : Main)
    (hmode : m.interface_mode = true) (hb : inp.button = true)
    (hf : m.first_startup_counter = 254 ∨ m.first_startup_counter = 255) :
    (interface_step inp.button m).2 = true ∧
    (interface_step inp.button m).1.interface_mode = false ∧
    (interface_step inp.button m).1.score = 0 ∧
    grid_clear (interface_step inp.button m).1.g.platforms ∧
    (interface_step inp.button m).1.g.player.row = 6 ∧
    (interface_step inp.button m).1.g.player.col = 2 ∧
    (interface_step inp.button m).1.g.platforms.wall_shifts_per_minute = 90 ∧
    (interface_step inp.button m).1.g.platforms.new_walls_per_minute = 30 ∧
    (interface_step inp.button m).1.g.platforms.phase = PHASE_HORIZONTAL_PLATFORMS ∧
    (interface_step inp.button m).1.g.player_has_powerup = false ∧
    is_player_colliding_with_platform (interface_step inp.button m).1.g.platforms
      (interface_step inp.button m).1.g.player = false ∧
    (∃ m1, main_tick inp m = some m1 ∧ m1.game_over = false ∧ m1.interface_mode = false) := by
  obtain ⟨i1, i2, _, _, i5, i6⟩ := interface_step_start inp.button m hb hmode hf
  obtain ⟨r1, r2, r3, r4, r5, r6, r7, r8, r9, _⟩ := reset_game_spec (subroutine_read_button m.g).1
  have hcol : is_player_colliding_with_platform (interface_step inp.button m).1.g.platforms
      (interface_step inp.button m).1.g.player = false := by
    rw [i6]; exact not_colliding_of_clear _ _ r2 r3
  obtain ⟨m1, p1, p2, p3, _⟩ :=
    playing_step_spec inp (interface_step inp.button m).1 (by rw [i6]; exact r1)
      (by rw [i6]; exact r3) hcol
  refine ⟨i1, i2, i5, by rw [i6]; exact r2, by rw [i6]; exact r7, by rw [i6]; exact r8,
    by rw [i6]; exact r5, by rw [i6]; exact r6, by rw [i6]; exact r4, by rw [i6]; exact r9,
    hcol, m1, ?_, p3, by rw [p2, i2]⟩
  rw [main_tick_go_on inp m i1]
  exact p1

/-- Witness for C16: at boot with the startup counter saturated, a button push
event starts the game with score 0 and no collision. -/
theorem C16_start_resets_game_witness :
    (interface_step button_press.button main_boot_settled).1.score = 0 ∧
    is_player_colliding_with_platform
      (interface_step button_press.button main_boot_settled).1.g.platforms
      (interface_step button_press.button main_boot_settled).1.g.player = false :=
  have h := C16_start_resets_game button_press main_boot_settled rfl rfl (Or.inr rfl)
  ⟨h.2.2.1, h.2.2.2.2.2.2.2.2.2.2.1⟩

/-! ## GameOver -/

/-- A tick in GameOver before the wait has elapsed. -/
theorem game_over_tick (inp : TickInput) (m : Main)
    (hmode : m.interface_mode = false)
    (hcol : is_player_colliding_with_platform m.g.platforms m.g.player = true)
    (ht : m.game_over_wait_timer < GAME_OVER_WAIT_PERIOD * PACER_RATE) :
    ∃ m1, main_tick inp m = some m1 ∧
      m1.interface_mode = false ∧ m1.game_over = true ∧
      m1.game_over_wait_timer = m.game_over_wait_timer + 1 ∧
      m1.score = m.score ∧ same_simulation_data m.g m1.g ∧
      is_player_colliding_with_platform m1.g.platforms m1.g.player = true := by
  obtain ⟨i1, i2, i3, i4, _, i6⟩ := interface_step_playing inp.button m hmode
  have hsame : same_simulation_data m.g (interface_step inp.button m).1.g := by
    rw [i6]; exact subroutine_read_button_same m.g
  obtain ⟨m1, p1, p2, p3, p4, p5, _, p7⟩ :=
    playing_step_hold inp (interface_step inp.button m).1
      (by rw [same_simulation_data_colliding _ _ hsame]; exact hcol) (by rw [i3]; exact ht)
  have hs := same_simulation_data_trans _ _ _ hsame p7
  have h1000 : GAME_OVER_WAIT_PERIOD * PACER_RATE = 1000 := by decide
  refine ⟨m1, by rw [main_tick_go_on inp m i1]; exact p1, by rw [p3, i2], p2, ?_,
    by rw [p5, i4], hs, by rw [same_simulation_data_colliding _ _ hs]; exact hcol⟩
  rw [p4, i3]
  unfold u16
  exact Nat.mod_eq_of_lt (by omega)

/-- The tick in GameOver on which the wait has elapsed. -/
theorem game_over_reset_tick (inp : TickInput) (m : Main)
    (hmode : m.interface_mode = false)
    (hcol : is_player_colliding_with_platform m.g.platforms m.g.player = true)
    (ht : m.game_over_wait_timer ≥ GAME_OVER_WAIT_PERIOD * PACER_RATE) :
    ∃ m1, main_tick inp m = some m1 ∧
      m1.interface_mode = true ∧ m1.game_over_wait_timer = 0 ∧
      m1.g = reset_game (subroutine_read_button m.g).1 := by
  obtain ⟨i1, _, i3, _, _, i6⟩ := interface_step_playing inp.button m hmode
  have hsame : same_simulation_data m.g (interface_step inp.button m).1.g := by
    rw [i6]; exact subroutine_read_button_same m.g
  obtain ⟨m1, p1, p2, p3, _, p5⟩ :=
    playing_step_reset inp (interface_step inp.button m).1
      (by rw [same_simulation_data_colliding _ _ hsame]; exact hcol) (by rw [i3]; exact ht)
  exact ⟨m1, by rw [main_tick_go_on inp m i1]; exact p1, p2, p3, by rw [p5, i6]⟩

theorem same_simulation_data_refl (g : Game) : same_simulation_data g g :=
  ⟨rfl, rfl, rfl, rfl, rfl, rfl, rfl, rfl, rfl, rfl⟩

/-- A run of ticks in GameOver that fits into the wait. -/
theorem game_over_run (inps : List TickInput) :
    ∀ m : Main, m.interface_mode = false →
      is_player_colliding_with_platform m.g.platforms m.g.player = true →
      m.game_over_wait_timer + inps.length ≤ GAME_OVER_WAIT_PERIOD * PACER_RATE →
      ∃ m1, main_run inps m = some m1 ∧
        m1.interface_mode = false ∧ (inps ≠ [] → m1.game_over = true) ∧
        m1.game_over_wait_timer = m.game_over_wait_timer + inps.length ∧
        m1.score = m.score ∧ same_simulation_data m.g m1.g ∧
        is_player_colliding_with_platform m1.g.platforms m1.g.player = true := by
  induction inps with
  | nil =>
    intro m hmode hcol _
    exact ⟨m, rfl, hmode, fun h => absurd rfl h, rfl, rfl, same_simulation_data_refl _, hcol⟩
  | cons inp rest ih =>
    intro m hmode hcol hlen
    simp only [List.length_cons] at hlen
    obtain ⟨m1, t1, t2, t3, t4, t5, t6, t7⟩ := game_over_tick inp m hmode hcol (by omega)
    obtain ⟨m2, r1, r2, r3, r4, r5, r6, r7⟩ := ih m1 t2 t7 (by rw [t4]; omega)
    refine ⟨m2, ?_, r2, fun _ => ?_, ?_, by rw [r5, t5],
      same_simulation_data_trans _ _ _ t6 r6, r7⟩
    · show (match main_tick inp m with
        | none => none
        | some m1 => main_run rest m1) = some m2
      rw [t1]
      exact r1
    · cases rest with
      | nil =>
        have : m2 = m1 := by
          have h := r1
          simp only [main_run] at h
          exact (Option.some.inj h).symm
        rw [this]; exact t3
      | cons _ _ => exact r3 (List.cons_ne_nil _ _)
    · rw [r4, t4]
      simp only [List.length_cons]
      omega

/-- C18: GameOver freezes the simulation for a fixed wait.  From a tick
boundary outside interface mode with the player inside a wall and the
game-over timer at 0 (as it is on the first tick that detects a collision: the
timer is 0 after every tick of a run from boot that detected none), the loop
stays in GameOver for `GAME_OVER_WAIT_PERIOD * PACER_RATE = 1000` ticks: after
any `k ≤ 1000` of them it is still outside interface mode with the timer at
`k` and the grid, phase, stored rates, player position, powerup position and
visibility and score unchanged, whatever the inputs; the tick after the
1000th sets `interface_mode`, zeroes the timer and calls `reset_game`. -/
theorem C18_game_over_wait (m : Main) (inps : List TickInput) (inp : TickInput)
    (hmode : m.interface_mode = false)
    (hcol : is_player_colliding_with_platform m.g.platforms m.g.player = true)
    (ht : m.game_over_wait_timer = 0)
    (hlen : inps.length ≤ 1000) :
    GAME_OVER_WAIT_PERIOD * PACER_RATE = 1000 ∧
    (∃ m1, main_run inps m = some m1 ∧
      m1.interface_mode = false ∧ (inps ≠ [] → m1.game_over = true) ∧
      m1.game_over_wait_timer = inps.length ∧
      m1.score = m.score ∧
      m1.g.platforms = m.g.platforms ∧
      m1.g.player.row = m.g.player.row ∧ m1.g.player.col = m.g.player.col ∧
      m1.g.powerup.row = m.g.powerup.row ∧ m1.g.powerup.col = m.g.powerup.col ∧
      m1.g.powerup.powerup_visible = m.g.powerup.powerup_visible ∧
      (inps.length = 1000 →
        ∃ m2, main_tick inp m1 = some m2 ∧
          m2.interface_mode = true ∧ m2.game_over_wait_timer = 0 ∧
          m2.g = reset_game (subroutine_read_button m1.g).1)) ∧
    (∀ (inps0 : List TickInput) (inp0 : TickInput) (m0 m3 : Main),
      main_run inps0 main_boot = some m0 →
      (m0.interface_mode = true ∨
        is_player_colliding_with_platform m0.g.platforms m0.g.player = false) →
      main_tick inp0 m0 = some m3 → m3.game_over_wait_timer = 0) := by
  have h1000 : GAME_OVER_WAIT_PERIOD * PACER_RATE = 1000 := by decide
  refine ⟨h1000, ?_, fun inps0 inp0 m0 m3 hreach hprev htick => ?_⟩
  · obtain ⟨m1, r1, r2, r3, r4, r5, r6, r7⟩ :=
      game_over_run inps m hmode hcol (by rw [ht, h1000]; omega)
    obtain ⟨s1, s2, s3, s4, s5, s6, _⟩ := r6
    refine ⟨m1, r1, r2, r3, by rw [r4, ht]; omega, r5, s1, s2, s3, s4, s5, s6, fun hfull => ?_⟩
    exact game_over_reset_tick inp m1 r2 r7 (by rw [r4, ht, h1000]; omega)
  · obtain ⟨m0', hm0, hinv⟩ := main_run_invariant inps0 main_boot boot_invariant
    rw [hreach] at hm0
    have heq : m0 = m0' := Option.some.inj hm0
    rw [← heq] at hinv
    obtain ⟨m3', h3, _, hz⟩ := main_tick_invariant inp0 m0 hinv
    rw [htick] at h3
    have heq3 : m3 = m3' := Option.some.inj h3
    rw [heq3]
    exact hz hprev

/-- Witness for C18: with the player inside a full wall in row 6 and the timer
at 0, one tick later the loop is in GameOver with the timer at 1 and the score
unchanged. -/
theorem C18_game_over_wait_witness :
    ∃ m1, main_run [button_press] main_in_wall = some m1 ∧
      m1.interface_mode = false ∧ m1.game_over_wait_timer = 1 ∧
      m1.score = main_in_wall.score ∧ m1.g.platforms = main_in_wall.g.platforms :=
  have h := (C18_game_over_wait main_in_wall [button_press] button_press rfl (by decide) rfl
    (by decide)).2.1
  match h with
  | ⟨m1, r1, r2, _, r4, r5, r6, _⟩ => ⟨m1, r1, r2, r4, r5, r6⟩

/-! ## The flash -/

/-- The call of `subroutine_powerup` that uses the powerup while no flash is in
progress (flash counter 0) returns with the flash asserted, the flash counter at 1, the grid
clear and the wall-spawn counter at 0. -/
theorem using_call_spec (g : Game) (rnd_row rnd_col : Nat)
    (hfc : g.powerup_flash_screen_counter = 0)
    (hheld : (powerup_collect_step g).player_has_powerup = true) :
    (subroutine_powerup true rnd_row rnd_col g).screen_is_flashing = true ∧
    (subroutine_powerup true rnd_row rnd_col g).powerup_flash_screen_counter = 1 ∧
    (subroutine_powerup true rnd_row rnd_col g).new_platform_counter = 0 ∧
    grid_clear (subroutine_powerup true rnd_row rnd_col g).platforms ∧
    (subroutine_powerup true rnd_row rnd_col g).player_has_powerup = false := by
  obtain ⟨c1, _, c3, c4, _, _, _⟩ := powerup_collect_step_frame g
  have huse : powerup_use_step true (powerup_collect_step g) =
      { powerup_collect_step g with
        player_has_powerup := false
        platforms := clear_all_walls (powerup_collect_step g).platforms
        screen_is_flashing := true } := by
    unfold powerup_use_step
    simp [hheld]
  obtain ⟨k1, _, k3, k4, k5, _⟩ :=
    powerup_create_step_frame rnd_row rnd_col (powerup_use_step true (powerup_collect_step g))
  obtain ⟨f1, _, f3, _⟩ := powerup_flash_step_frame
    (powerup_create_step rnd_row rnd_col (powerup_use_step true (powerup_collect_step g)))
  have hfl : (powerup_create_step rnd_row rnd_col
      (powerup_use_step true (powerup_collect_step g))).screen_is_flashing = true := by
    rw [k4, huse]
  have hcnt : (powerup_create_step rnd_row rnd_col
      (powerup_use_step true (powerup_collect_step g))).powerup_flash_screen_counter = 0 := by
    rw [k5, huse]
    show (powerup_collect_step g).powerup_flash_screen_counter = 0
    rw [c4, hfc]
  obtain ⟨q1, _, q3⟩ := powerup_flash_step_flashing_case _ hfl
  rw [hcnt] at q3
  have hq := q3 (by decide)
  unfold subroutine_powerup
  refine ⟨hq.1, hq.2, q1, ?_, ?_⟩
  · rw [f1, k1, huse]
    exact fun r c hr hc => clear_all_walls_cell _ r c hr hc
  · rw [f3, k3, huse]

/-- One tick while the screen is flashing with the grid clear and the wall-spawn
counter at 0: the simulation runs, no wall is created, and the flash counter
advances from `j` to `j + 1`, ending the flash when `j + 1` reaches 500. -/
theorem flash_tick (inp : TickInput) (m : Main) (j : Nat)
    (hmode : m.interface_mode = false)
    (hR : rates_in_range m.g.platforms) (hP : player_in_bounds m.g.player)
    (hz : grid_clear m.g.platforms) (hfl : m.g.screen_is_flashing = true)
    (h0 : m.g.new_platform_counter = 0) (hj : m.g.powerup_flash_screen_counter = j)
    (hj500 : j < 500) :
    ∃ m1, main_tick inp m = some m1 ∧
      m1.interface_mode = false ∧ m1.game_over = false ∧
      rates_in_range m1.g.platforms ∧ player_in_bounds m1.g.player ∧
      grid_clear m1.g.platforms ∧ m1.g.new_platform_counter = 0 ∧ m1.score = m.score ∧
      (j + 1 < 500 → m1.g.screen_is_flashing = true ∧ m1.g.powerup_flash_screen_counter = j + 1) ∧
      (j + 1 = 500 → m1.g.screen_is_flashing = false ∧ m1.g.powerup_flash_screen_counter = 0) := by
  obtain ⟨i1, i2, _, i4, _, i6⟩ := interface_step_playing inp.button m hmode
  have hsame : same_simulation_data m.g (interface_step inp.button m).1.g := by
    rw [i6]; exact subroutine_read_button_same m.g
  have hPi := same_simulation_data_bounds _ _ hsame hP
  obtain ⟨s1, _, _, _, _, _, _, s8, s9, s10⟩ := hsame
  have hRi : rates_in_range (interface_step inp.button m).1.g.platforms := by rw [s1]; exact hR
  have hzi : grid_clear (interface_step inp.button m).1.g.platforms := by rw [s1]; exact hz
  obtain ⟨m1, p1, p2, p3, _, p5, p6, p7⟩ :=
    playing_step_spec inp (interface_step inp.button m).1 hRi hPi
      (not_colliding_of_clear _ _ hzi hPi)
  obtain ⟨q1, q2, q3, q4, q5⟩ := p7 (by rw [s8]; exact hfl) (by rw [s10]; exact h0) hzi
  have h500 : PACER_RATE / POWERUP_SCREEN_FLASH_SECONDS = 500 := by decide
  have hu : u16 (j + 1) = j + 1 := by unfold u16; exact Nat.mod_eq_of_lt (by omega)
  rw [s9, hj, hu, h500] at q4 q5
  exact ⟨m1, by rw [main_tick_go_on inp m i1]; exact p1, by rw [p2, i2], p3, p5, p6, q2, q3,
    by rw [q1, i4], fun h => q5 h, fun h => q4 (by omega)⟩

/-- A run of ticks while the screen is flashing, starting with the flash
counter at `j`: no wall is created, and the flash is still asserted as long as
the counter stays below 500 and has ended when it reaches 500. -/
theorem flash_run (inps : List TickInput) :
    ∀ (m : Main) (j : Nat), m.interface_mode = false →
      rates_in_range m.g.platforms → player_in_bounds m.g.player →
      grid_clear m.g.platforms → m.g.screen_is_flashing = true →
      m.g.new_platform_counter = 0 → m.g.powerup_flash_screen_counter = j →
      j + inps.length ≤ 500 → j < 500 →
      ∃ m1, main_run inps m = some m1 ∧
        m1.interface_mode = false ∧ m1.score = m.score ∧
        grid_clear m1.g.platforms ∧ m1.g.new_platform_counter = 0 ∧
        (j + inps.length < 500 → m1.g.screen_is_flashing = true) ∧
        (j + inps.length = 500 → m1.g.screen_is_flashing = false) := by
  induction inps with
  | nil =>
    intro m j hmode _ _ hz hfl h0 _ _ hj
    exact ⟨m, rfl, hmode, rfl, hz, h0, fun _ => hfl, fun h => by simp at h; omega⟩
  | cons inp rest ih =>
    intro m j hmode hR hP hz hfl h0 hj hlen hj500
    simp only [List.length_cons] at hlen ⊢
    obtain ⟨m1, t1, t2, _, t4, t5, t6, t7, t8, t9, t10⟩ :=
      flash_tick inp m j hmode hR hP hz hfl h0 hj hj500
    have hrun : ∀ m2, main_run rest m1 = some m2 → main_run (inp :: rest) m = some m2 := by
      intro m2 h2
      show (match main_tick inp m with
        | none => none
        | some m1 => main_run rest m1) = some m2
      rw [t1]
      exact h2
    by_cases hnext : j + 1 < 500
    · obtain ⟨hfl1, hfc1⟩ := t9 hnext
      obtain ⟨m2, r1, r2, r3, r4, r5, r6, r7⟩ :=
        ih m1 (j + 1) t2 t4 t5 t6 hfl1 t7 hfc1 (by omega) hnext
      exact ⟨m2, hrun m2 r1, r2, by rw [r3, t8], r4, r5, fun h => r6 (by omega),
        fun h => r7 (by omega)⟩
    · have hrest : rest = [] := by
        cases rest with
        | nil => rfl
        | cons _ _ => simp only [List.length_cons] at hlen; omega
      subst hrest
      obtain ⟨hfl1, _⟩ := t10 (by omega)
      exact ⟨m1, hrun m1 rfl, t2, t8, t6, t7, fun h => by simp at h; omega, fun _ => hfl1⟩

/-- C14: a flash begun by using the powerup while no flash is in progress
(flash counter 0) lasts `PACER_RATE / POWERUP_SCREEN_FLASH_SECONDS = 500` calls
of `subroutine_powerup` counted from the using call.  With `m` the state of the
loop at the tick boundary after the using call (outside interface mode, rates
in range, player in bounds): the flash is asserted, and after any `k` further
ticks, whatever the inputs, the loop is still in play, no wall has been created
(the score is unchanged and the grid is clear) and `new_platform_counter` is 0;
the flash is still asserted for `k < 499` (calls 2 to 499) and is over for
`k = 499` (call 500). -/
theorem C14_flash_duration (g : Game) (rnd_row rnd_col : Nat) (m : Main)
    (inps : List TickInput)
    (hfc : g.powerup_flash_screen_counter = 0)
    (hheld : (powerup_collect_step g).player_has_powerup = true)
    (hm : m.g = subroutine_powerup true rnd_row rnd_col g)
    (hmode : m.interface_mode = false)
    (hR : rates_in_range m.g.platforms) (hP : player_in_bounds m.g.player)
    (hlen : inps.length ≤ 499) :
    PACER_RATE / POWERUP_SCREEN_FLASH_SECONDS = 500 ∧
    m.g.screen_is_flashing = true ∧ m.g.new_platform_counter = 0 ∧
    grid_clear m.g.platforms ∧
    (∃ m1, main_run inps m = some m1 ∧
      m1.interface_mode = false ∧ m1.score = m.score ∧
      grid_clear m1.g.platforms ∧ m1.g.new_platform_counter = 0 ∧
      (inps.length < 499 → m1.g.screen_is_flashing = true) ∧
      (inps.length = 499 → m1.g.screen_is_flashing = false)) := by
  obtain ⟨u1, u2, u3, u4, _⟩ := using_call_spec g rnd_row rnd_col hfc hheld
  rw [← hm] at u1 u2 u3 u4
  obtain ⟨m1, r1, r2, r3, r4, r5, r6, r7⟩ :=
    flash_run inps m 1 hmode hR hP u4 u1 u3 u2 (by omega) (by decide)
  exact ⟨by decide, u1, u3, u4, m1, r1, r2, r3, r4, r5, fun h => r6 (by omega),
    fun h => r7 (by omega)⟩

/-- Witness for C14: after the powerup held at boot is used, the flash is
asserted and one tick later it is still asserted with the score unchanged. -/
theorem C14_flash_duration_witness :
    main_after_use.g.screen_is_flashing = true ∧
    (∃ m1, main_run [button_press] main_after_use = some m1 ∧
      m1.score = main_after_use.score ∧ m1.g.screen_is_flashing = true) :=
  have h := C14_flash_duration boot_holding_powerup 0 0 main_after_use [button_press]
    rfl (by decide) rfl rfl (by unfold rates_in_range; decide)
    (by unfold player_in_bounds; decide) (by decide)
  match h.2.2.2.2 with
  | ⟨m1, r1, _, r3, _, _, r6, _⟩ => ⟨h.2.1, m1, r1, r3, r6 (by decide)⟩

/-! ## Monotonicity of the difficulty setters -/

/-- Without 8-bit wrap of the sum, a setter never lowers a rate that is within
its maximum. -/
theorem increase_rate_monotone_without_wrap (p : Platforms) (e : Nat) :
    (p.wall_shifts_per_minute ≤ MAX_WALL_SHIFTS_PER_MINUTE →
      p.wall_shifts_per_minute + e ≤ 255 →
      p.wall_shifts_per_minute ≤
        (increase_wall_shifts_per_minute e p).wall_shifts_per_minute) ∧
    (p.new_walls_per_minute ≤ MAX_NEW_WALLS_PER_MINUTE →
      p.new_walls_per_minute + e ≤ 255 →
      p.new_walls_per_minute ≤
        (increase_new_walls_per_minute e p).new_walls_per_minute) := by
  constructor
  · intro h1 h2
    have hu : u8 (p.wall_shifts_per_minute + e) = p.wall_shifts_per_minute + e := by
      unfold u8; exact Nat.mod_eq_of_lt (by omega)
    simp only [increase_wall_shifts_per_minute, hu]
    split <;> omega
  · intro h1 h2
    have hu : u8 (p.new_walls_per_minute + e) = p.new_walls_per_minute + e := by
      unfold u8; exact Nat.mod_eq_of_lt (by omega)
    simp only [increase_new_walls_per_minute, hu]
    split <;> omega

/-- C21 (the code at the failing input): with the stored rates at their initial
values (90, 30), `increase_wall_shifts_per_minute 200` stores 34 and
`increase_new_walls_per_minute 230` stores 4: the 8-bit sum wraps before the
clamp and the rate goes down. -/
theorem C21_increase_can_lower_rate :
    platforms_init.wall_shifts_per_minute = 90 ∧
    (increase_wall_shifts_per_minute 200 platforms_init).wall_shifts_per_minute = 34 ∧
    platforms_init.new_walls_per_minute = 30 ∧
    (increase_new_walls_per_minute 230 platforms_init).new_walls_per_minute = 4 ∧
    ¬ (∀ (p : Platforms) (e : Nat), e < 256 →
        INITIAL_WALL_SHIFTS_PER_MINUTE ≤ p.wall_shifts_per_minute →
        p.wall_shifts_per_minute ≤ MAX_WALL_SHIFTS_PER_MINUTE →
        p.wall_shifts_per_minute ≤
          (increase_wall_shifts_per_minute e p).wall_shifts_per_minute) := by
  refine ⟨rfl, by decide, rfl, by decide, fun h => ?_⟩
  have h200 := h platforms_init 200 (by decide) (by decide) (by decide)
  have h34 : (increase_wall_shifts_per_minute 200 platforms_init).wall_shifts_per_minute = 34 := by
    decide
  rw [h34] at h200
  exact absurd h200 (by decide)

/-! ## Reset of the module-level variables -/

/-- C22 (the code at the failing input): `reset_game` zeroes
`phase_switch_counter` and clears `player_has_powerup` but leaves
`new_platform_counter` as it was; from a state with the counter at 500 it is
still 500 after the reset. -/
theorem C22_reset_game_keeps_new_platform_counter :
    (∀ g : Game, (reset_game g).phase_switch_counter = 0 ∧
      (reset_game g).player_has_powerup = false ∧
      (reset_game g).new_platform_counter = g.new_platform_counter) ∧
    boot_mid_game.new_platform_counter = 500 ∧
    (reset_game boot_mid_game).new_platform_counter = 500 :=
  ⟨fun _ => ⟨rfl, rfl, rfl⟩, by decide, by decide⟩

/-! ## The grid as per-column bitmasks -/

theorem pattern_lt_128 : ∀ a0 a1 a2 a3 a4 a5 a6 : Bool,
    u8 (u8 (u8 (u8 (u8 (u8 (u8 (0 ||| (b2n a0 <<< 0))
        ||| (b2n a1 <<< 1)) ||| (b2n a2 <<< 2))
        ||| (b2n a3 <<< 3)) ||| (b2n a4 <<< 4))
        ||| (b2n a5 <<< 5)) ||| (b2n a6 <<< 6)) < 128 := by
  decide

theorem pattern_shifted : ∀ a0 a1 a2 a3 a4 a5 a6 : Bool,
    u8 (u8 (u8 (u8 (u8 (u8 (u8 (0 ||| (0 <<< 0))
        ||| (b2n a0 <<< 1)) ||| (b2n a1 <<< 2))
        ||| (b2n a2 <<< 3)) ||| (b2n a3 <<< 4))
        ||| (b2n a4 <<< 5)) ||| (b2n a5 <<< 6))
      = (2 * u8 (u8 (u8 (u8 (u8 (u8 (u8 (0 ||| (b2n a0 <<< 0))
        ||| (b2n a1 <<< 1)) ||| (b2n a2 <<< 2))
        ||| (b2n a3 <<< 3)) ||| (b2n a4 <<< 4))
        ||| (b2n a5 <<< 5)) ||| (b2n a6 <<< 6))) % 128 := by
  decide

theorem get_col_pattern_lt (p : Platforms) (c : Nat)
    (hbin : ∀ i, i < LEDMAT_ROWS_NUM →
      p.display_matrix i c = 0 ∨ p.display_matrix i c = 1) :
    get_col_pattern p c < 128 := by
  simp only [LEDMAT_ROWS_NUM] at hbin
  rw [get_col_pattern_unfold,
    binary_cell_eq _ (hbin 0 (by omega)), binary_cell_eq _ (hbin 1 (by omega)),
    binary_cell_eq _ (hbin 2 (by omega)), binary_cell_eq _ (hbin 3 (by omega)),
    binary_cell_eq _ (hbin 4 (by omega)), binary_cell_eq _ (hbin 5 (by omega)),
    binary_cell_eq _ (hbin 6 (by omega))]
  exact pattern_lt_128 _ _ _ _ _ _ _

theorem get_col_pattern_shift_rows_down (p : Platforms) (c : Nat)
    (hbin : ∀ i, i < LEDMAT_ROWS_NUM →
      p.display_matrix i c = 0 ∨ p.display_matrix i c = 1)
    (hc : c < LEDMAT_COLS_NUM) :
    get_col_pattern (shift_all_rows_down p) c = (2 * get_col_pattern p c) % 128 := by
  simp only [LEDMAT_ROWS_NUM] at hbin
  rw [get_col_pattern_unfold, get_col_pattern_unfold,
    shift_all_rows_down_cell p 0 c (by decide) hc,
    shift_all_rows_down_cell p 1 c (by decide) hc,
    shift_all_rows_down_cell p 2 c (by decide) hc,
    shift_all_rows_down_cell p 3 c (by decide) hc,
    shift_all_rows_down_cell p 4 c (by decide) hc,
    shift_all_rows_down_cell p 5 c (by decide) hc,
    shift_all_rows_down_cell p 6 c (by decide) hc]
  simp only [if_true, OfNat.ofNat_ne_zero, if_false, Nat.one_ne_zero, Nat.reduceSub]
  rw [binary_cell_eq _ (hbin 0 (by omega)), binary_cell_eq _ (hbin 1 (by omega)),
    binary_cell_eq _ (hbin 2 (by omega)), binary_cell_eq _ (hbin 3 (by omega)),
    binary_cell_eq _ (hbin 4 (by omega)), binary_cell_eq _ (hbin 5 (by omega)),
    binary_cell_eq _ (hbin 6 (by omega))]
  exact pattern_shifted _ _ _ _ _ _ _

theorem get_col_pattern_shift_columns_right (p : Platforms) (c : Nat)
    (hc : c < LEDMAT_COLS_NUM) :
    get_col_pattern (shift_all_columns_right p) c =
      if c = 0 then 0 else get_col_pattern p (c - 1) := by
  rw [get_col_pattern_unfold,
    shift_all_columns_right_cell p 0 c (by decide) hc,
    shift_all_columns_right_cell p 1 c (by decide) hc,
    shift_all_columns_right_cell p 2 c (by decide) hc,
    shift_all_columns_right_cell p 3 c (by decide) hc,
    shift_all_columns_right_cell p 4 c (by decide) hc,
    shift_all_columns_right_cell p 5 c (by decide) hc,
    shift_all_columns_right_cell p 6 c (by decide) hc]
  split
  · decide
  · rw [get_col_pattern_unfold]

theorem get_col_pattern_clear (p : Platforms) (c : Nat) (hc : c < LEDMAT_COLS_NUM) :
    get_col_pattern (clear_all_walls p) c = 0 := by
  rw [get_col_pattern_unfold,
    clear_all_walls_cell p 0 c (by decide) hc, clear_all_walls_cell p 1 c (by decide) hc,
    clear_all_walls_cell p 2 c (by decide) hc, clear_all_walls_cell p 3 c (by decide) hc,
    clear_all_walls_cell p 4 c (by decide) hc, clear_all_walls_cell p 5 c (by decide) hc,
    clear_all_walls_cell p 6 c (by decide) hc]
  decide

/-- C24: the cell matrix refines a per-column bitmask.  For every grid with
cells in {0,1} and every column `c < 5`: `get_col_pattern c < 128`; after
`shift_all_rows_down` the pattern of column `c` is `(2 * old pattern) mod 128`;
after `shift_all_columns_right` it is the old pattern of column `c - 1` for `c`
in 1..4 and 0 for `c = 0`; after `clear_all_walls` it is 0. -/
theorem C24_grid_refines_bitmasks (p : Platforms) (c : Nat)
    (hbin : ∀ r k, r < LEDMAT_ROWS_NUM → k < LEDMAT_COLS_NUM →
      p.display_matrix r k = 0 ∨ p.display_matrix r k = 1)
    (hc : c < LEDMAT_COLS_NUM) :
    get_col_pattern p c < 128 ∧
    get_col_pattern (shift_all_rows_down p) c =
      bitmask_shift_rows_down (get_col_pattern p c) ∧
    get_col_pattern (shift_all_rows_down p) c = (2 * get_col_pattern p c) % 128 ∧
    get_col_pattern (shift_all_columns_right p) c =
      bitmask_shift_columns_right (get_col_pattern p) c ∧
    (1 ≤ c → get_col_pattern (shift_all_columns_right p) c = get_col_pattern p (c - 1)) ∧
    (c = 0 → get_col_pattern (shift_all_columns_right p) c = 0) ∧
    get_col_pattern (clear_all_walls p) c = bitmask_clear c ∧
    get_col_pattern (clear_all_walls p) c = 0 := by
  have hcol : ∀ i, i < LEDMAT_ROWS_NUM →
      p.display_matrix i c = 0 ∨ p.display_matrix i c = 1 := fun i hi => hbin i c hi hc
  have hright := get_col_pattern_shift_columns_right p c hc
  refine ⟨get_col_pattern_lt p c hcol, get_col_pattern_shift_rows_down p c hcol hc,
    get_col_pattern_shift_rows_down p c hcol hc, hright, fun h1 => ?_, fun h0 => ?_,
    get_col_pattern_clear p c hc, get_col_pattern_clear p c hc⟩
  · rw [hright, if_neg (by omega)]
  · rw [hright, if_pos h0]

/-- Witness for C24: with a horizontal wall with gap column 3 in row 0, the
pattern of column 2 doubles when the rows are shifted down. -/
theorem C24_grid_refines_bitmasks_witness :
    get_col_pattern
        (shift_all_rows_down
          { platforms_init with display_matrix := fun r c => if r = 0 ∧ c ≠ 3 then 1 else 0 })
        2 =
      (2 * get_col_pattern
        { platforms_init with display_matrix := fun r c => if r = 0 ∧ c ≠ 3 then 1 else 0 }
        2) % 128 :=
  (C24_grid_refines_bitmasks
    { platforms_init with display_matrix := fun r c => if r = 0 ∧ c ≠ 3 then 1 else 0 } 2
    (by intro r c _ _; dsimp only; split <;> simp) (by decide)).2.2.1

/-! ## The display divider -/

theorem subroutine_display_eq (g : Game) :
    subroutine_display g =
      if g.display_counter ≥ 1 then
        ({ g with
            current_render_col := u8 ((g.current_render_col + 1) % 5)
            display_counter := u8 (g.display_counter + 1) },
          some g.current_render_col)
      else
        ({ g with display_counter := u8 (g.display_counter + 1) }, none) := rfl

theorem display_paints_succ (n : Nat) :
    display_paints (n + 1) =
      if (display_calls n boot).display_counter ≥ 1
        then some (display_calls n boot).current_render_col else none := by
  show (subroutine_display (display_calls n boot)).2 = _
  rw [subroutine_display_eq]
  split <;> rfl

/-- The static data of `subroutine_display` after `n` calls from boot: the
counter is `n mod 256` and the render column is the number of painting calls so
far, modulo 5. -/
theorem display_calls_state (n : Nat) :
    (display_calls n boot).display_counter = n % 256 ∧
    (display_calls n boot).current_render_col = painting_calls_upto n % 5 ∧
    painting_calls_upto n = n - (n + 255) / 256 := by
  induction n with
  | zero => exact ⟨rfl, rfl, rfl⟩
  | succ n ih =>
    obtain ⟨h1, h2, h3⟩ := ih
    have hp : painting_calls_upto (n + 1) =
        painting_calls_upto n + (if (display_paints (n + 1)).isSome then 1 else 0) := rfl
    rw [hp, display_paints_succ]
    show (subroutine_display (display_calls n boot)).1.display_counter = _ ∧
      (subroutine_display (display_calls n boot)).1.current_render_col = _ ∧ _
    rw [subroutine_display_eq]
    by_cases hge : (display_calls n boot).display_counter ≥ 1
    · simp only [if_pos hge, Option.isSome_some, if_true]
      refine ⟨?_, ?_, ?_⟩
      · show u8 ((display_calls n boot).display_counter + 1) = _
        rw [h1]; unfold u8; omega
      · show u8 (((display_calls n boot).current_render_col + 1) % 5) = _
        rw [h2]; unfold u8; omega
      · rw [h1] at hge; omega
    · simp only [if_neg hge, Option.isSome_none, Bool.false_eq_true, if_false]
      refine ⟨?_, ?_, ?_⟩
      · show u8 ((display_calls n boot).display_counter + 1) = _
        rw [h1]; unfold u8; omega
      · show (display_calls n boot).current_render_col = _
        rw [h2]; rfl
      · rw [h1] at hge; omega

/-- C25: `subroutine_display` never resets its 8-bit counter, which wraps
modulo 256 (threshold `PACER_RATE / DISPLAY_RATE = 1`).  Counting calls from
boot starting at 1, the counter after `n` calls is `n mod 256`; call `n`
paints a column iff `(n - 1) mod 256` is not 0; a painting call that is the
`k`-th painting call paints column `(k - 1) mod 5`, and `k` is
`n - (n + 255) / 256`. -/
theorem C25_display_counter_wraps (n : Nat) :
    PACER_RATE / DISPLAY_RATE = 1 ∧
    (display_calls n boot).display_counter = n % 256 ∧
    ((display_paints n).isSome = true ↔ (n - 1) % 256 ≠ 0) ∧
    (∀ col, display_paints n = some col →
      1 ≤ painting_calls_upto n ∧ col = (painting_calls_upto n - 1) % 5) ∧
    painting_calls_upto n = n - (n + 255) / 256 := by
  obtain ⟨h1, _, h3⟩ := display_calls_state n
  refine ⟨by decide, h1, ?_, ?_, h3⟩
  · cases n with
    | zero => decide
    | succ k =>
      obtain ⟨k1, _, _⟩ := display_calls_state k
      rw [display_paints_succ, k1]
      simp only [Nat.add_sub_cancel]
      split
      · simp only [Option.isSome_some, true_iff]; omega
      · simp only [Option.isSome_none, Bool.false_eq_true, false_iff]; omega
  · intro col hcol
    cases n with
    | zero =>
      have h0 : display_paints 0 = none := rfl
      rw [h0] at hcol
      exact absurd hcol (by simp)
    | succ k =>
      obtain ⟨k1, k2, k3⟩ := display_calls_state k
      rw [display_paints_succ, k1] at hcol
      split at hcol
      · rename_i hge
        have hc : (display_calls k boot).current_render_col = col := Option.some.inj hcol
        rw [k2] at hc
        rw [h3, ← hc, k3]
        constructor <;> omega
      · exact absurd hcol (by simp)

/-- Witness for C25: call 257 paints nothing and call 258 is the 256th painting
call. -/
theorem C25_display_counter_wraps_witness :
    (display_paints 257).isSome = false ∧ painting_calls_upto 258 = 256 ∧
    ((display_paints 258).isSome = true ↔ (258 - 1) % 256 ≠ 0) :=
  ⟨by
    have h := (C25_display_counter_wraps 257).2.2.1
    cases hs : (display_paints 257).isSome
    · rfl
    · exact absurd (h.mp hs) (by decide),
   (C25_display_counter_wraps 258).2.2.2.2,
   (C25_display_counter_wraps 258).2.2.1⟩

/-! ## The flash invariant -/

theorem powerup_use_step_begin (button : Bool) (g : Game)
    (hout : (powerup_use_step button g).screen_is_flashing = true)
    (hin : g.screen_is_flashing = false) :
    (powerup_use_step button g).platforms = clear_all_walls g.platforms := by
  unfold powerup_use_step at hout ⊢
  split
  · rfl
  · rename_i h
    rw [if_neg h, hin] at hout
    exact absurd hout (by decide)

/-- A call of `subroutine_powerup` that returns with the flash asserted returns
with the wall-spawn counter at 0, and with the grid clear if the flash was not
asserted on entry. -/
theorem subroutine_powerup_flash_begin (button : Bool) (rnd_row rnd_col : Nat) (g : Game)
    (hout : (subroutine_powerup button rnd_row rnd_col g).screen_is_flashing = true) :
    (subroutine_powerup button rnd_row rnd_col g).new_platform_counter = 0 ∧
    (g.screen_is_flashing = false →
      grid_clear (subroutine_powerup button rnd_row rnd_col g).platforms) := by
  obtain ⟨c1, _, c3, _, _, _, _⟩ := powerup_collect_step_frame g
  obtain ⟨k1, _, _, k4, _, _⟩ :=
    powerup_create_step_frame rnd_row rnd_col (powerup_use_step button (powerup_collect_step g))
  obtain ⟨f1, _, _, _⟩ := powerup_flash_step_frame
    (powerup_create_step rnd_row rnd_col (powerup_use_step button (powerup_collect_step g)))
  unfold subroutine_powerup at hout ⊢
  have hpre := ((powerup_flash_step_flashing _).mp hout).1
  refine ⟨(powerup_flash_step_flashing_case _ hpre).1, fun hin => ?_⟩
  rw [k4] at hpre
  rw [f1, k1, powerup_use_step_begin button _ hpre (by rw [c3]; exact hin)]
  exact fun r c hr hc => clear_all_walls_cell _ r c hr hc

/-- The simulation block, for stored rates in range and the player in bounds:
if it returns with the flash asserted although it was not on entry, the grid is
clear and the wall-spawn counter is 0. -/
theorem simulation_step_flash_begin (inp : TickInput) (m : Main)
    (hR : rates_in_range m.g.platforms) (hP : player_in_bounds m.g.player) :
    ∃ m1, simulation_step inp m = some m1 ∧
      (m1.g.screen_is_flashing = true → m.g.screen_is_flashing = false →
        grid_clear m1.g.platforms ∧ m1.g.new_platform_counter = 0) := by
  obtain ⟨g1, sc1, hw, w_pl, _, _, w_fl, _, _, w_R, _, _⟩ :=
    subroutine_walls_spec m.in_phase_changeover_period m.score inp.rnd_wall m.g hR
  obtain ⟨g4, b4, h4, _, _, fl4, _, _⟩ :=
    before_powerup_spec inp m.in_phase_changeover_period g1 w_R (by rw [w_pl]; exact hP)
  have hstep : simulation_step inp m =
      some { m with
              g := subroutine_powerup inp.button inp.rnd_row inp.rnd_col g4
              score := sc1
              in_phase_changeover_period := b4 } := by
    unfold simulation_step
    rw [hw]
    simp only [h4]
  refine ⟨_, hstep, fun hout hin => ?_⟩
  have hb := subroutine_powerup_flash_begin inp.button inp.rnd_row inp.rnd_col g4 hout
  exact ⟨hb.2 (by rw [fl4, w_fl]; exact hin), hb.1⟩

/-- A tick past the interface block without collision: everything
`playing_step_spec` states, and if the tick returns with the flash asserted
although it was not on entry, the grid is clear and the wall-spawn counter
is 0. -/
theorem playing_step_flash_spec (inp : TickInput) (m : Main)
    (hR : rates_in_range m.g.platforms) (hP : player_in_bounds m.g.player)
    (hcol : is_player_colliding_with_platform m.g.platforms m.g.player = false) :
    ∃ m1, playing_step inp m = some m1 ∧
      m1.interface_mode = m.interface_mode ∧ m1.game_over = false ∧
      m1.game_over_wait_timer = m.game_over_wait_timer ∧
      (m.g.screen_is_flashing = true → m.g.new_platform_counter = 0 →
        grid_clear m.g.platforms →
        m1.score = m.score ∧ grid_clear m1.g.platforms ∧ m1.g.new_platform_counter = 0) ∧
      (m1.g.screen_is_flashing = true → m.g.screen_is_flashing = false →
        grid_clear m1.g.platforms ∧ m1.g.new_platform_counter = 0) := by
  obtain ⟨m1, p1, p2, p3, p4, _, _, p7⟩ := playing_step_spec inp m hR hP hcol
  obtain ⟨s1, _, _, _, _, _, _, s8, _, _⟩ := cosmetic_same m.g
  obtain ⟨m2, q1, q2⟩ := simulation_step_flash_begin inp
    { m with
      game_over := false
      g := subroutine_powerup_modulate (subroutine_player_blink (subroutine_display m.g).1) }
    (by show rates_in_range (subroutine_powerup_modulate _).platforms; rw [s1]; exact hR)
    (same_simulation_data_bounds _ _ (cosmetic_same m.g) hP)
  have heq : m1 = m2 := by
    rw [playing_step_sim inp m hcol, q1] at p1
    exact (Option.some.inj p1).symm
  subst heq
  refine ⟨m1, p1, p2, p3, p4, fun a b c => ?_, fun hout hin => ?_⟩
  · obtain ⟨x1, x2, x3, _⟩ := p7 a b c
    exact ⟨x1, x2, x3⟩
  · exact q2 hout (by show (subroutine_powerup_modulate _).screen_is_flashing = false
                      rw [s8]; exact hin)

/-- One iteration of the main loop from a state satisfying the loop invariant
and the flash invariant returns a state satisfying the flash invariant; if the
flash is asserted before the tick, the tick detects no collision, stays in play
(no GameOver, no reset) and creates no wall. -/
theorem main_tick_flash (inp : TickInput) (m : Main)
    (h : loop_invariant m) (hf : flash_invariant m) :
    ∃ m1, main_tick inp m = some m1 ∧ flash_invariant m1 ∧
      (m.g.screen_is_flashing = true →
        is_player_colliding_with_platform m.g.platforms m.g.player = false ∧
        m1.interface_mode = false ∧ m1.game_over = false ∧
        m1.game_over_wait_timer = m.game_over_wait_timer ∧ m1.score = m.score) := by
  obtain ⟨hR, hP, _⟩ := h
  have hbtn := subroutine_read_button_same m.g
  cases hmode : m.interface_mode
  · -- outside interface mode
    obtain ⟨i1, i2, i3, i4, _, i6⟩ := interface_step_playing inp.button m hmode
    have hsame : same_simulation_data m.g (interface_step inp.button m).1.g := by
      rw [i6]; exact hbtn
    have hPi := same_simulation_data_bounds _ _ hsame hP
    have hci := same_simulation_data_colliding _ _ hsame
    obtain ⟨s1, _, _, _, _, _, _, s8, _, s10⟩ := hsame
    have hRi : rates_in_range (interface_step inp.button m).1.g.platforms := by
      rw [s1]; exact hR
    rw [main_tick_go_on inp m i1]
    cases hcol : is_player_colliding_with_platform m.g.platforms m.g.player
    · -- no collision: the simulation runs
      obtain ⟨m1, p1, p2, p3, p4, p5, p6⟩ :=
        playing_step_flash_spec inp (interface_step inp.button m).1 hRi hPi
          (by rw [hci]; exact hcol)
      refine ⟨m1, p1, fun hout => ?_, fun hin => ?_⟩
      · cases hfl : m.g.screen_is_flashing
        · obtain ⟨z, n0⟩ := p6 hout (by rw [s8]; exact hfl)
          exact ⟨z, n0, by rw [p2, i2], p3⟩
        · obtain ⟨z, n0, _, _⟩ := hf hfl
          obtain ⟨_, z1, n1⟩ := p5 (by rw [s8]; exact hfl) (by rw [s10]; exact n0)
            (by rw [s1]; exact z)
          exact ⟨z1, n1, by rw [p2, i2], p3⟩
      · obtain ⟨z, n0, _, _⟩ := hf hin
        obtain ⟨sc, _, _⟩ := p5 (by rw [s8]; exact hin) (by rw [s10]; exact n0)
          (by rw [s1]; exact z)
        exact ⟨rfl, by rw [p2, i2], p3, by rw [p4, i3], by rw [sc, i4]⟩
    · -- collision: the flash cannot be asserted
      have hnofl : m.g.screen_is_flashing = false := by
        cases hfl : m.g.screen_is_flashing
        · rfl
        · obtain ⟨z, _, _, _⟩ := hf hfl
          rw [not_colliding_of_clear _ _ z hP] at hcol
          exact absurd hcol (by decide)
      by_cases ht : (interface_step inp.button m).1.game_over_wait_timer
          ≥ GAME_OVER_WAIT_PERIOD * PACER_RATE
      · obtain ⟨m1, p1, _, _, _, p5⟩ :=
          playing_step_reset inp (interface_step inp.button m).1 (by rw [hci]; exact hcol) ht
        have hfl1 : m1.g.screen_is_flashing = false := by
          rw [p5]
          show (interface_step inp.button m).1.g.screen_is_flashing = false
          rw [s8]; exact hnofl
        refine ⟨m1, p1, fun hout => ?_, fun hin => ?_⟩
        · rw [hfl1] at hout; exact absurd hout (by decide)
        · rw [hnofl] at hin; exact absurd hin (by decide)
      · obtain ⟨m1, p1, _, _, _, _, _, p7⟩ :=
          playing_step_hold inp (interface_step inp.button m).1 (by rw [hci]; exact hcol)
            (by omega)
        have hfl1 : m1.g.screen_is_flashing = false := by
          rw [p7.2.2.2.2.2.2.2.1, s8]; exact hnofl
        refine ⟨m1, p1, fun hout => ?_, fun hin => ?_⟩
        · rw [hfl1] at hout; exact absurd hout (by decide)
        · rw [hnofl] at hin; exact absurd hin (by decide)
  · -- interface mode: the flash cannot be asserted
    have hnofl : m.g.screen_is_flashing = false := by
      cases hfl : m.g.screen_is_flashing
      · rfl
      · obtain ⟨_, _, hm, _⟩ := hf hfl
        rw [hmode] at hm
        exact absurd hm (by decide)
    have hbfl : (subroutine_read_button m.g).1.screen_is_flashing = false := by
      rw [hbtn.2.2.2.2.2.2.2.1]; exact hnofl
    by_cases hstart : inp.button = true ∧
        (m.first_startup_counter = 254 ∨ m.first_startup_counter = 255)
    · obtain ⟨hb, hfs⟩ := hstart
      obtain ⟨i1, i2, _, _, _, i6⟩ := interface_step_start inp.button m hb hmode hfs
      obtain ⟨r1, r2, r3, _⟩ := reset_game_spec (subroutine_read_button m.g).1
      rw [main_tick_go_on inp m i1]
      obtain ⟨m1, p1, p2, p3, _, _, p6⟩ :=
        playing_step_flash_spec inp (interface_step inp.button m).1 (by rw [i6]; exact r1)
          (by rw [i6]; exact r3) (by rw [i6]; exact not_colliding_of_clear _ _ r2 r3)
      refine ⟨m1, p1, fun hout => ?_, fun hin => ?_⟩
      · obtain ⟨z, n0⟩ := p6 hout (by rw [i6]; exact hbfl)
        exact ⟨z, n0, by rw [p2, i2], p3⟩
      · rw [hnofl] at hin; exact absurd hin (by decide)
    · have hno : inp.button = false ∨
          ¬ (m.first_startup_counter = 254 ∨ m.first_startup_counter = 255) := by
        by_cases hb : inp.button = true
        · right; intro hfs; exact hstart ⟨hb, hfs⟩
        · left; simpa using hb
      obtain ⟨i1, _, _, _, i5⟩ := interface_step_stay inp.button m hmode hno
      rw [main_tick_continue inp m i1]
      refine ⟨_, rfl, fun hout => ?_, fun hin => ?_⟩
      · rw [i5, hbfl] at hout; exact absurd hout (by decide)
      · rw [hnofl] at hin; exact absurd hin (by decide)

theorem boot_flash_invariant : flash_invariant main_boot := by
  intro h
  exact absurd h (by decide)

/-- Every run of the main loop from a state satisfying the loop invariant and
the flash invariant returns a state satisfying both. -/
theorem main_run_flash_invariant (inps : List TickInput) :
    ∀ m, loop_invariant m → flash_invariant m →
      ∃ m1, main_run inps m = some m1 ∧ loop_invariant m1 ∧ flash_invariant m1 := by
  induction inps with
  | nil => exact fun m h hf => ⟨m, rfl, h, hf⟩
  | cons inp rest ih =>
    intro m h hf
    obtain ⟨m1, h1, hinv, _⟩ := main_tick_invariant inp m h
    obtain ⟨m1', h1', hfl, _⟩ := main_tick_flash inp m h hf
    have heq : m1' = m1 := by
      rw [h1] at h1'
      exact (Option.some.inj h1').symm
    rw [heq] at hfl
    obtain ⟨m2, h2, hinv2, hfl2⟩ := ih m1 hinv hfl
    refine ⟨m2, ?_, hinv2, hfl2⟩
    show (match main_tick inp m with
      | none => none
      | some m1 => main_run rest m1) = some m2
    rw [h1]
    exact h2

/-- What the two invariants give at a tick boundary with the flash asserted. -/
theorem flash_state_spec (m : Main) (h : loop_invariant m) (hf : flash_invariant m)
    (hfl : m.g.screen_is_flashing = true) :
    grid_clear m.g.platforms ∧ m.g.new_platform_counter = 0 ∧
    is_player_colliding_with_platform m.g.platforms m.g.player = false ∧
    m.interface_mode = false ∧ m.game_over = false ∧
    (∀ inp, ∃ m1, main_tick inp m = some m1 ∧
      m1.game_over = false ∧ m1.interface_mode = false ∧
      m1.game_over_wait_timer = m.game_over_wait_timer ∧ m1.score = m.score) := by
  obtain ⟨z, n0, im, go⟩ := hf hfl
  refine ⟨z, n0, not_colliding_of_clear _ _ z h.2.1, im, go, fun inp => ?_⟩
  obtain ⟨m1, t1, _, t3⟩ := main_tick_flash inp m h hf
  obtain ⟨_, a, b, c, d⟩ := t3 hfl
  exact ⟨m1, t1, b, a, c, d⟩

/-- C23: in every state reachable by the main loop at a tick boundary (from
boot, and more generally from any state satisfying the loop invariant and the
flash invariant), `screen_is_flashing` implies that every grid cell is 0 and
`new_platform_counter` is 0; consequently no collision is detected, the loop is
in play (outside interface mode, `game_over` false), and the next tick, whatever
its inputs, again ends in play with `game_over` false, the game-over timer and
the score unchanged: no GameOver and no reset while the flash is asserted. -/
theorem C23_flash_implies_clear_grid (m0 : Main) (inps : List TickInput)
    (h0 : loop_invariant m0) (hf0 : flash_invariant m0) :
    (loop_invariant main_boot ∧ flash_invariant main_boot) ∧
    (∃ m, main_run inps main_boot = some m ∧
      (m.g.screen_is_flashing = true →
        grid_clear m.g.platforms ∧ m.g.new_platform_counter = 0 ∧
        is_player_colliding_with_platform m.g.platforms m.g.player = false ∧
        m.interface_mode = false ∧ m.game_over = false ∧
        (∀ inp, ∃ m1, main_tick inp m = some m1 ∧
          m1.game_over = false ∧ m1.interface_mode = false ∧
          m1.game_over_wait_timer = m.game_over_wait_timer ∧ m1.score = m.score))) ∧
    (∃ m, main_run inps m0 = some m ∧
      (m.g.screen_is_flashing = true →
        grid_clear m.g.platforms ∧ m.g.new_platform_counter = 0 ∧
        is_player_colliding_with_platform m.g.platforms m.g.player = false ∧
        m.interface_mode = false ∧ m.game_over = false ∧
        (∀ inp, ∃ m1, main_tick inp m = some m1 ∧
          m1.game_over = false ∧ m1.interface_mode = false ∧
          m1.game_over_wait_timer = m.game_over_wait_timer ∧ m1.score = m.score))) := by
  refine ⟨⟨boot_invariant, boot_flash_invariant⟩, ?_, ?_⟩
  · obtain ⟨m, hm, hinv, hfl⟩ :=
      main_run_flash_invariant inps main_boot boot_invariant boot_flash_invariant
    exact ⟨m, hm, flash_state_spec m hinv hfl⟩
  · obtain ⟨m, hm, hinv, hfl⟩ := main_run_flash_invariant inps m0 h0 hf0
    exact ⟨m, hm, flash_state_spec m hinv hfl⟩

/-- Witness for C23: the state after the powerup held at boot is used has the
flash asserted and satisfies both invariants; one tick later, if the flash is
still asserted, the grid is clear and `new_platform_counter` is 0. -/
theorem C23_flash_implies_clear_grid_witness :
    main_after_use.g.screen_is_flashing = true ∧
    (∃ m, main_run [button_press] main_after_use = some m ∧
      (m.g.screen_is_flashing = true →
        grid_clear m.g.platforms ∧ m.g.new_platform_counter = 0)) :=
  have h := (C23_flash_implies_clear_grid main_after_use [button_press]
    ⟨by unfold rates_in_range; decide, by unfold player_in_bounds; decide, Or.inl rfl⟩
    (fun _ => ⟨(using_call_spec boot_holding_powerup 0 0 rfl (by decide)).2.2.2.1,
      by decide, rfl, rfl⟩)).2.2
  match h with
  | ⟨m, hm, himp⟩ => ⟨by decide, m, hm, fun hfl => ⟨(himp hfl).1, (himp hfl).2.1⟩⟩

end HoleInTheWall
